import Mathlib

/-!
# Interconnect bandwidth arbitration core (drivers/interconnect/qcom/icc-rpm-qos.c)

A shallow embedding of the vote path of the MSM8996 interconnect driver:
`qcom_icc_rpm_qos_set` and the helpers it calls.

* C integers are natural numbers or integers; a store into a `u32` or `u64`
  object is written as an explicit `% 2 ^ 32` or `% 2 ^ 64`.
* The three collaborators the driver calls (`regmap_update_bits`,
  `qcom_icc_rpm_smd_send`, `clk_set_rate`) are recorded as `Call`s.  Their
  return codes come from an environment `Env`, which may answer differently
  depending on every call issued before (so a call may fail once and succeed
  when retried).
* Every function receives the history `log` of the calls issued so far and
  returns its return code together with the calls it issued itself.
* Macros and constants that live in headers outside the source files at hand
  are collected in `Headers` and stay parameters of every definition.
* The node table of msm8996.c is transcribed entry by entry (`msm8996_qnodes`);
  the identifier constants it names stay symbolic (`NodeId`), their values
  being a parameter `val`.
-/

namespace IccRpmQos

/-! ## Data model -/

/-- Header values used by the driver whose definitions are outside the source
files at hand (icc-rpm-qos.h, smd-rpm.h, linux/interconnect.h).  They are
parameters of the embedding. -/
structure Headers where
  /-- The conversion `icc_units_to_bps(bw)` of linux/interconnect.h -/
  icc_units_to_bps : Nat → Nat
  NOC_QOS_MODE_FIXED : Nat
  NOC_QOS_MODE_BYPASS : Nat
  /-- The address `M_BKE_HEALTH_CFG_ADDR(regnum, qos_port)` -/
  M_BKE_HEALTH_CFG_ADDR : Nat → Int → Nat
  /-- The address `M_BKE_EN_ADDR(qos_port)` -/
  M_BKE_EN_ADDR : Int → Nat
  M_BKE_HEALTH_CFG_PRIOLVL_MASK : Nat
  M_BKE_HEALTH_CFG_AREQPRIO_MASK : Nat
  M_BKE_HEALTH_CFG_AREQPRIO_SHIFT : Nat
  M_BKE_HEALTH_CFG_LIMITCMDS_MASK : Nat
  M_BKE_HEALTH_CFG_LIMITCMDS_SHIFT : Nat
  M_BKE_EN_EN_BMASK : Nat
  /-- The address `NOC_QOS_PRIORITYn_ADDR(qos_port)` -/
  NOC_QOS_PRIORITYn_ADDR : Int → Nat
  NOC_QOS_PRIORITY_MASK : Nat
  NOC_QOS_PRIORITY_P1_SHIFT : Nat
  NOC_QOS_PRIORITY_P0_SHIFT : Nat
  /-- The address `NOC_QOS_MODEn_ADDR(qos_port)` -/
  NOC_QOS_MODEn_ADDR : Int → Nat
  NOC_QOS_MODEn_MASK : Nat
  QCOM_SMD_RPM_ACTIVE_STATE : Nat
  RPM_BUS_MASTER_REQ : Nat
  RPM_BUS_SLAVE_REQ : Nat

/-- The header values of the mainline kernel tree this driver is built in:
`icc_units_to_bps(bw)` is `(bw) * 1000ULL` (interconnect units are kilobytes
per second), the register layout is the one of the BIMC and NoC QoS blocks.
A register address is converted to the `unsigned int` argument of
`regmap_update_bits`, hence the reduction modulo 2^32. -/
def kernel_headers : Headers where
  icc_units_to_bps := fun bw => bw * 1000
  NOC_QOS_MODE_FIXED := 0
  NOC_QOS_MODE_BYPASS := 2
  M_BKE_HEALTH_CFG_ADDR := fun i n => ((0x300 + 0x4000 * n + 0x40 + 0x4 * (i : Int)) % 2 ^ 32).toNat
  M_BKE_EN_ADDR := fun n => ((0x300 + 0x4000 * n) % 2 ^ 32).toNat
  M_BKE_HEALTH_CFG_PRIOLVL_MASK := 0x3
  M_BKE_HEALTH_CFG_AREQPRIO_MASK := 0x300
  M_BKE_HEALTH_CFG_AREQPRIO_SHIFT := 0x8
  M_BKE_HEALTH_CFG_LIMITCMDS_MASK := 0x80000000
  M_BKE_HEALTH_CFG_LIMITCMDS_SHIFT := 0x1f
  M_BKE_EN_EN_BMASK := 0x1
  NOC_QOS_PRIORITYn_ADDR := fun n => ((0x8 + n * 0x1000) % 2 ^ 32).toNat
  NOC_QOS_PRIORITY_MASK := 0xf
  NOC_QOS_PRIORITY_P1_SHIFT := 0x2
  NOC_QOS_PRIORITY_P0_SHIFT := 0x3
  NOC_QOS_MODEn_ADDR := fun n => ((0xc + n * 0x1000) % 2 ^ 32).toNat
  NOC_QOS_MODEn_MASK := 0x3
  QCOM_SMD_RPM_ACTIVE_STATE := 0
  RPM_BUS_MASTER_REQ := 0x73616d62
  RPM_BUS_SLAVE_REQ := 0x766c7362

/-- The QoS descriptor `struct qcom_icc_qos` of a node -/
structure qcom_icc_qos where
  areq_prio : Nat
  prio_level : Nat
  limit_commands : Bool
  ap_owned : Bool
  qos_mode : Int
  qos_port : Int
deriving DecidableEq, Repr

/-- The driver data `struct qcom_icc_node` of a node -/
structure qcom_icc_node where
  id : Nat
  links : List Nat
  buswidth : Nat
  mas_rpm_id : Int
  slv_rpm_id : Int
  qos : qcom_icc_qos
  rate : Nat
deriving DecidableEq, Repr

/-- The framework node `struct icc_node`: the bandwidth ledger entry
(`avg_bw`, `peak_bw`) and the driver data `data` -/
structure icc_node where
  avg_bw : Nat
  peak_bw : Nat
  data : qcom_icc_node
deriving DecidableEq, Repr

/-- The provider `struct qcom_icc_provider`: the list `provider.nodes`, the
clock handles `bus_clks[0 .. num_clks-1]` and the family flag -/
structure qcom_icc_provider where
  nodes : List icc_node
  bus_clks : List Nat
  is_bimc_node : Bool
deriving DecidableEq, Repr

/-- The calls into the collaborators, with their arguments -/
inductive Call where
  | regmap_update_bits (reg mask val : Nat)
  | qcom_icc_rpm_smd_send (ctx rsc_type : Nat) (id : Int) (val : Nat)
  | clk_set_rate (clk rate : Nat)
deriving DecidableEq, Repr

/-- The return code of a collaborator call, given the calls issued before it -/
abbrev Env := List Call → Call → Int

/-- Whether a call is a clock-rate write -/
def Call.is_clk : Call → Bool
  | .clk_set_rate _ _ => true
  | _ => false

/-- Whether a call is a register write -/
def Call.is_regmap : Call → Bool
  | .regmap_update_bits _ _ _ => true
  | _ => false

/-- Whether a call is a remote send -/
def Call.is_send : Call → Bool
  | .qcom_icc_rpm_smd_send _ _ _ _ => true
  | _ => false

/-- The outcome of one `qcom_icc_rpm_qos_set`: return code, provider state
afterwards and the calls issued, in order -/
structure Result where
  ret : Int
  provider : qcom_icc_provider
  calls : List Call
deriving DecidableEq, Repr

/-! ## QoS arbiter -/

/-- The function `qcom_icc_bimc_set_qos_health` (icc-rpm-qos.c:20) -/
def qcom_icc_bimc_set_qos_health (h : Headers) (env : Env) (log : List Call)
    (qos : qcom_icc_qos) (regnum : Nat) : Int × List Call :=
  let val := qos.prio_level % 2 ^ 32
  let mask := h.M_BKE_HEALTH_CFG_PRIOLVL_MASK
  let val := (val ||| (qos.areq_prio <<< h.M_BKE_HEALTH_CFG_AREQPRIO_SHIFT)) % 2 ^ 32
  let mask := mask ||| h.M_BKE_HEALTH_CFG_AREQPRIO_MASK
  let val := if regnum ≠ 3 then
      (val ||| (qos.limit_commands.toNat <<< h.M_BKE_HEALTH_CFG_LIMITCMDS_SHIFT)) % 2 ^ 32
    else val
  let mask := if regnum ≠ 3 then mask ||| h.M_BKE_HEALTH_CFG_LIMITCMDS_MASK else mask
  let c := Call.regmap_update_bits (h.M_BKE_HEALTH_CFG_ADDR regnum qos.qos_port) mask val
  (env log c, [c])

/-- The loop `for (i = 3; i >= 0; i--)` of `qcom_icc_set_bimc_qos`
(icc-rpm-qos.c:65), run over the remaining register numbers; it stops at the
first failing write -/
def bimc_health_loop (h : Headers) (env : Env) (log : List Call) (qos : qcom_icc_qos) :
    List Nat → Int × List Call
  | [] => (0, [])
  | i :: rest =>
    let r := qcom_icc_bimc_set_qos_health h env log qos i
    if r.1 ≠ 0 then r
    else
      let r2 := bimc_health_loop h env (log ++ r.2) qos rest
      (r2.1, r.2 ++ r2.2)

/-- The function `qcom_icc_set_bimc_qos` (icc-rpm-qos.c:44); `max_bw` and
`bypass_mode` are not read by the body -/
def qcom_icc_set_bimc_qos (h : Headers) (env : Env) (log : List Call)
    (qn : qcom_icc_node) (max_bw : Nat) (bypass_mode : Bool) : Int × List Call :=
  let mode : Nat := if qn.qos.qos_mode ≠ -1 then (qn.qos.qos_mode % 2 ^ 32).toNat
    else h.NOC_QOS_MODE_BYPASS
  if mode ≠ h.NOC_QOS_MODE_BYPASS then
    let r := bimc_health_loop h env log qn.qos [3, 2, 1, 0]
    if r.1 ≠ 0 then r
    else
      let c := Call.regmap_update_bits (h.M_BKE_EN_ADDR qn.qos.qos_port) h.M_BKE_EN_EN_BMASK 1
      (env (log ++ r.2) c, r.2 ++ [c])
  else
    let c := Call.regmap_update_bits (h.M_BKE_EN_ADDR qn.qos.qos_port) h.M_BKE_EN_EN_BMASK 0
    (env log c, [c])

/-- The function `qcom_icc_noc_set_qos_priority` (icc-rpm-qos.c:80) -/
def qcom_icc_noc_set_qos_priority (h : Headers) (env : Env) (log : List Call)
    (qos : qcom_icc_qos) : Int × List Call :=
  let val := (qos.areq_prio <<< h.NOC_QOS_PRIORITY_P1_SHIFT) % 2 ^ 32
  let c1 := Call.regmap_update_bits (h.NOC_QOS_PRIORITYn_ADDR qos.qos_port)
    h.NOC_QOS_PRIORITY_MASK val
  let rc := env log c1
  if rc ≠ 0 then (rc, [c1])
  else
    let val := (qos.prio_level <<< h.NOC_QOS_PRIORITY_P0_SHIFT) % 2 ^ 32
    let c2 := Call.regmap_update_bits (h.NOC_QOS_PRIORITYn_ADDR qos.qos_port)
      h.NOC_QOS_PRIORITY_MASK val
    (env (log ++ [c1]) c2, [c1, c2])

/-- The function `qcom_icc_set_noc_qos` (icc-rpm-qos.c:98); `max_bw` is not
read by the body -/
def qcom_icc_set_noc_qos (h : Headers) (env : Env) (log : List Call)
    (qn : qcom_icc_node) (max_bw : Nat) : Int × List Call :=
  if qn.qos.qos_port < 0 then (0, [])
  else
    let mode : Nat := if qn.qos.qos_mode ≠ -1 then (qn.qos.qos_mode % 2 ^ 32).toNat
      else h.NOC_QOS_MODE_BYPASS
    let r : Int × List Call :=
      if mode = h.NOC_QOS_MODE_FIXED then qcom_icc_noc_set_qos_priority h env log qn.qos
      else (0, [])
    if r.1 ≠ 0 then r
    else
      let c := Call.regmap_update_bits (h.NOC_QOS_MODEn_ADDR qn.qos.qos_port)
        h.NOC_QOS_MODEn_MASK mode
      (env (log ++ r.2) c, r.2 ++ [c])

/-- The function `qcom_icc_qos_set` (icc-rpm-qos.c:136) -/
def qcom_icc_qos_set (h : Headers) (env : Env) (log : List Call)
    (qp : qcom_icc_provider) (qn : qcom_icc_node) (sum_bw : Nat) : Int × List Call :=
  if qp.is_bimc_node then
    qcom_icc_set_bimc_qos h env log qn sum_bw
      (decide (qn.qos.qos_mode = (h.NOC_QOS_MODE_BYPASS : Int)))
  else qcom_icc_set_noc_qos h env log qn sum_bw

/-! ## Remote vote -/

/-- The master-side request of `qcom_icc_rpm_set` -/
def mas_req (h : Headers) (mas_rpm_id : Int) (sum_bw : Nat) : Call :=
  .qcom_icc_rpm_smd_send h.QCOM_SMD_RPM_ACTIVE_STATE h.RPM_BUS_MASTER_REQ mas_rpm_id sum_bw

/-- The slave-side request of `qcom_icc_rpm_set` -/
def slv_req (h : Headers) (slv_rpm_id : Int) (sum_bw : Nat) : Call :=
  .qcom_icc_rpm_smd_send h.QCOM_SMD_RPM_ACTIVE_STATE h.RPM_BUS_SLAVE_REQ slv_rpm_id sum_bw

/-- The function `qcom_icc_rpm_set` (icc-rpm-qos.c:150) -/
def qcom_icc_rpm_set (h : Headers) (env : Env) (log : List Call)
    (mas_rpm_id slv_rpm_id : Int) (sum_bw : Nat) : Int × List Call :=
  let r : Int × List Call :=
    if mas_rpm_id ≠ -1 then (env log (mas_req h mas_rpm_id sum_bw), [mas_req h mas_rpm_id sum_bw])
    else (0, [])
  if r.1 ≠ 0 then r
  else if slv_rpm_id ≠ -1 then
    (env (log ++ r.2) (slv_req h slv_rpm_id sum_bw), r.2 ++ [slv_req h slv_rpm_id sum_bw])
  else r

/-! ## Aggregation and rate dispatch -/

/-- Modelled from the spec: the aggregate callback `icc_std_aggregate` of the
interconnect core (installed by `qnoc_probe`, msm8996.c:498; its body is not
among the source files).  It adds the node's average demand to the running
total and keeps the maximum of the peak demands. -/
def icc_std_aggregate (avg_bw peak_bw : Nat) (agg : Nat × Nat) : Nat × Nat :=
  (agg.1 + avg_bw, max agg.2 peak_bw)

/-- The loop `list_for_each_entry(n, &provider->nodes, node_list)` of
`qcom_icc_rpm_qos_set` (icc-rpm-qos.c:198) from the accumulators `agg`; the
accumulators `agg_avg` and `agg_peak` are `u32` objects -/
def aggregate_from : List icc_node → Nat × Nat → Nat × Nat
  | [], agg => agg
  | n :: rest, agg =>
    let r := icc_std_aggregate n.avg_bw n.peak_bw agg
    aggregate_from rest (r.1 % 2 ^ 32, r.2 % 2 ^ 32)

/-- The aggregation of `qcom_icc_rpm_qos_set`, started from `agg_avg = 0` and
`agg_peak = 0` (icc-rpm-qos.c:190) -/
def aggregate (nodes : List icc_node) : Nat × Nat :=
  aggregate_from nodes (0, 0)

/-- The value `sum_bw` of icc-rpm-qos.c:202, a `u64` -/
def sum_bw (h : Headers) (qp : qcom_icc_provider) : Nat :=
  h.icc_units_to_bps (aggregate qp.nodes).1 % 2 ^ 64

/-- The value `max_peak_bw` of icc-rpm-qos.c:203, a `u64` -/
def max_peak_bw (h : Headers) (qp : qcom_icc_provider) : Nat :=
  h.icc_units_to_bps (aggregate qp.nodes).2 % 2 ^ 64

/-- The dispatch step of `qcom_icc_rpm_qos_set` (icc-rpm-qos.c:205-215): its
return code (0 when nothing is called) and the calls it issues -/
def dispatch (h : Headers) (env : Env) (log : List Call)
    (qp : qcom_icc_provider) (qn : qcom_icc_node) : Int × List Call :=
  if !qn.qos.ap_owned then
    qcom_icc_rpm_set h env log qn.mas_rpm_id qn.slv_rpm_id (sum_bw h qp)
  else if qn.qos.qos_mode ≠ -1 then
    qcom_icc_qos_set h env log qp qn (sum_bw h qp)
  else (0, [])

/-- The value `rate` after `do_div(rate, qn->buswidth)` (icc-rpm-qos.c:217-219),
for a non-zero bus width -/
def required_rate (h : Headers) (qp : qcom_icc_provider) (qn : qcom_icc_node) : Nat :=
  max (sum_bw h qp) (max_peak_bw h qp) / qn.buswidth

/-- The loop `for (i = 0; i < qp->num_clks; i++)` of `qcom_icc_rpm_qos_set`
(icc-rpm-qos.c:224) over the remaining clock handles; it stops at the first
failing `clk_set_rate` -/
def set_bus_clks (env : Env) (log : List Call) (rate : Nat) : List Nat → Int × List Call
  | [] => (0, [])
  | c :: rest =>
    let ret := env log (.clk_set_rate c rate)
    if ret ≠ 0 then (ret, [.clk_set_rate c rate])
    else
      let r := set_bus_clks env (log ++ [.clk_set_rate c rate]) rate rest
      (r.1, .clk_set_rate c rate :: r.2)

/-- The store `qn->rate = rate` on the node at position `src` -/
def store_rate (qp : qcom_icc_provider) (src : Nat) (n : icc_node) (rate : Nat) :
    qcom_icc_provider :=
  { qp with nodes := qp.nodes.set src { n with data := { n.data with rate := rate } } }

/-- The function `qcom_icc_rpm_qos_set` (icc-rpm-qos.c:181) on the node at
position `src` of the provider's node list; `dst` is not read by the body.
The result is `none` when `src` is no node of the provider or when the
division by the bus width is a division by zero. -/
def qcom_icc_rpm_qos_set (h : Headers) (env : Env) (log : List Call)
    (qp : qcom_icc_provider) (src dst : Nat) : Option Result :=
  match qp.nodes[src]? with
  | none => none
  | some n =>
    let qn := n.data
    let d := dispatch h env log qp qn
    if d.1 ≠ 0 then some ⟨d.1, qp, d.2⟩
    else if qn.buswidth = 0 then none
    else
      let rate := required_rate h qp qn
      if qn.rate = rate then some ⟨0, qp, d.2⟩
      else
        let c := set_bus_clks env (log ++ d.2) rate qp.bus_clks
        if c.1 ≠ 0 then some ⟨c.1, qp, d.2 ++ c.2⟩
        else some ⟨0, store_rate qp src n rate, d.2 ++ c.2⟩

/-- Modelled from the spec: the ledger operation `set(node, avg, peak)` of the
vote entry point (interconnect core, not among the source files): it
overwrites the demand of the node at position `i` and nothing else. -/
def set_bw (qp : qcom_icc_provider) (i avg peak : Nat) : qcom_icc_provider :=
  match qp.nodes[i]? with
  | none => qp
  | some n => { qp with nodes := qp.nodes.set i { n with avg_bw := avg, peak_bw := peak } }

/-! ## Concrete states used in the evaluations below -/

/-- A locally owned node without QoS settings and without remote identifiers,
with the given bus width, stored rate and demand -/
def plain_node (buswidth rate avg peak : Nat) : icc_node :=
  { avg_bw := avg, peak_bw := peak,
    data := { id := 0, links := [], buswidth := buswidth, mas_rpm_id := -1, slv_rpm_id := -1,
              qos := { areq_prio := 0, prio_level := 0, limit_commands := false,
                       ap_owned := true, qos_mode := -1, qos_port := -1 },
              rate := rate } }

/-- A provider with the two bus clocks `bus` and `bus_a` (handles 0 and 1)
over the given nodes -/
def plain_provider (nodes : List icc_node) : qcom_icc_provider :=
  { nodes := nodes, bus_clks := [0, 1], is_bimc_node := false }

/-- The environment in which every call succeeds -/
def env_ok : Env := fun _ _ => 0

/-- The provider state of the scenario: two nodes of bus width 8 with the
given stored rates and demands -/
def scenario (rate1 avg1 peak1 rate2 avg2 peak2 : Nat) : qcom_icc_provider :=
  plain_provider [plain_node 8 rate1 avg1 peak1, plain_node 8 rate2 avg2 peak2]

/-- An environment in which `clk_set_rate` fails with -22 on the given clock
handle and every other call succeeds -/
def env_clk_fail (clk : Nat) : Env := fun _ c =>
  match c with
  | .clk_set_rate k _ => if k = clk then -22 else 0
  | _ => 0

/-- A provider with the three clocks `bus`, `bus_a`, `iface` (handles 0, 1, 2),
as on the multimedia fabric -/
def mm_provider (nodes : List icc_node) : qcom_icc_provider :=
  { nodes := nodes, bus_clks := [0, 1, 2], is_bimc_node := false }

/-- A node that is not locally owned, with the given remote identifiers, bus
width, stored rate and demand; its QoS descriptor is the fixed-mode one of the
peripheral fabric master -/
def remote_node (mas slv : Int) (buswidth rate avg peak : Nat) : icc_node :=
  { avg_bw := avg, peak_bw := peak,
    data := { id := 0, links := [], buswidth := buswidth, mas_rpm_id := mas, slv_rpm_id := slv,
              qos := { areq_prio := 0, prio_level := 0, limit_commands := false,
                       ap_owned := false, qos_mode := 0, qos_port := 1 },
              rate := rate } }

/-- An environment in which the remote send with the given resource type
fails with -5 and every other call succeeds -/
def env_send_fail (rsc_type : Nat) : Env := fun _ c =>
  match c with
  | .qcom_icc_rpm_smd_send _ t _ _ => if t = rsc_type then -5 else 0
  | _ => 0

/-- The remote sends of a successful remote vote: the master request if the
master identifier is set, then the slave request if the slave identifier is
set, both with the value `v` -/
def rpm_sends (h : Headers) (qn : qcom_icc_node) (v : Nat) : List Call :=
  (if qn.mas_rpm_id ≠ -1 then [mas_req h qn.mas_rpm_id v] else []) ++
    (if qn.slv_rpm_id ≠ -1 then [slv_req h qn.slv_rpm_id v] else [])

/-- The register write issued by `qcom_icc_bimc_set_qos_health` for the
register number `regnum`: address, mask and value (icc-rpm-qos.c:27-41) -/
def health_write (h : Headers) (qos : qcom_icc_qos) (regnum : Nat) : Call :=
  (qcom_icc_bimc_set_qos_health h (fun _ _ => 0) [] qos regnum).2.headD
    (.regmap_update_bits 0 0 0)

/-- The write of the enable register of `qcom_icc_set_bimc_qos` with the
enable value `val` (icc-rpm-qos.c:76) -/
def bke_en_write (h : Headers) (qos : qcom_icc_qos) (val : Nat) : Call :=
  .regmap_update_bits (h.M_BKE_EN_ADDR qos.qos_port) h.M_BKE_EN_EN_BMASK val

/-- The first write of `qcom_icc_noc_set_qos_priority`: the priority register
with the request priority shifted to P1 (icc-rpm-qos.c:87) -/
def noc_p1_write (h : Headers) (qos : qcom_icc_qos) : Call :=
  .regmap_update_bits (h.NOC_QOS_PRIORITYn_ADDR qos.qos_port) h.NOC_QOS_PRIORITY_MASK
    ((qos.areq_prio <<< h.NOC_QOS_PRIORITY_P1_SHIFT) % 2 ^ 32)

/-- The second write of `qcom_icc_noc_set_qos_priority`: the priority register
with the priority level shifted to P0 (icc-rpm-qos.c:93) -/
def noc_p0_write (h : Headers) (qos : qcom_icc_qos) : Call :=
  .regmap_update_bits (h.NOC_QOS_PRIORITYn_ADDR qos.qos_port) h.NOC_QOS_PRIORITY_MASK
    ((qos.prio_level <<< h.NOC_QOS_PRIORITY_P0_SHIFT) % 2 ^ 32)

/-- The write of the mode register of `qcom_icc_set_noc_qos` with the value
`mode` (icc-rpm-qos.c:131) -/
def noc_mode_write (h : Headers) (qos : qcom_icc_qos) (mode : Nat) : Call :=
  .regmap_update_bits (h.NOC_QOS_MODEn_ADDR qos.qos_port) h.NOC_QOS_MODEn_MASK mode

/-- The local `mode` of both arbiters: bypass when `qos_mode` is -1, else
`qos_mode` converted to `u32` (icc-rpm-qos.c:50-59 and 103-118) -/
def effective_mode (h : Headers) (qos : qcom_icc_qos) : Nat :=
  if qos.qos_mode ≠ -1 then (qos.qos_mode % 2 ^ 32).toNat else h.NOC_QOS_MODE_BYPASS

/-- The register writes the arbiter of the node's family attempts, in order,
as long as none fails -/
def qos_writes (h : Headers) (qp : qcom_icc_provider) (qn : qcom_icc_node) : List Call :=
  if qp.is_bimc_node then
    if effective_mode h qn.qos ≠ h.NOC_QOS_MODE_BYPASS then
      [health_write h qn.qos 3, health_write h qn.qos 2, health_write h qn.qos 1,
       health_write h qn.qos 0, bke_en_write h qn.qos 1]
    else [bke_en_write h qn.qos 0]
  else if qn.qos.qos_port < 0 then []
  else
    (if effective_mode h qn.qos = h.NOC_QOS_MODE_FIXED
      then [noc_p1_write h qn.qos, noc_p0_write h qn.qos] else []) ++
      [noc_mode_write h qn.qos (effective_mode h qn.qos)]

/-- Issuing a list of writes one after the other, stopping at the first that
fails: the code of the last write issued (0 for no write) and the writes
issued -/
def run_writes (env : Env) (log : List Call) : List Call → Int × List Call
  | [] => (0, [])
  | c :: rest =>
    if env log c ≠ 0 then (env log c, [c])
    else
      let r := run_writes env (log ++ [c]) rest
      (r.1, c :: r.2)

/-- A locally owned node with the given QoS mode, port, priority (used for
both priority fields, as the node table does) and command limit, with bus
width 8, no stored rate and no demand -/
def qos_node (mode port : Int) (prio : Nat) (limit_commands : Bool) : icc_node :=
  { avg_bw := 0, peak_bw := 0,
    data := { id := 0, links := [], buswidth := 8, mas_rpm_id := 0, slv_rpm_id := -1,
              qos := { areq_prio := prio, prio_level := prio, limit_commands := limit_commands,
                       ap_owned := true, qos_mode := mode, qos_port := port },
              rate := 0 } }

/-- A locally owned node of bus width 8 with the given QoS mode, port and
priority, stored rate and demand -/
def voting_qos_node (mode port : Int) (prio rate avg peak : Nat) : icc_node :=
  { avg_bw := avg, peak_bw := peak,
    data := { id := 0, links := [], buswidth := 8, mas_rpm_id := 0, slv_rpm_id := -1,
              qos := { areq_prio := prio, prio_level := prio, limit_commands := false,
                       ap_owned := true, qos_mode := mode, qos_port := port },
              rate := rate } }

/-- A family-A (BIMC) provider with the two bus clocks over the given nodes -/
def bimc_provider (nodes : List icc_node) : qcom_icc_provider :=
  { nodes := nodes, bus_clks := [0, 1], is_bimc_node := true }

/-- An environment in which a register write to the given address fails with
-5 and every other call succeeds -/
def env_reg_fail (reg : Nat) : Env := fun _ c =>
  match c with
  | .regmap_update_bits r _ _ => if r = reg then -5 else 0
  | _ => 0

/-! ## The MSM8996 node table (msm8996.c:35-167) -/

/-- The identifier constants `MSM8996_MASTER_...` and `MSM8996_SLAVE_...` named in the node
table.  Their numeric values are given by msm8996.h, which is not among the source files;
they stay symbolic here and a valuation `val` is a parameter wherever a value is needed. -/
inductive NodeId where
  | MSM8996_MASTER_CNOC_A1NOC
  | MSM8996_MASTER_CRYPTO_CORE0
  | MSM8996_MASTER_PNOC_A1NOC
  | MSM8996_MASTER_USB3
  | MSM8996_MASTER_IPA
  | MSM8996_MASTER_UFS
  | MSM8996_MASTER_AMPSS_M0
  | MSM8996_MASTER_GRAPHICS_3D
  | MSM8996_MASTER_MNOC_BIMC
  | MSM8996_MASTER_SNOC_BIMC
  | MSM8996_MASTER_SNOC_CNOC
  | MSM8996_MASTER_QDSS_DAP
  | MSM8996_MASTER_CNOC_MNOC_MMSS_CFG
  | MSM8996_MASTER_CNOC_MNOC_CFG
  | MSM8996_MASTER_CPP
  | MSM8996_MASTER_JPEG
  | MSM8996_MASTER_MDP_PORT0
  | MSM8996_MASTER_MDP_PORT1
  | MSM8996_MASTER_ROTATOR
  | MSM8996_MASTER_VIDEO_P0
  | MSM8996_MASTER_VFE
  | MSM8996_MASTER_SNOC_VMEM
  | MSM8996_MASTER_VIDEO_P0_OCMEM
  | MSM8996_MASTER_SNOC_PNOC
  | MSM8996_MASTER_SDCC_1
  | MSM8996_MASTER_SDCC_2
  | MSM8996_MASTER_SDCC_4
  | MSM8996_MASTER_USB_HS
  | MSM8996_MASTER_BLSP_1
  | MSM8996_MASTER_BLSP_2
  | MSM8996_MASTER_TSIF
  | MSM8996_MASTER_HMSS
  | MSM8996_MASTER_QDSS_BAM
  | MSM8996_MASTER_SNOC_CFG
  | MSM8996_MASTER_BIMC_SNOC_0
  | MSM8996_MASTER_BIMC_SNOC_1
  | MSM8996_MASTER_A0NOC_SNOC
  | MSM8996_MASTER_A1NOC_SNOC
  | MSM8996_MASTER_A2NOC_SNOC
  | MSM8996_MASTER_QDSS_ETR
  | MSM8996_SLAVE_A0NOC_SNOC
  | MSM8996_SLAVE_A1NOC_SNOC
  | MSM8996_SLAVE_A2NOC_SNOC
  | MSM8996_SLAVE_EBI_CH0
  | MSM8996_SLAVE_HMSS_L3
  | MSM8996_SLAVE_BIMC_SNOC_0
  | MSM8996_SLAVE_BIMC_SNOC_1
  | MSM8996_SLAVE_CNOC_A1NOC
  | MSM8996_SLAVE_CLK_CTL
  | MSM8996_SLAVE_TCSR
  | MSM8996_SLAVE_TLMM
  | MSM8996_SLAVE_CRYPTO_0_CFG
  | MSM8996_SLAVE_MPM
  | MSM8996_SLAVE_PIMEM_CFG
  | MSM8996_SLAVE_IMEM_CFG
  | MSM8996_SLAVE_MESSAGE_RAM
  | MSM8996_SLAVE_BIMC_CFG
  | MSM8996_SLAVE_PMIC_ARB
  | MSM8996_SLAVE_PRNG
  | MSM8996_SLAVE_DCC_CFG
  | MSM8996_SLAVE_RBCPR_MX
  | MSM8996_SLAVE_QDSS_CFG
  | MSM8996_SLAVE_RBCPR_CX
  | MSM8996_SLAVE_QDSS_RBCPR_APU_CFG
  | MSM8996_SLAVE_CNOC_MNOC_CFG
  | MSM8996_SLAVE_SNOC_CFG
  | MSM8996_SLAVE_SNOC_MPU_CFG
  | MSM8996_SLAVE_EBI1_PHY_CFG
  | MSM8996_SLAVE_A0NOC_CFG
  | MSM8996_SLAVE_PCIE_1_CFG
  | MSM8996_SLAVE_PCIE_2_CFG
  | MSM8996_SLAVE_PCIE_0_CFG
  | MSM8996_SLAVE_PCIE20_AHB2PHY
  | MSM8996_SLAVE_A0NOC_MPU_CFG
  | MSM8996_SLAVE_UFS_CFG
  | MSM8996_SLAVE_A1NOC_CFG
  | MSM8996_SLAVE_A1NOC_MPU_CFG
  | MSM8996_SLAVE_A2NOC_CFG
  | MSM8996_SLAVE_A2NOC_MPU_CFG
  | MSM8996_SLAVE_SSC_CFG
  | MSM8996_SLAVE_A0NOC_SMMU_CFG
  | MSM8996_SLAVE_A1NOC_SMMU_CFG
  | MSM8996_SLAVE_A2NOC_SMMU_CFG
  | MSM8996_SLAVE_LPASS_SMMU_CFG
  | MSM8996_SLAVE_CNOC_MNOC_MMSS_CFG
  | MSM8996_SLAVE_MMAGIC_CFG
  | MSM8996_SLAVE_CPR_CFG
  | MSM8996_SLAVE_MISC_CFG
  | MSM8996_SLAVE_VENUS_THROTTLE_CFG
  | MSM8996_SLAVE_VENUS_CFG
  | MSM8996_SLAVE_VMEM_CFG
  | MSM8996_SLAVE_DSA_CFG
  | MSM8996_SLAVE_MMSS_CLK_CFG
  | MSM8996_SLAVE_DSA_MPU_CFG
  | MSM8996_SLAVE_MNOC_MPU_CFG
  | MSM8996_SLAVE_DISPLAY_CFG
  | MSM8996_SLAVE_DISPLAY_THROTTLE_CFG
  | MSM8996_SLAVE_CAMERA_CFG
  | MSM8996_SLAVE_CAMERA_THROTTLE_CFG
  | MSM8996_SLAVE_GRAPHICS_3D_CFG
  | MSM8996_SLAVE_SMMU_MDP_CFG
  | MSM8996_SLAVE_SMMU_ROTATOR_CFG
  | MSM8996_SLAVE_SMMU_VENUS_CFG
  | MSM8996_SLAVE_SMMU_CPP_CFG
  | MSM8996_SLAVE_SMMU_JPEG_CFG
  | MSM8996_SLAVE_SMMU_VFE_CFG
  | MSM8996_SLAVE_MNOC_BIMC
  | MSM8996_SLAVE_VMEM
  | MSM8996_SLAVE_SERVICE_MNOC
  | MSM8996_SLAVE_PNOC_A1NOC
  | MSM8996_SLAVE_USB_HS
  | MSM8996_SLAVE_SDCC_2
  | MSM8996_SLAVE_SDCC_4
  | MSM8996_SLAVE_TSIF
  | MSM8996_SLAVE_BLSP_2
  | MSM8996_SLAVE_SDCC_1
  | MSM8996_SLAVE_BLSP_1
  | MSM8996_SLAVE_PDM
  | MSM8996_SLAVE_AHB2PHY
  | MSM8996_SLAVE_APPSS
  | MSM8996_SLAVE_LPASS
  | MSM8996_SLAVE_USB3
  | MSM8996_SLAVE_SNOC_BIMC
  | MSM8996_SLAVE_SNOC_CNOC
  | MSM8996_SLAVE_OCIMEM
  | MSM8996_SLAVE_PIMEM
  | MSM8996_SLAVE_SNOC_VMEM
  | MSM8996_SLAVE_SNOC_PNOC
  | MSM8996_SLAVE_QDSS_STM
  | MSM8996_SLAVE_PCIE_0
  | MSM8996_SLAVE_PCIE_1
  | MSM8996_SLAVE_PCIE_2
  | MSM8996_SLAVE_SERVICE_SNOC
deriving DecidableEq, Repr

/-- An entry of a link list: an identifier constant or the literal 0 -/
inductive Link where
  | id (i : NodeId)
  | zero
deriving DecidableEq, Repr

/-- The mode argument of a table entry: `NOC_QOS_MODE_FIXED`, `NOC_QOS_MODE_BYPASS` or -1 -/
inductive ModeArg where
  | fixed
  | bypass
  | unset
deriving DecidableEq, Repr

/-- The arguments of one `DEFINE_QNODE(name, id, buswidth, mas_rpm_id, slv_rpm_id, ap_owned,
qos_mode, qos_prio, qos_port, links...)` line, as written -/
structure qnode_decl where
  name : String
  id : NodeId
  buswidth : Nat
  mas_rpm_id : Int
  slv_rpm_id : Int
  ap_owned : Bool
  qos_mode : ModeArg
  qos_prio : Nat
  qos_port : Int
  links : List Link
deriving DecidableEq, Repr

/-- The node `mas_cnoc_a1noc` (msm8996.c:35) -/
def mas_cnoc_a1noc : qnode_decl :=
  { name := "mas_cnoc_a1noc", id := NodeId.MSM8996_MASTER_CNOC_A1NOC,
    buswidth := 8, mas_rpm_id := 116, slv_rpm_id := -1, ap_owned := true,
    qos_mode := ModeArg.unset, qos_prio := 0, qos_port := -1,
    links := [Link.id NodeId.MSM8996_SLAVE_A1NOC_SNOC] }

/-- The node `mas_crypto_c0` (msm8996.c:36) -/
def mas_crypto_c0 : qnode_decl :=
  { name := "mas_crypto_c0", id := NodeId.MSM8996_MASTER_CRYPTO_CORE0,
    buswidth := 8, mas_rpm_id := 23, slv_rpm_id := -1, ap_owned := true,
    qos_mode := ModeArg.fixed, qos_prio := 1, qos_port := 0,
    links := [Link.id NodeId.MSM8996_SLAVE_A1NOC_SNOC] }

/-- The node `mas_pnoc_a1noc` (msm8996.c:37) -/
def mas_pnoc_a1noc : qnode_decl :=
  { name := "mas_pnoc_a1noc", id := NodeId.MSM8996_MASTER_PNOC_A1NOC,
    buswidth := 8, mas_rpm_id := 117, slv_rpm_id := -1, ap_owned := false,
    qos_mode := ModeArg.fixed, qos_prio := 0, qos_port := 1,
    links := [Link.id NodeId.MSM8996_SLAVE_A1NOC_SNOC] }

/-- The node `mas_usb3` (msm8996.c:38) -/
def mas_usb3 : qnode_decl :=
  { name := "mas_usb3", id := NodeId.MSM8996_MASTER_USB3,
    buswidth := 8, mas_rpm_id := 32, slv_rpm_id := -1, ap_owned := true,
    qos_mode := ModeArg.fixed, qos_prio := 1, qos_port := 3,
    links := [Link.id NodeId.MSM8996_SLAVE_A2NOC_SNOC] }

/-- The node `mas_ipa` (msm8996.c:39) -/
def mas_ipa : qnode_decl :=
  { name := "mas_ipa", id := NodeId.MSM8996_MASTER_IPA,
    buswidth := 8, mas_rpm_id := 59, slv_rpm_id := -1, ap_owned := true,
    qos_mode := ModeArg.fixed, qos_prio := 0, qos_port := -1,
    links := [Link.id NodeId.MSM8996_SLAVE_A2NOC_SNOC] }

/-- The node `mas_ufs` (msm8996.c:40) -/
def mas_ufs : qnode_decl :=
  { name := "mas_ufs", id := NodeId.MSM8996_MASTER_UFS,
    buswidth := 8, mas_rpm_id := 68, slv_rpm_id := -1, ap_owned := true,
    qos_mode := ModeArg.fixed, qos_prio := 1, qos_port := 2,
    links := [Link.id NodeId.MSM8996_SLAVE_A2NOC_SNOC] }

/-- The node `mas_apps_proc` (msm8996.c:41) -/
def mas_apps_proc : qnode_decl :=
  { name := "mas_apps_proc", id := NodeId.MSM8996_MASTER_AMPSS_M0,
    buswidth := 8, mas_rpm_id := 0, slv_rpm_id := -1, ap_owned := true,
    qos_mode := ModeArg.fixed, qos_prio := 0, qos_port := 0,
    links := [Link.id NodeId.MSM8996_SLAVE_BIMC_SNOC_1, Link.id NodeId.MSM8996_SLAVE_EBI_CH0,
      Link.id NodeId.MSM8996_SLAVE_BIMC_SNOC_0] }

/-- The node `mas_oxili` (msm8996.c:42) -/
def mas_oxili : qnode_decl :=
  { name := "mas_oxili", id := NodeId.MSM8996_MASTER_GRAPHICS_3D,
    buswidth := 8, mas_rpm_id := 6, slv_rpm_id := -1, ap_owned := true,
    qos_mode := ModeArg.bypass, qos_prio := 0, qos_port := 1,
    links := [Link.id NodeId.MSM8996_SLAVE_BIMC_SNOC_1, Link.id NodeId.MSM8996_SLAVE_HMSS_L3,
      Link.id NodeId.MSM8996_SLAVE_EBI_CH0, Link.id NodeId.MSM8996_SLAVE_BIMC_SNOC_0] }

/-- The node `mas_mnoc_bimc` (msm8996.c:43) -/
def mas_mnoc_bimc : qnode_decl :=
  { name := "mas_mnoc_bimc", id := NodeId.MSM8996_MASTER_MNOC_BIMC,
    buswidth := 8, mas_rpm_id := 2, slv_rpm_id := -1, ap_owned := true,
    qos_mode := ModeArg.bypass, qos_prio := 0, qos_port := 2,
    links := [Link.id NodeId.MSM8996_SLAVE_BIMC_SNOC_1, Link.id NodeId.MSM8996_SLAVE_HMSS_L3,
      Link.id NodeId.MSM8996_SLAVE_EBI_CH0, Link.id NodeId.MSM8996_SLAVE_BIMC_SNOC_0] }

/-- The node `mas_snoc_bimc` (msm8996.c:44) -/
def mas_snoc_bimc : qnode_decl :=
  { name := "mas_snoc_bimc", id := NodeId.MSM8996_MASTER_SNOC_BIMC,
    buswidth := 8, mas_rpm_id := 3, slv_rpm_id := -1, ap_owned := false,
    qos_mode := ModeArg.bypass, qos_prio := 0, qos_port := -1,
    links := [Link.id NodeId.MSM8996_SLAVE_HMSS_L3, Link.id NodeId.MSM8996_SLAVE_EBI_CH0] }

/-- The node `mas_snoc_cnoc` (msm8996.c:45) -/
def mas_snoc_cnoc : qnode_decl :=
  { name := "mas_snoc_cnoc", id := NodeId.MSM8996_MASTER_SNOC_CNOC,
    buswidth := 8, mas_rpm_id := 52, slv_rpm_id := -1, ap_owned := false,
    qos_mode := ModeArg.unset, qos_prio := 0, qos_port := -1,
    links := [Link.id NodeId.MSM8996_SLAVE_CLK_CTL, Link.id NodeId.MSM8996_SLAVE_RBCPR_CX,
      Link.id NodeId.MSM8996_SLAVE_A2NOC_SMMU_CFG, Link.id NodeId.MSM8996_SLAVE_A0NOC_MPU_CFG,
      Link.id NodeId.MSM8996_SLAVE_MESSAGE_RAM, Link.id NodeId.MSM8996_SLAVE_CNOC_MNOC_MMSS_CFG,
      Link.id NodeId.MSM8996_SLAVE_PCIE_0_CFG, Link.id NodeId.MSM8996_SLAVE_TLMM,
      Link.id NodeId.MSM8996_SLAVE_MPM, Link.id NodeId.MSM8996_SLAVE_A0NOC_SMMU_CFG,
      Link.id NodeId.MSM8996_SLAVE_EBI1_PHY_CFG, Link.id NodeId.MSM8996_SLAVE_BIMC_CFG,
      Link.id NodeId.MSM8996_SLAVE_PIMEM_CFG, Link.id NodeId.MSM8996_SLAVE_RBCPR_MX,
      Link.id NodeId.MSM8996_SLAVE_PRNG, Link.id NodeId.MSM8996_SLAVE_PCIE20_AHB2PHY,
      Link.id NodeId.MSM8996_SLAVE_A2NOC_MPU_CFG, Link.id NodeId.MSM8996_SLAVE_QDSS_CFG,
      Link.id NodeId.MSM8996_SLAVE_A2NOC_CFG, Link.id NodeId.MSM8996_SLAVE_A0NOC_CFG,
      Link.id NodeId.MSM8996_SLAVE_UFS_CFG, Link.id NodeId.MSM8996_SLAVE_CRYPTO_0_CFG,
      Link.id NodeId.MSM8996_SLAVE_PCIE_1_CFG, Link.id NodeId.MSM8996_SLAVE_SNOC_CFG,
      Link.id NodeId.MSM8996_SLAVE_SNOC_MPU_CFG, Link.id NodeId.MSM8996_SLAVE_A1NOC_MPU_CFG,
      Link.id NodeId.MSM8996_SLAVE_A1NOC_SMMU_CFG, Link.id NodeId.MSM8996_SLAVE_PCIE_2_CFG,
      Link.id NodeId.MSM8996_SLAVE_CNOC_MNOC_CFG,
      Link.id NodeId.MSM8996_SLAVE_QDSS_RBCPR_APU_CFG, Link.id NodeId.MSM8996_SLAVE_PMIC_ARB,
      Link.id NodeId.MSM8996_SLAVE_IMEM_CFG, Link.id NodeId.MSM8996_SLAVE_A1NOC_CFG,
      Link.id NodeId.MSM8996_SLAVE_SSC_CFG, Link.id NodeId.MSM8996_SLAVE_TCSR,
      Link.id NodeId.MSM8996_SLAVE_LPASS_SMMU_CFG, Link.id NodeId.MSM8996_SLAVE_DCC_CFG] }

/-- The node `mas_qdss_dap` (msm8996.c:46) -/
def mas_qdss_dap : qnode_decl :=
  { name := "mas_qdss_dap", id := NodeId.MSM8996_MASTER_QDSS_DAP,
    buswidth := 8, mas_rpm_id := 49, slv_rpm_id := -1, ap_owned := true,
    qos_mode := ModeArg.unset, qos_prio := 0, qos_port := -1,
    links := [Link.id NodeId.MSM8996_SLAVE_QDSS_RBCPR_APU_CFG,
      Link.id NodeId.MSM8996_SLAVE_RBCPR_CX, Link.id NodeId.MSM8996_SLAVE_A2NOC_SMMU_CFG,
      Link.id NodeId.MSM8996_SLAVE_A0NOC_MPU_CFG, Link.id NodeId.MSM8996_SLAVE_MESSAGE_RAM,
      Link.id NodeId.MSM8996_SLAVE_PCIE_0_CFG, Link.id NodeId.MSM8996_SLAVE_TLMM,
      Link.id NodeId.MSM8996_SLAVE_MPM, Link.id NodeId.MSM8996_SLAVE_A0NOC_SMMU_CFG,
      Link.id NodeId.MSM8996_SLAVE_EBI1_PHY_CFG, Link.id NodeId.MSM8996_SLAVE_BIMC_CFG,
      Link.id NodeId.MSM8996_SLAVE_PIMEM_CFG, Link.id NodeId.MSM8996_SLAVE_RBCPR_MX,
      Link.id NodeId.MSM8996_SLAVE_CLK_CTL, Link.id NodeId.MSM8996_SLAVE_PRNG,
      Link.id NodeId.MSM8996_SLAVE_PCIE20_AHB2PHY, Link.id NodeId.MSM8996_SLAVE_A2NOC_MPU_CFG,
      Link.id NodeId.MSM8996_SLAVE_QDSS_CFG, Link.id NodeId.MSM8996_SLAVE_A2NOC_CFG,
      Link.id NodeId.MSM8996_SLAVE_A0NOC_CFG, Link.id NodeId.MSM8996_SLAVE_UFS_CFG,
      Link.id NodeId.MSM8996_SLAVE_CRYPTO_0_CFG, Link.id NodeId.MSM8996_SLAVE_CNOC_A1NOC,
      Link.id NodeId.MSM8996_SLAVE_PCIE_1_CFG, Link.id NodeId.MSM8996_SLAVE_SNOC_CFG,
      Link.id NodeId.MSM8996_SLAVE_SNOC_MPU_CFG, Link.id NodeId.MSM8996_SLAVE_A1NOC_MPU_CFG,
      Link.id NodeId.MSM8996_SLAVE_A1NOC_SMMU_CFG, Link.id NodeId.MSM8996_SLAVE_PCIE_2_CFG,
      Link.id NodeId.MSM8996_SLAVE_CNOC_MNOC_CFG,
      Link.id NodeId.MSM8996_SLAVE_CNOC_MNOC_MMSS_CFG, Link.id NodeId.MSM8996_SLAVE_PMIC_ARB,
      Link.id NodeId.MSM8996_SLAVE_IMEM_CFG, Link.id NodeId.MSM8996_SLAVE_A1NOC_CFG,
      Link.id NodeId.MSM8996_SLAVE_SSC_CFG, Link.id NodeId.MSM8996_SLAVE_TCSR,
      Link.id NodeId.MSM8996_SLAVE_LPASS_SMMU_CFG, Link.id NodeId.MSM8996_SLAVE_DCC_CFG] }

/-- The node `mas_cnoc_mnoc_mmss_cfg` (msm8996.c:47) -/
def mas_cnoc_mnoc_mmss_cfg : qnode_decl :=
  { name := "mas_cnoc_mnoc_mmss_cfg", id := NodeId.MSM8996_MASTER_CNOC_MNOC_MMSS_CFG,
    buswidth := 8, mas_rpm_id := 4, slv_rpm_id := -1, ap_owned := true,
    qos_mode := ModeArg.unset, qos_prio := 0, qos_port := -1,
    links := [Link.id NodeId.MSM8996_SLAVE_MMAGIC_CFG, Link.id NodeId.MSM8996_SLAVE_DSA_MPU_CFG,
      Link.id NodeId.MSM8996_SLAVE_MMSS_CLK_CFG,
      Link.id NodeId.MSM8996_SLAVE_CAMERA_THROTTLE_CFG, Link.id NodeId.MSM8996_SLAVE_VENUS_CFG,
      Link.id NodeId.MSM8996_SLAVE_SMMU_VFE_CFG, Link.id NodeId.MSM8996_SLAVE_MISC_CFG,
      Link.id NodeId.MSM8996_SLAVE_SMMU_CPP_CFG, Link.id NodeId.MSM8996_SLAVE_GRAPHICS_3D_CFG,
      Link.id NodeId.MSM8996_SLAVE_DISPLAY_THROTTLE_CFG,
      Link.id NodeId.MSM8996_SLAVE_VENUS_THROTTLE_CFG, Link.id NodeId.MSM8996_SLAVE_CAMERA_CFG,
      Link.id NodeId.MSM8996_SLAVE_DISPLAY_CFG, Link.id NodeId.MSM8996_SLAVE_CPR_CFG,
      Link.id NodeId.MSM8996_SLAVE_SMMU_ROTATOR_CFG, Link.id NodeId.MSM8996_SLAVE_DSA_CFG,
      Link.id NodeId.MSM8996_SLAVE_SMMU_VENUS_CFG, Link.id NodeId.MSM8996_SLAVE_VMEM_CFG,
      Link.id NodeId.MSM8996_SLAVE_SMMU_JPEG_CFG, Link.id NodeId.MSM8996_SLAVE_SMMU_MDP_CFG,
      Link.id NodeId.MSM8996_SLAVE_MNOC_MPU_CFG] }

/-- The node `mas_cnoc_mnoc_cfg` (msm8996.c:48) -/
def mas_cnoc_mnoc_cfg : qnode_decl :=
  { name := "mas_cnoc_mnoc_cfg", id := NodeId.MSM8996_MASTER_CNOC_MNOC_CFG,
    buswidth := 8, mas_rpm_id := 5, slv_rpm_id := -1, ap_owned := true,
    qos_mode := ModeArg.unset, qos_prio := 0, qos_port := -1,
    links := [Link.id NodeId.MSM8996_SLAVE_SERVICE_MNOC] }

/-- The node `mas_cpp` (msm8996.c:49) -/
def mas_cpp : qnode_decl :=
  { name := "mas_cpp", id := NodeId.MSM8996_MASTER_CPP,
    buswidth := 32, mas_rpm_id := 115, slv_rpm_id := -1, ap_owned := true,
    qos_mode := ModeArg.bypass, qos_prio := 0, qos_port := 5,
    links := [Link.id NodeId.MSM8996_SLAVE_MNOC_BIMC] }

/-- The node `mas_jpeg` (msm8996.c:50) -/
def mas_jpeg : qnode_decl :=
  { name := "mas_jpeg", id := NodeId.MSM8996_MASTER_JPEG,
    buswidth := 32, mas_rpm_id := 7, slv_rpm_id := -1, ap_owned := true,
    qos_mode := ModeArg.bypass, qos_prio := 0, qos_port := 7,
    links := [Link.id NodeId.MSM8996_SLAVE_MNOC_BIMC] }

/-- The node `mas_mdp_p0` (msm8996.c:51) -/
def mas_mdp_p0 : qnode_decl :=
  { name := "mas_mdp_p0", id := NodeId.MSM8996_MASTER_MDP_PORT0,
    buswidth := 32, mas_rpm_id := 8, slv_rpm_id := -1, ap_owned := true,
    qos_mode := ModeArg.bypass, qos_prio := 0, qos_port := 1,
    links := [Link.id NodeId.MSM8996_SLAVE_MNOC_BIMC] }

/-- The node `mas_mdp_p1` (msm8996.c:52) -/
def mas_mdp_p1 : qnode_decl :=
  { name := "mas_mdp_p1", id := NodeId.MSM8996_MASTER_MDP_PORT1,
    buswidth := 32, mas_rpm_id := 61, slv_rpm_id := -1, ap_owned := true,
    qos_mode := ModeArg.bypass, qos_prio := 0, qos_port := 2,
    links := [Link.id NodeId.MSM8996_SLAVE_MNOC_BIMC] }

/-- The node `mas_rotator` (msm8996.c:53) -/
def mas_rotator : qnode_decl :=
  { name := "mas_rotator", id := NodeId.MSM8996_MASTER_ROTATOR,
    buswidth := 32, mas_rpm_id := 120, slv_rpm_id := -1, ap_owned := true,
    qos_mode := ModeArg.bypass, qos_prio := 0, qos_port := 0,
    links := [Link.id NodeId.MSM8996_SLAVE_MNOC_BIMC] }

/-- The node `mas_venus` (msm8996.c:54) -/
def mas_venus : qnode_decl :=
  { name := "mas_venus", id := NodeId.MSM8996_MASTER_VIDEO_P0,
    buswidth := 32, mas_rpm_id := 9, slv_rpm_id := -1, ap_owned := true,
    qos_mode := ModeArg.bypass, qos_prio := 0, qos_port := 3,
    links := [Link.id NodeId.MSM8996_SLAVE_MNOC_BIMC] }

/-- The node `mas_vfe` (msm8996.c:55) -/
def mas_vfe : qnode_decl :=
  { name := "mas_vfe", id := NodeId.MSM8996_MASTER_VFE,
    buswidth := 32, mas_rpm_id := 11, slv_rpm_id := -1, ap_owned := true,
    qos_mode := ModeArg.bypass, qos_prio := 0, qos_port := 6,
    links := [Link.id NodeId.MSM8996_SLAVE_MNOC_BIMC] }

/-- The node `mas_snoc_vmem` (msm8996.c:56) -/
def mas_snoc_vmem : qnode_decl :=
  { name := "mas_snoc_vmem", id := NodeId.MSM8996_MASTER_SNOC_VMEM,
    buswidth := 32, mas_rpm_id := 114, slv_rpm_id := -1, ap_owned := true,
    qos_mode := ModeArg.unset, qos_prio := 0, qos_port := -1,
    links := [Link.id NodeId.MSM8996_SLAVE_VMEM] }

/-- The node `mas_venus_vmem` (msm8996.c:57) -/
def mas_venus_vmem : qnode_decl :=
  { name := "mas_venus_vmem", id := NodeId.MSM8996_MASTER_VIDEO_P0_OCMEM,
    buswidth := 32, mas_rpm_id := 121, slv_rpm_id := -1, ap_owned := true,
    qos_mode := ModeArg.unset, qos_prio := 0, qos_port := -1,
    links := [Link.id NodeId.MSM8996_SLAVE_VMEM] }

/-- The node `mas_snoc_pnoc` (msm8996.c:58) -/
def mas_snoc_pnoc : qnode_decl :=
  { name := "mas_snoc_pnoc", id := NodeId.MSM8996_MASTER_SNOC_PNOC,
    buswidth := 8, mas_rpm_id := 44, slv_rpm_id := -1, ap_owned := false,
    qos_mode := ModeArg.unset, qos_prio := 0, qos_port := -1,
    links := [Link.id NodeId.MSM8996_SLAVE_BLSP_1, Link.id NodeId.MSM8996_SLAVE_BLSP_2,
      Link.id NodeId.MSM8996_SLAVE_SDCC_1, Link.id NodeId.MSM8996_SLAVE_SDCC_2,
      Link.id NodeId.MSM8996_SLAVE_SDCC_4, Link.id NodeId.MSM8996_SLAVE_TSIF,
      Link.id NodeId.MSM8996_SLAVE_PDM, Link.id NodeId.MSM8996_SLAVE_AHB2PHY] }

/-- The node `mas_sdcc_1` (msm8996.c:59) -/
def mas_sdcc_1 : qnode_decl :=
  { name := "mas_sdcc_1", id := NodeId.MSM8996_MASTER_SDCC_1,
    buswidth := 8, mas_rpm_id := 33, slv_rpm_id := -1, ap_owned := false,
    qos_mode := ModeArg.unset, qos_prio := 0, qos_port := -1,
    links := [Link.id NodeId.MSM8996_SLAVE_PNOC_A1NOC] }

/-- The node `mas_sdcc_2` (msm8996.c:60) -/
def mas_sdcc_2 : qnode_decl :=
  { name := "mas_sdcc_2", id := NodeId.MSM8996_MASTER_SDCC_2,
    buswidth := 8, mas_rpm_id := 35, slv_rpm_id := -1, ap_owned := false,
    qos_mode := ModeArg.unset, qos_prio := 0, qos_port := -1,
    links := [Link.id NodeId.MSM8996_SLAVE_PNOC_A1NOC] }

/-- The node `mas_sdcc_4` (msm8996.c:61) -/
def mas_sdcc_4 : qnode_decl :=
  { name := "mas_sdcc_4", id := NodeId.MSM8996_MASTER_SDCC_4,
    buswidth := 8, mas_rpm_id := 36, slv_rpm_id := -1, ap_owned := false,
    qos_mode := ModeArg.unset, qos_prio := 0, qos_port := -1,
    links := [Link.id NodeId.MSM8996_SLAVE_PNOC_A1NOC] }

/-- The node `mas_usb_hs` (msm8996.c:62) -/
def mas_usb_hs : qnode_decl :=
  { name := "mas_usb_hs", id := NodeId.MSM8996_MASTER_USB_HS,
    buswidth := 8, mas_rpm_id := 42, slv_rpm_id := -1, ap_owned := false,
    qos_mode := ModeArg.unset, qos_prio := 0, qos_port := -1,
    links := [Link.id NodeId.MSM8996_SLAVE_PNOC_A1NOC] }

/-- The node `mas_blsp_1` (msm8996.c:63) -/
def mas_blsp_1 : qnode_decl :=
  { name := "mas_blsp_1", id := NodeId.MSM8996_MASTER_BLSP_1,
    buswidth := 4, mas_rpm_id := 41, slv_rpm_id := -1, ap_owned := false,
    qos_mode := ModeArg.unset, qos_prio := 0, qos_port := -1,
    links := [Link.id NodeId.MSM8996_SLAVE_PNOC_A1NOC] }

/-- The node `mas_blsp_2` (msm8996.c:64) -/
def mas_blsp_2 : qnode_decl :=
  { name := "mas_blsp_2", id := NodeId.MSM8996_MASTER_BLSP_2,
    buswidth := 4, mas_rpm_id := 39, slv_rpm_id := -1, ap_owned := false,
    qos_mode := ModeArg.unset, qos_prio := 0, qos_port := -1,
    links := [Link.id NodeId.MSM8996_SLAVE_PNOC_A1NOC] }

/-- The node `mas_tsif` (msm8996.c:65) -/
def mas_tsif : qnode_decl :=
  { name := "mas_tsif", id := NodeId.MSM8996_MASTER_TSIF,
    buswidth := 4, mas_rpm_id := 37, slv_rpm_id := -1, ap_owned := false,
    qos_mode := ModeArg.unset, qos_prio := 0, qos_port := -1,
    links := [Link.id NodeId.MSM8996_SLAVE_PNOC_A1NOC] }

/-- The node `mas_hmss` (msm8996.c:66) -/
def mas_hmss : qnode_decl :=
  { name := "mas_hmss", id := NodeId.MSM8996_MASTER_HMSS,
    buswidth := 8, mas_rpm_id := 118, slv_rpm_id := -1, ap_owned := true,
    qos_mode := ModeArg.fixed, qos_prio := 1, qos_port := 4,
    links := [Link.id NodeId.MSM8996_SLAVE_PIMEM, Link.id NodeId.MSM8996_SLAVE_OCIMEM,
      Link.id NodeId.MSM8996_SLAVE_SNOC_BIMC] }

/-- The node `mas_qdss_bam` (msm8996.c:67) -/
def mas_qdss_bam : qnode_decl :=
  { name := "mas_qdss_bam", id := NodeId.MSM8996_MASTER_QDSS_BAM,
    buswidth := 16, mas_rpm_id := 19, slv_rpm_id := -1, ap_owned := true,
    qos_mode := ModeArg.fixed, qos_prio := 1, qos_port := 2,
    links := [Link.id NodeId.MSM8996_SLAVE_PIMEM, Link.id NodeId.MSM8996_SLAVE_USB3,
      Link.id NodeId.MSM8996_SLAVE_OCIMEM, Link.id NodeId.MSM8996_SLAVE_SNOC_BIMC,
      Link.id NodeId.MSM8996_SLAVE_SNOC_PNOC] }

/-- The node `mas_snoc_cfg` (msm8996.c:68) -/
def mas_snoc_cfg : qnode_decl :=
  { name := "mas_snoc_cfg", id := NodeId.MSM8996_MASTER_SNOC_CFG,
    buswidth := 16, mas_rpm_id := 20, slv_rpm_id := -1, ap_owned := true,
    qos_mode := ModeArg.unset, qos_prio := 0, qos_port := -1,
    links := [Link.id NodeId.MSM8996_SLAVE_SERVICE_SNOC] }

/-- The node `mas_bimc_snoc_0` (msm8996.c:69) -/
def mas_bimc_snoc_0 : qnode_decl :=
  { name := "mas_bimc_snoc_0", id := NodeId.MSM8996_MASTER_BIMC_SNOC_0,
    buswidth := 16, mas_rpm_id := 21, slv_rpm_id := -1, ap_owned := true,
    qos_mode := ModeArg.unset, qos_prio := 0, qos_port := -1,
    links := [Link.id NodeId.MSM8996_SLAVE_SNOC_VMEM, Link.id NodeId.MSM8996_SLAVE_USB3,
      Link.id NodeId.MSM8996_SLAVE_PIMEM, Link.id NodeId.MSM8996_SLAVE_LPASS,
      Link.id NodeId.MSM8996_SLAVE_APPSS, Link.id NodeId.MSM8996_SLAVE_SNOC_CNOC,
      Link.id NodeId.MSM8996_SLAVE_SNOC_PNOC, Link.id NodeId.MSM8996_SLAVE_OCIMEM,
      Link.id NodeId.MSM8996_SLAVE_QDSS_STM] }

/-- The node `mas_bimc_snoc_1` (msm8996.c:70) -/
def mas_bimc_snoc_1 : qnode_decl :=
  { name := "mas_bimc_snoc_1", id := NodeId.MSM8996_MASTER_BIMC_SNOC_1,
    buswidth := 16, mas_rpm_id := 109, slv_rpm_id := -1, ap_owned := true,
    qos_mode := ModeArg.unset, qos_prio := 0, qos_port := -1,
    links := [Link.id NodeId.MSM8996_SLAVE_PCIE_2, Link.id NodeId.MSM8996_SLAVE_PCIE_1,
      Link.id NodeId.MSM8996_SLAVE_PCIE_0] }

/-- The node `mas_a0noc_snoc` (msm8996.c:71) -/
def mas_a0noc_snoc : qnode_decl :=
  { name := "mas_a0noc_snoc", id := NodeId.MSM8996_MASTER_A0NOC_SNOC,
    buswidth := 16, mas_rpm_id := 110, slv_rpm_id := -1, ap_owned := true,
    qos_mode := ModeArg.unset, qos_prio := 0, qos_port := -1,
    links := [Link.id NodeId.MSM8996_SLAVE_SNOC_PNOC, Link.id NodeId.MSM8996_SLAVE_OCIMEM,
      Link.id NodeId.MSM8996_SLAVE_APPSS, Link.id NodeId.MSM8996_SLAVE_SNOC_BIMC,
      Link.id NodeId.MSM8996_SLAVE_PIMEM] }

/-- The node `mas_a1noc_snoc` (msm8996.c:72) -/
def mas_a1noc_snoc : qnode_decl :=
  { name := "mas_a1noc_snoc", id := NodeId.MSM8996_MASTER_A1NOC_SNOC,
    buswidth := 16, mas_rpm_id := 111, slv_rpm_id := -1, ap_owned := false,
    qos_mode := ModeArg.unset, qos_prio := 0, qos_port := -1,
    links := [Link.id NodeId.MSM8996_SLAVE_SNOC_VMEM, Link.id NodeId.MSM8996_SLAVE_USB3,
      Link.id NodeId.MSM8996_SLAVE_PCIE_0, Link.id NodeId.MSM8996_SLAVE_PIMEM,
      Link.id NodeId.MSM8996_SLAVE_PCIE_2, Link.id NodeId.MSM8996_SLAVE_LPASS,
      Link.id NodeId.MSM8996_SLAVE_PCIE_1, Link.id NodeId.MSM8996_SLAVE_APPSS,
      Link.id NodeId.MSM8996_SLAVE_SNOC_BIMC, Link.id NodeId.MSM8996_SLAVE_SNOC_CNOC,
      Link.id NodeId.MSM8996_SLAVE_SNOC_PNOC, Link.id NodeId.MSM8996_SLAVE_OCIMEM,
      Link.id NodeId.MSM8996_SLAVE_QDSS_STM] }

/-- The node `mas_a2noc_snoc` (msm8996.c:73) -/
def mas_a2noc_snoc : qnode_decl :=
  { name := "mas_a2noc_snoc", id := NodeId.MSM8996_MASTER_A2NOC_SNOC,
    buswidth := 16, mas_rpm_id := 112, slv_rpm_id := -1, ap_owned := false,
    qos_mode := ModeArg.unset, qos_prio := 0, qos_port := -1,
    links := [Link.id NodeId.MSM8996_SLAVE_SNOC_VMEM, Link.id NodeId.MSM8996_SLAVE_USB3,
      Link.id NodeId.MSM8996_SLAVE_PCIE_1, Link.id NodeId.MSM8996_SLAVE_PIMEM,
      Link.id NodeId.MSM8996_SLAVE_PCIE_2, Link.id NodeId.MSM8996_SLAVE_QDSS_STM,
      Link.id NodeId.MSM8996_SLAVE_LPASS, Link.id NodeId.MSM8996_SLAVE_SNOC_BIMC,
      Link.id NodeId.MSM8996_SLAVE_SNOC_CNOC, Link.id NodeId.MSM8996_SLAVE_SNOC_PNOC,
      Link.id NodeId.MSM8996_SLAVE_OCIMEM, Link.id NodeId.MSM8996_SLAVE_PCIE_0] }

/-- The node `mas_qdss_etr` (msm8996.c:74) -/
def mas_qdss_etr : qnode_decl :=
  { name := "mas_qdss_etr", id := NodeId.MSM8996_MASTER_QDSS_ETR,
    buswidth := 16, mas_rpm_id := 31, slv_rpm_id := -1, ap_owned := true,
    qos_mode := ModeArg.fixed, qos_prio := 1, qos_port := 3,
    links := [Link.id NodeId.MSM8996_SLAVE_PIMEM, Link.id NodeId.MSM8996_SLAVE_USB3,
      Link.id NodeId.MSM8996_SLAVE_OCIMEM, Link.id NodeId.MSM8996_SLAVE_SNOC_BIMC,
      Link.id NodeId.MSM8996_SLAVE_SNOC_PNOC] }

/-- The node `slv_a0noc_snoc` (msm8996.c:75) -/
def slv_a0noc_snoc : qnode_decl :=
  { name := "slv_a0noc_snoc", id := NodeId.MSM8996_SLAVE_A0NOC_SNOC,
    buswidth := 8, mas_rpm_id := -1, slv_rpm_id := 141, ap_owned := true,
    qos_mode := ModeArg.unset, qos_prio := 0, qos_port := -1,
    links := [Link.id NodeId.MSM8996_MASTER_A0NOC_SNOC] }

/-- The node `slv_a1noc_snoc` (msm8996.c:76) -/
def slv_a1noc_snoc : qnode_decl :=
  { name := "slv_a1noc_snoc", id := NodeId.MSM8996_SLAVE_A1NOC_SNOC,
    buswidth := 8, mas_rpm_id := -1, slv_rpm_id := 142, ap_owned := false,
    qos_mode := ModeArg.unset, qos_prio := 0, qos_port := -1,
    links := [Link.id NodeId.MSM8996_MASTER_A1NOC_SNOC] }

/-- The node `slv_a2noc_snoc` (msm8996.c:77) -/
def slv_a2noc_snoc : qnode_decl :=
  { name := "slv_a2noc_snoc", id := NodeId.MSM8996_SLAVE_A2NOC_SNOC,
    buswidth := 8, mas_rpm_id := -1, slv_rpm_id := 143, ap_owned := false,
    qos_mode := ModeArg.unset, qos_prio := 0, qos_port := -1,
    links := [Link.id NodeId.MSM8996_MASTER_A2NOC_SNOC] }

/-- The node `slv_ebi` (msm8996.c:78) -/
def slv_ebi : qnode_decl :=
  { name := "slv_ebi", id := NodeId.MSM8996_SLAVE_EBI_CH0,
    buswidth := 8, mas_rpm_id := -1, slv_rpm_id := 0, ap_owned := false,
    qos_mode := ModeArg.unset, qos_prio := 0, qos_port := -1,
    links := [Link.zero] }

/-- The node `slv_hmss_l3` (msm8996.c:79) -/
def slv_hmss_l3 : qnode_decl :=
  { name := "slv_hmss_l3", id := NodeId.MSM8996_SLAVE_HMSS_L3,
    buswidth := 8, mas_rpm_id := -1, slv_rpm_id := 160, ap_owned := false,
    qos_mode := ModeArg.unset, qos_prio := 0, qos_port := -1,
    links := [Link.zero] }

/-- The node `slv_bimc_snoc_0` (msm8996.c:80) -/
def slv_bimc_snoc_0 : qnode_decl :=
  { name := "slv_bimc_snoc_0", id := NodeId.MSM8996_SLAVE_BIMC_SNOC_0,
    buswidth := 8, mas_rpm_id := -1, slv_rpm_id := 2, ap_owned := true,
    qos_mode := ModeArg.unset, qos_prio := 0, qos_port := -1,
    links := [Link.id NodeId.MSM8996_MASTER_BIMC_SNOC_0] }

/-- The node `slv_bimc_snoc_1` (msm8996.c:81) -/
def slv_bimc_snoc_1 : qnode_decl :=
  { name := "slv_bimc_snoc_1", id := NodeId.MSM8996_SLAVE_BIMC_SNOC_1,
    buswidth := 8, mas_rpm_id := -1, slv_rpm_id := 138, ap_owned := true,
    qos_mode := ModeArg.unset, qos_prio := 0, qos_port := -1,
    links := [Link.id NodeId.MSM8996_MASTER_BIMC_SNOC_1] }

/-- The node `slv_cnoc_a1noc` (msm8996.c:82) -/
def slv_cnoc_a1noc : qnode_decl :=
  { name := "slv_cnoc_a1noc", id := NodeId.MSM8996_SLAVE_CNOC_A1NOC,
    buswidth := 4, mas_rpm_id := -1, slv_rpm_id := 75, ap_owned := true,
    qos_mode := ModeArg.unset, qos_prio := 0, qos_port := -1,
    links := [Link.id NodeId.MSM8996_MASTER_CNOC_A1NOC] }

/-- The node `slv_clk_ctl` (msm8996.c:83) -/
def slv_clk_ctl : qnode_decl :=
  { name := "slv_clk_ctl", id := NodeId.MSM8996_SLAVE_CLK_CTL,
    buswidth := 4, mas_rpm_id := -1, slv_rpm_id := 47, ap_owned := false,
    qos_mode := ModeArg.unset, qos_prio := 0, qos_port := -1,
    links := [Link.zero] }

/-- The node `slv_tcsr` (msm8996.c:84) -/
def slv_tcsr : qnode_decl :=
  { name := "slv_tcsr", id := NodeId.MSM8996_SLAVE_TCSR,
    buswidth := 4, mas_rpm_id := -1, slv_rpm_id := 50, ap_owned := false,
    qos_mode := ModeArg.unset, qos_prio := 0, qos_port := -1,
    links := [Link.zero] }

/-- The node `slv_tlmm` (msm8996.c:85) -/
def slv_tlmm : qnode_decl :=
  { name := "slv_tlmm", id := NodeId.MSM8996_SLAVE_TLMM,
    buswidth := 4, mas_rpm_id := -1, slv_rpm_id := 51, ap_owned := false,
    qos_mode := ModeArg.unset, qos_prio := 0, qos_port := -1,
    links := [Link.zero] }

/-- The node `slv_crypto0_cfg` (msm8996.c:86) -/
def slv_crypto0_cfg : qnode_decl :=
  { name := "slv_crypto0_cfg", id := NodeId.MSM8996_SLAVE_CRYPTO_0_CFG,
    buswidth := 4, mas_rpm_id := -1, slv_rpm_id := 52, ap_owned := true,
    qos_mode := ModeArg.unset, qos_prio := 0, qos_port := -1,
    links := [Link.zero] }

/-- The node `slv_mpm` (msm8996.c:87) -/
def slv_mpm : qnode_decl :=
  { name := "slv_mpm", id := NodeId.MSM8996_SLAVE_MPM,
    buswidth := 4, mas_rpm_id := -1, slv_rpm_id := 62, ap_owned := true,
    qos_mode := ModeArg.unset, qos_prio := 0, qos_port := -1,
    links := [Link.zero] }

/-- The node `slv_pimem_cfg` (msm8996.c:88) -/
def slv_pimem_cfg : qnode_decl :=
  { name := "slv_pimem_cfg", id := NodeId.MSM8996_SLAVE_PIMEM_CFG,
    buswidth := 4, mas_rpm_id := -1, slv_rpm_id := 167, ap_owned := true,
    qos_mode := ModeArg.unset, qos_prio := 0, qos_port := -1,
    links := [Link.zero] }

/-- The node `slv_imem_cfg` (msm8996.c:89) -/
def slv_imem_cfg : qnode_decl :=
  { name := "slv_imem_cfg", id := NodeId.MSM8996_SLAVE_IMEM_CFG,
    buswidth := 4, mas_rpm_id := -1, slv_rpm_id := 54, ap_owned := true,
    qos_mode := ModeArg.unset, qos_prio := 0, qos_port := -1,
    links := [Link.zero] }

/-- The node `slv_message_ram` (msm8996.c:90) -/
def slv_message_ram : qnode_decl :=
  { name := "slv_message_ram", id := NodeId.MSM8996_SLAVE_MESSAGE_RAM,
    buswidth := 4, mas_rpm_id := -1, slv_rpm_id := 55, ap_owned := false,
    qos_mode := ModeArg.unset, qos_prio := 0, qos_port := -1,
    links := [Link.zero] }

/-- The node `slv_bimc_cfg` (msm8996.c:91) -/
def slv_bimc_cfg : qnode_decl :=
  { name := "slv_bimc_cfg", id := NodeId.MSM8996_SLAVE_BIMC_CFG,
    buswidth := 4, mas_rpm_id := -1, slv_rpm_id := 56, ap_owned := true,
    qos_mode := ModeArg.unset, qos_prio := 0, qos_port := -1,
    links := [Link.zero] }

/-- The node `slv_pmic_arb` (msm8996.c:92) -/
def slv_pmic_arb : qnode_decl :=
  { name := "slv_pmic_arb", id := NodeId.MSM8996_SLAVE_PMIC_ARB,
    buswidth := 4, mas_rpm_id := -1, slv_rpm_id := 59, ap_owned := false,
    qos_mode := ModeArg.unset, qos_prio := 0, qos_port := -1,
    links := [Link.zero] }

/-- The node `slv_prng` (msm8996.c:93) -/
def slv_prng : qnode_decl :=
  { name := "slv_prng", id := NodeId.MSM8996_SLAVE_PRNG,
    buswidth := 4, mas_rpm_id := -1, slv_rpm_id := 127, ap_owned := true,
    qos_mode := ModeArg.unset, qos_prio := 0, qos_port := -1,
    links := [Link.zero] }

/-- The node `slv_dcc_cfg` (msm8996.c:94) -/
def slv_dcc_cfg : qnode_decl :=
  { name := "slv_dcc_cfg", id := NodeId.MSM8996_SLAVE_DCC_CFG,
    buswidth := 4, mas_rpm_id := -1, slv_rpm_id := 155, ap_owned := true,
    qos_mode := ModeArg.unset, qos_prio := 0, qos_port := -1,
    links := [Link.zero] }

/-- The node `slv_rbcpr_mx` (msm8996.c:95) -/
def slv_rbcpr_mx : qnode_decl :=
  { name := "slv_rbcpr_mx", id := NodeId.MSM8996_SLAVE_RBCPR_MX,
    buswidth := 4, mas_rpm_id := -1, slv_rpm_id := 170, ap_owned := true,
    qos_mode := ModeArg.unset, qos_prio := 0, qos_port := -1,
    links := [Link.zero] }

/-- The node `slv_qdss_cfg` (msm8996.c:96) -/
def slv_qdss_cfg : qnode_decl :=
  { name := "slv_qdss_cfg", id := NodeId.MSM8996_SLAVE_QDSS_CFG,
    buswidth := 4, mas_rpm_id := -1, slv_rpm_id := 63, ap_owned := true,
    qos_mode := ModeArg.unset, qos_prio := 0, qos_port := -1,
    links := [Link.zero] }

/-- The node `slv_rbcpr_cx` (msm8996.c:97) -/
def slv_rbcpr_cx : qnode_decl :=
  { name := "slv_rbcpr_cx", id := NodeId.MSM8996_SLAVE_RBCPR_CX,
    buswidth := 4, mas_rpm_id := -1, slv_rpm_id := 169, ap_owned := true,
    qos_mode := ModeArg.unset, qos_prio := 0, qos_port := -1,
    links := [Link.zero] }

/-- The node `slv_cpu_apu_cfg` (msm8996.c:98) -/
def slv_cpu_apu_cfg : qnode_decl :=
  { name := "slv_cpu_apu_cfg", id := NodeId.MSM8996_SLAVE_QDSS_RBCPR_APU_CFG,
    buswidth := 4, mas_rpm_id := -1, slv_rpm_id := 168, ap_owned := true,
    qos_mode := ModeArg.unset, qos_prio := 0, qos_port := -1,
    links := [Link.zero] }

/-- The node `slv_cnoc_mnoc_cfg` (msm8996.c:99) -/
def slv_cnoc_mnoc_cfg : qnode_decl :=
  { name := "slv_cnoc_mnoc_cfg", id := NodeId.MSM8996_SLAVE_CNOC_MNOC_CFG,
    buswidth := 4, mas_rpm_id := -1, slv_rpm_id := 66, ap_owned := true,
    qos_mode := ModeArg.unset, qos_prio := 0, qos_port := -1,
    links := [Link.id NodeId.MSM8996_MASTER_CNOC_MNOC_CFG] }

/-- The node `slv_snoc_cfg` (msm8996.c:100) -/
def slv_snoc_cfg : qnode_decl :=
  { name := "slv_snoc_cfg", id := NodeId.MSM8996_SLAVE_SNOC_CFG,
    buswidth := 4, mas_rpm_id := -1, slv_rpm_id := 70, ap_owned := true,
    qos_mode := ModeArg.unset, qos_prio := 0, qos_port := -1,
    links := [Link.zero] }

/-- The node `slv_snoc_mpu_cfg` (msm8996.c:101) -/
def slv_snoc_mpu_cfg : qnode_decl :=
  { name := "slv_snoc_mpu_cfg", id := NodeId.MSM8996_SLAVE_SNOC_MPU_CFG,
    buswidth := 4, mas_rpm_id := -1, slv_rpm_id := 67, ap_owned := true,
    qos_mode := ModeArg.unset, qos_prio := 0, qos_port := -1,
    links := [Link.zero] }

/-- The node `slv_ebi1_phy_cfg` (msm8996.c:102) -/
def slv_ebi1_phy_cfg : qnode_decl :=
  { name := "slv_ebi1_phy_cfg", id := NodeId.MSM8996_SLAVE_EBI1_PHY_CFG,
    buswidth := 4, mas_rpm_id := -1, slv_rpm_id := 73, ap_owned := true,
    qos_mode := ModeArg.unset, qos_prio := 0, qos_port := -1,
    links := [Link.zero] }

/-- The node `slv_a0noc_cfg` (msm8996.c:103) -/
def slv_a0noc_cfg : qnode_decl :=
  { name := "slv_a0noc_cfg", id := NodeId.MSM8996_SLAVE_A0NOC_CFG,
    buswidth := 4, mas_rpm_id := -1, slv_rpm_id := 144, ap_owned := true,
    qos_mode := ModeArg.unset, qos_prio := 0, qos_port := -1,
    links := [Link.zero] }

/-- The node `slv_pcie_1_cfg` (msm8996.c:104) -/
def slv_pcie_1_cfg : qnode_decl :=
  { name := "slv_pcie_1_cfg", id := NodeId.MSM8996_SLAVE_PCIE_1_CFG,
    buswidth := 4, mas_rpm_id := -1, slv_rpm_id := 89, ap_owned := true,
    qos_mode := ModeArg.unset, qos_prio := 0, qos_port := -1,
    links := [Link.zero] }

/-- The node `slv_pcie_2_cfg` (msm8996.c:105) -/
def slv_pcie_2_cfg : qnode_decl :=
  { name := "slv_pcie_2_cfg", id := NodeId.MSM8996_SLAVE_PCIE_2_CFG,
    buswidth := 4, mas_rpm_id := -1, slv_rpm_id := 165, ap_owned := true,
    qos_mode := ModeArg.unset, qos_prio := 0, qos_port := -1,
    links := [Link.zero] }

/-- The node `slv_pcie_0_cfg` (msm8996.c:106) -/
def slv_pcie_0_cfg : qnode_decl :=
  { name := "slv_pcie_0_cfg", id := NodeId.MSM8996_SLAVE_PCIE_0_CFG,
    buswidth := 4, mas_rpm_id := -1, slv_rpm_id := 88, ap_owned := true,
    qos_mode := ModeArg.unset, qos_prio := 0, qos_port := -1,
    links := [Link.zero] }

/-- The node `slv_pcie20_ahb2phy` (msm8996.c:107) -/
def slv_pcie20_ahb2phy : qnode_decl :=
  { name := "slv_pcie20_ahb2phy", id := NodeId.MSM8996_SLAVE_PCIE20_AHB2PHY,
    buswidth := 4, mas_rpm_id := -1, slv_rpm_id := 163, ap_owned := true,
    qos_mode := ModeArg.unset, qos_prio := 0, qos_port := -1,
    links := [Link.zero] }

/-- The node `slv_a0noc_mpu_cfg` (msm8996.c:108) -/
def slv_a0noc_mpu_cfg : qnode_decl :=
  { name := "slv_a0noc_mpu_cfg", id := NodeId.MSM8996_SLAVE_A0NOC_MPU_CFG,
    buswidth := 4, mas_rpm_id := -1, slv_rpm_id := 145, ap_owned := true,
    qos_mode := ModeArg.unset, qos_prio := 0, qos_port := -1,
    links := [Link.zero] }

/-- The node `slv_ufs_cfg` (msm8996.c:109) -/
def slv_ufs_cfg : qnode_decl :=
  { name := "slv_ufs_cfg", id := NodeId.MSM8996_SLAVE_UFS_CFG,
    buswidth := 4, mas_rpm_id := -1, slv_rpm_id := 92, ap_owned := true,
    qos_mode := ModeArg.unset, qos_prio := 0, qos_port := -1,
    links := [Link.zero] }

/-- The node `slv_a1noc_cfg` (msm8996.c:110) -/
def slv_a1noc_cfg : qnode_decl :=
  { name := "slv_a1noc_cfg", id := NodeId.MSM8996_SLAVE_A1NOC_CFG,
    buswidth := 4, mas_rpm_id := -1, slv_rpm_id := 147, ap_owned := true,
    qos_mode := ModeArg.unset, qos_prio := 0, qos_port := -1,
    links := [Link.zero] }

/-- The node `slv_a1noc_mpu_cfg` (msm8996.c:111) -/
def slv_a1noc_mpu_cfg : qnode_decl :=
  { name := "slv_a1noc_mpu_cfg", id := NodeId.MSM8996_SLAVE_A1NOC_MPU_CFG,
    buswidth := 4, mas_rpm_id := -1, slv_rpm_id := 148, ap_owned := true,
    qos_mode := ModeArg.unset, qos_prio := 0, qos_port := -1,
    links := [Link.zero] }

/-- The node `slv_a2noc_cfg` (msm8996.c:112) -/
def slv_a2noc_cfg : qnode_decl :=
  { name := "slv_a2noc_cfg", id := NodeId.MSM8996_SLAVE_A2NOC_CFG,
    buswidth := 4, mas_rpm_id := -1, slv_rpm_id := 150, ap_owned := true,
    qos_mode := ModeArg.unset, qos_prio := 0, qos_port := -1,
    links := [Link.zero] }

/-- The node `slv_a2noc_mpu_cfg` (msm8996.c:113) -/
def slv_a2noc_mpu_cfg : qnode_decl :=
  { name := "slv_a2noc_mpu_cfg", id := NodeId.MSM8996_SLAVE_A2NOC_MPU_CFG,
    buswidth := 4, mas_rpm_id := -1, slv_rpm_id := 151, ap_owned := true,
    qos_mode := ModeArg.unset, qos_prio := 0, qos_port := -1,
    links := [Link.zero] }

/-- The node `slv_ssc_cfg` (msm8996.c:114) -/
def slv_ssc_cfg : qnode_decl :=
  { name := "slv_ssc_cfg", id := NodeId.MSM8996_SLAVE_SSC_CFG,
    buswidth := 4, mas_rpm_id := -1, slv_rpm_id := 177, ap_owned := true,
    qos_mode := ModeArg.unset, qos_prio := 0, qos_port := -1,
    links := [Link.zero] }

/-- The node `slv_a0noc_smmu_cfg` (msm8996.c:115) -/
def slv_a0noc_smmu_cfg : qnode_decl :=
  { name := "slv_a0noc_smmu_cfg", id := NodeId.MSM8996_SLAVE_A0NOC_SMMU_CFG,
    buswidth := 8, mas_rpm_id := -1, slv_rpm_id := 146, ap_owned := true,
    qos_mode := ModeArg.unset, qos_prio := 0, qos_port := -1,
    links := [Link.zero] }

/-- The node `slv_a1noc_smmu_cfg` (msm8996.c:116) -/
def slv_a1noc_smmu_cfg : qnode_decl :=
  { name := "slv_a1noc_smmu_cfg", id := NodeId.MSM8996_SLAVE_A1NOC_SMMU_CFG,
    buswidth := 8, mas_rpm_id := -1, slv_rpm_id := 149, ap_owned := true,
    qos_mode := ModeArg.unset, qos_prio := 0, qos_port := -1,
    links := [Link.zero] }

/-- The node `slv_a2noc_smmu_cfg` (msm8996.c:117) -/
def slv_a2noc_smmu_cfg : qnode_decl :=
  { name := "slv_a2noc_smmu_cfg", id := NodeId.MSM8996_SLAVE_A2NOC_SMMU_CFG,
    buswidth := 8, mas_rpm_id := -1, slv_rpm_id := 152, ap_owned := true,
    qos_mode := ModeArg.unset, qos_prio := 0, qos_port := -1,
    links := [Link.zero] }

/-- The node `slv_lpass_smmu_cfg` (msm8996.c:118) -/
def slv_lpass_smmu_cfg : qnode_decl :=
  { name := "slv_lpass_smmu_cfg", id := NodeId.MSM8996_SLAVE_LPASS_SMMU_CFG,
    buswidth := 8, mas_rpm_id := -1, slv_rpm_id := 161, ap_owned := true,
    qos_mode := ModeArg.unset, qos_prio := 0, qos_port := -1,
    links := [Link.zero] }

/-- The node `slv_cnoc_mnoc_mmss_cfg` (msm8996.c:119) -/
def slv_cnoc_mnoc_mmss_cfg : qnode_decl :=
  { name := "slv_cnoc_mnoc_mmss_cfg", id := NodeId.MSM8996_SLAVE_CNOC_MNOC_MMSS_CFG,
    buswidth := 8, mas_rpm_id := -1, slv_rpm_id := 58, ap_owned := true,
    qos_mode := ModeArg.unset, qos_prio := 0, qos_port := -1,
    links := [Link.id NodeId.MSM8996_MASTER_CNOC_MNOC_MMSS_CFG] }

/-- The node `slv_mmagic_cfg` (msm8996.c:120) -/
def slv_mmagic_cfg : qnode_decl :=
  { name := "slv_mmagic_cfg", id := NodeId.MSM8996_SLAVE_MMAGIC_CFG,
    buswidth := 8, mas_rpm_id := -1, slv_rpm_id := 162, ap_owned := true,
    qos_mode := ModeArg.unset, qos_prio := 0, qos_port := -1,
    links := [Link.zero] }

/-- The node `slv_cpr_cfg` (msm8996.c:121) -/
def slv_cpr_cfg : qnode_decl :=
  { name := "slv_cpr_cfg", id := NodeId.MSM8996_SLAVE_CPR_CFG,
    buswidth := 8, mas_rpm_id := -1, slv_rpm_id := 6, ap_owned := true,
    qos_mode := ModeArg.unset, qos_prio := 0, qos_port := -1,
    links := [Link.zero] }

/-- The node `slv_misc_cfg` (msm8996.c:122) -/
def slv_misc_cfg : qnode_decl :=
  { name := "slv_misc_cfg", id := NodeId.MSM8996_SLAVE_MISC_CFG,
    buswidth := 8, mas_rpm_id := -1, slv_rpm_id := 8, ap_owned := true,
    qos_mode := ModeArg.unset, qos_prio := 0, qos_port := -1,
    links := [Link.zero] }

/-- The node `slv_venus_throttle_cfg` (msm8996.c:123) -/
def slv_venus_throttle_cfg : qnode_decl :=
  { name := "slv_venus_throttle_cfg", id := NodeId.MSM8996_SLAVE_VENUS_THROTTLE_CFG,
    buswidth := 8, mas_rpm_id := -1, slv_rpm_id := 178, ap_owned := true,
    qos_mode := ModeArg.unset, qos_prio := 0, qos_port := -1,
    links := [Link.zero] }

/-- The node `slv_venus_cfg` (msm8996.c:124) -/
def slv_venus_cfg : qnode_decl :=
  { name := "slv_venus_cfg", id := NodeId.MSM8996_SLAVE_VENUS_CFG,
    buswidth := 8, mas_rpm_id := -1, slv_rpm_id := 10, ap_owned := true,
    qos_mode := ModeArg.unset, qos_prio := 0, qos_port := -1,
    links := [Link.zero] }

/-- The node `slv_vmem_cfg` (msm8996.c:125) -/
def slv_vmem_cfg : qnode_decl :=
  { name := "slv_vmem_cfg", id := NodeId.MSM8996_SLAVE_VMEM_CFG,
    buswidth := 8, mas_rpm_id := -1, slv_rpm_id := 180, ap_owned := true,
    qos_mode := ModeArg.unset, qos_prio := 0, qos_port := -1,
    links := [Link.zero] }

/-- The node `slv_dsa_cfg` (msm8996.c:126) -/
def slv_dsa_cfg : qnode_decl :=
  { name := "slv_dsa_cfg", id := NodeId.MSM8996_SLAVE_DSA_CFG,
    buswidth := 8, mas_rpm_id := -1, slv_rpm_id := 157, ap_owned := true,
    qos_mode := ModeArg.unset, qos_prio := 0, qos_port := -1,
    links := [Link.zero] }

/-- The node `slv_mnoc_clocks_cfg` (msm8996.c:127) -/
def slv_mnoc_clocks_cfg : qnode_decl :=
  { name := "slv_mnoc_clocks_cfg", id := NodeId.MSM8996_SLAVE_MMSS_CLK_CFG,
    buswidth := 8, mas_rpm_id := -1, slv_rpm_id := 12, ap_owned := true,
    qos_mode := ModeArg.unset, qos_prio := 0, qos_port := -1,
    links := [Link.zero] }

/-- The node `slv_dsa_mpu_cfg` (msm8996.c:128) -/
def slv_dsa_mpu_cfg : qnode_decl :=
  { name := "slv_dsa_mpu_cfg", id := NodeId.MSM8996_SLAVE_DSA_MPU_CFG,
    buswidth := 8, mas_rpm_id := -1, slv_rpm_id := 158, ap_owned := true,
    qos_mode := ModeArg.unset, qos_prio := 0, qos_port := -1,
    links := [Link.zero] }

/-- The node `slv_mnoc_mpu_cfg` (msm8996.c:129) -/
def slv_mnoc_mpu_cfg : qnode_decl :=
  { name := "slv_mnoc_mpu_cfg", id := NodeId.MSM8996_SLAVE_MNOC_MPU_CFG,
    buswidth := 8, mas_rpm_id := -1, slv_rpm_id := 14, ap_owned := true,
    qos_mode := ModeArg.unset, qos_prio := 0, qos_port := -1,
    links := [Link.zero] }

/-- The node `slv_display_cfg` (msm8996.c:130) -/
def slv_display_cfg : qnode_decl :=
  { name := "slv_display_cfg", id := NodeId.MSM8996_SLAVE_DISPLAY_CFG,
    buswidth := 8, mas_rpm_id := -1, slv_rpm_id := 4, ap_owned := true,
    qos_mode := ModeArg.unset, qos_prio := 0, qos_port := -1,
    links := [Link.zero] }

/-- The node `slv_display_throttle_cfg` (msm8996.c:131) -/
def slv_display_throttle_cfg : qnode_decl :=
  { name := "slv_display_throttle_cfg", id := NodeId.MSM8996_SLAVE_DISPLAY_THROTTLE_CFG,
    buswidth := 8, mas_rpm_id := -1, slv_rpm_id := 156, ap_owned := true,
    qos_mode := ModeArg.unset, qos_prio := 0, qos_port := -1,
    links := [Link.zero] }

/-- The node `slv_camera_cfg` (msm8996.c:132) -/
def slv_camera_cfg : qnode_decl :=
  { name := "slv_camera_cfg", id := NodeId.MSM8996_SLAVE_CAMERA_CFG,
    buswidth := 8, mas_rpm_id := -1, slv_rpm_id := 3, ap_owned := true,
    qos_mode := ModeArg.unset, qos_prio := 0, qos_port := -1,
    links := [Link.zero] }

/-- The node `slv_camera_throttle_cfg` (msm8996.c:133) -/
def slv_camera_throttle_cfg : qnode_decl :=
  { name := "slv_camera_throttle_cfg", id := NodeId.MSM8996_SLAVE_CAMERA_THROTTLE_CFG,
    buswidth := 8, mas_rpm_id := -1, slv_rpm_id := 154, ap_owned := true,
    qos_mode := ModeArg.unset, qos_prio := 0, qos_port := -1,
    links := [Link.zero] }

/-- The node `slv_oxili_cfg` (msm8996.c:134) -/
def slv_oxili_cfg : qnode_decl :=
  { name := "slv_oxili_cfg", id := NodeId.MSM8996_SLAVE_GRAPHICS_3D_CFG,
    buswidth := 8, mas_rpm_id := -1, slv_rpm_id := 11, ap_owned := true,
    qos_mode := ModeArg.unset, qos_prio := 0, qos_port := -1,
    links := [Link.zero] }

/-- The node `slv_smmu_mdp_cfg` (msm8996.c:135) -/
def slv_smmu_mdp_cfg : qnode_decl :=
  { name := "slv_smmu_mdp_cfg", id := NodeId.MSM8996_SLAVE_SMMU_MDP_CFG,
    buswidth := 8, mas_rpm_id := -1, slv_rpm_id := 173, ap_owned := true,
    qos_mode := ModeArg.unset, qos_prio := 0, qos_port := -1,
    links := [Link.zero] }

/-- The node `slv_smmu_rot_cfg` (msm8996.c:136) -/
def slv_smmu_rot_cfg : qnode_decl :=
  { name := "slv_smmu_rot_cfg", id := NodeId.MSM8996_SLAVE_SMMU_ROTATOR_CFG,
    buswidth := 8, mas_rpm_id := -1, slv_rpm_id := 174, ap_owned := true,
    qos_mode := ModeArg.unset, qos_prio := 0, qos_port := -1,
    links := [Link.zero] }

/-- The node `slv_smmu_venus_cfg` (msm8996.c:137) -/
def slv_smmu_venus_cfg : qnode_decl :=
  { name := "slv_smmu_venus_cfg", id := NodeId.MSM8996_SLAVE_SMMU_VENUS_CFG,
    buswidth := 8, mas_rpm_id := -1, slv_rpm_id := 175, ap_owned := true,
    qos_mode := ModeArg.unset, qos_prio := 0, qos_port := -1,
    links := [Link.zero] }

/-- The node `slv_smmu_cpp_cfg` (msm8996.c:138) -/
def slv_smmu_cpp_cfg : qnode_decl :=
  { name := "slv_smmu_cpp_cfg", id := NodeId.MSM8996_SLAVE_SMMU_CPP_CFG,
    buswidth := 8, mas_rpm_id := -1, slv_rpm_id := 171, ap_owned := true,
    qos_mode := ModeArg.unset, qos_prio := 0, qos_port := -1,
    links := [Link.zero] }

/-- The node `slv_smmu_jpeg_cfg` (msm8996.c:139) -/
def slv_smmu_jpeg_cfg : qnode_decl :=
  { name := "slv_smmu_jpeg_cfg", id := NodeId.MSM8996_SLAVE_SMMU_JPEG_CFG,
    buswidth := 8, mas_rpm_id := -1, slv_rpm_id := 172, ap_owned := true,
    qos_mode := ModeArg.unset, qos_prio := 0, qos_port := -1,
    links := [Link.zero] }

/-- The node `slv_smmu_vfe_cfg` (msm8996.c:140) -/
def slv_smmu_vfe_cfg : qnode_decl :=
  { name := "slv_smmu_vfe_cfg", id := NodeId.MSM8996_SLAVE_SMMU_VFE_CFG,
    buswidth := 8, mas_rpm_id := -1, slv_rpm_id := 176, ap_owned := true,
    qos_mode := ModeArg.unset, qos_prio := 0, qos_port := -1,
    links := [Link.zero] }

/-- The node `slv_mnoc_bimc` (msm8996.c:141) -/
def slv_mnoc_bimc : qnode_decl :=
  { name := "slv_mnoc_bimc", id := NodeId.MSM8996_SLAVE_MNOC_BIMC,
    buswidth := 32, mas_rpm_id := -1, slv_rpm_id := 16, ap_owned := true,
    qos_mode := ModeArg.unset, qos_prio := 0, qos_port := -1,
    links := [Link.id NodeId.MSM8996_MASTER_MNOC_BIMC] }

/-- The node `slv_vmem` (msm8996.c:142) -/
def slv_vmem : qnode_decl :=
  { name := "slv_vmem", id := NodeId.MSM8996_SLAVE_VMEM,
    buswidth := 32, mas_rpm_id := -1, slv_rpm_id := 179, ap_owned := true,
    qos_mode := ModeArg.unset, qos_prio := 0, qos_port := -1,
    links := [Link.zero] }

/-- The node `slv_srvc_mnoc` (msm8996.c:143) -/
def slv_srvc_mnoc : qnode_decl :=
  { name := "slv_srvc_mnoc", id := NodeId.MSM8996_SLAVE_SERVICE_MNOC,
    buswidth := 8, mas_rpm_id := -1, slv_rpm_id := 17, ap_owned := true,
    qos_mode := ModeArg.unset, qos_prio := 0, qos_port := -1,
    links := [Link.zero] }

/-- The node `slv_pnoc_a1noc` (msm8996.c:144) -/
def slv_pnoc_a1noc : qnode_decl :=
  { name := "slv_pnoc_a1noc", id := NodeId.MSM8996_SLAVE_PNOC_A1NOC,
    buswidth := 8, mas_rpm_id := -1, slv_rpm_id := 139, ap_owned := false,
    qos_mode := ModeArg.unset, qos_prio := 0, qos_port := -1,
    links := [Link.id NodeId.MSM8996_MASTER_PNOC_A1NOC] }

/-- The node `slv_usb_hs` (msm8996.c:145) -/
def slv_usb_hs : qnode_decl :=
  { name := "slv_usb_hs", id := NodeId.MSM8996_SLAVE_USB_HS,
    buswidth := 4, mas_rpm_id := -1, slv_rpm_id := 40, ap_owned := false,
    qos_mode := ModeArg.unset, qos_prio := 0, qos_port := -1,
    links := [Link.zero] }

/-- The node `slv_sdcc_2` (msm8996.c:146) -/
def slv_sdcc_2 : qnode_decl :=
  { name := "slv_sdcc_2", id := NodeId.MSM8996_SLAVE_SDCC_2,
    buswidth := 4, mas_rpm_id := -1, slv_rpm_id := 33, ap_owned := false,
    qos_mode := ModeArg.unset, qos_prio := 0, qos_port := -1,
    links := [Link.zero] }

/-- The node `slv_sdcc_4` (msm8996.c:147) -/
def slv_sdcc_4 : qnode_decl :=
  { name := "slv_sdcc_4", id := NodeId.MSM8996_SLAVE_SDCC_4,
    buswidth := 4, mas_rpm_id := -1, slv_rpm_id := 34, ap_owned := false,
    qos_mode := ModeArg.unset, qos_prio := 0, qos_port := -1,
    links := [Link.zero] }

/-- The node `slv_tsif` (msm8996.c:148) -/
def slv_tsif : qnode_decl :=
  { name := "slv_tsif", id := NodeId.MSM8996_SLAVE_TSIF,
    buswidth := 4, mas_rpm_id := -1, slv_rpm_id := 35, ap_owned := false,
    qos_mode := ModeArg.unset, qos_prio := 0, qos_port := -1,
    links := [Link.zero] }

/-- The node `slv_blsp_2` (msm8996.c:149) -/
def slv_blsp_2 : qnode_decl :=
  { name := "slv_blsp_2", id := NodeId.MSM8996_SLAVE_BLSP_2,
    buswidth := 4, mas_rpm_id := -1, slv_rpm_id := 37, ap_owned := false,
    qos_mode := ModeArg.unset, qos_prio := 0, qos_port := -1,
    links := [Link.zero] }

/-- The node `slv_sdcc_1` (msm8996.c:150) -/
def slv_sdcc_1 : qnode_decl :=
  { name := "slv_sdcc_1", id := NodeId.MSM8996_SLAVE_SDCC_1,
    buswidth := 4, mas_rpm_id := -1, slv_rpm_id := 31, ap_owned := false,
    qos_mode := ModeArg.unset, qos_prio := 0, qos_port := -1,
    links := [Link.zero] }

/-- The node `slv_blsp_1` (msm8996.c:151) -/
def slv_blsp_1 : qnode_decl :=
  { name := "slv_blsp_1", id := NodeId.MSM8996_SLAVE_BLSP_1,
    buswidth := 4, mas_rpm_id := -1, slv_rpm_id := 39, ap_owned := false,
    qos_mode := ModeArg.unset, qos_prio := 0, qos_port := -1,
    links := [Link.zero] }

/-- The node `slv_pdm` (msm8996.c:152) -/
def slv_pdm : qnode_decl :=
  { name := "slv_pdm", id := NodeId.MSM8996_SLAVE_PDM,
    buswidth := 4, mas_rpm_id := -1, slv_rpm_id := 41, ap_owned := false,
    qos_mode := ModeArg.unset, qos_prio := 0, qos_port := -1,
    links := [Link.zero] }

/-- The node `slv_ahb2phy` (msm8996.c:153) -/
def slv_ahb2phy : qnode_decl :=
  { name := "slv_ahb2phy", id := NodeId.MSM8996_SLAVE_AHB2PHY,
    buswidth := 4, mas_rpm_id := -1, slv_rpm_id := 153, ap_owned := true,
    qos_mode := ModeArg.unset, qos_prio := 0, qos_port := -1,
    links := [Link.zero] }

/-- The node `slv_hmss` (msm8996.c:154) -/
def slv_hmss : qnode_decl :=
  { name := "slv_hmss", id := NodeId.MSM8996_SLAVE_APPSS,
    buswidth := 16, mas_rpm_id := -1, slv_rpm_id := 20, ap_owned := true,
    qos_mode := ModeArg.unset, qos_prio := 0, qos_port := -1,
    links := [Link.zero] }

/-- The node `slv_lpass` (msm8996.c:155) -/
def slv_lpass : qnode_decl :=
  { name := "slv_lpass", id := NodeId.MSM8996_SLAVE_LPASS,
    buswidth := 16, mas_rpm_id := -1, slv_rpm_id := 21, ap_owned := true,
    qos_mode := ModeArg.unset, qos_prio := 0, qos_port := -1,
    links := [Link.zero] }

/-- The node `slv_usb3` (msm8996.c:156) -/
def slv_usb3 : qnode_decl :=
  { name := "slv_usb3", id := NodeId.MSM8996_SLAVE_USB3,
    buswidth := 16, mas_rpm_id := -1, slv_rpm_id := 22, ap_owned := true,
    qos_mode := ModeArg.unset, qos_prio := 0, qos_port := -1,
    links := [Link.zero] }

/-- The node `slv_snoc_bimc` (msm8996.c:157) -/
def slv_snoc_bimc : qnode_decl :=
  { name := "slv_snoc_bimc", id := NodeId.MSM8996_SLAVE_SNOC_BIMC,
    buswidth := 32, mas_rpm_id := -1, slv_rpm_id := 24, ap_owned := false,
    qos_mode := ModeArg.unset, qos_prio := 0, qos_port := -1,
    links := [Link.id NodeId.MSM8996_MASTER_SNOC_BIMC] }

/-- The node `slv_snoc_cnoc` (msm8996.c:158) -/
def slv_snoc_cnoc : qnode_decl :=
  { name := "slv_snoc_cnoc", id := NodeId.MSM8996_SLAVE_SNOC_CNOC,
    buswidth := 16, mas_rpm_id := -1, slv_rpm_id := 25, ap_owned := false,
    qos_mode := ModeArg.unset, qos_prio := 0, qos_port := -1,
    links := [Link.id NodeId.MSM8996_MASTER_SNOC_CNOC] }

/-- The node `slv_imem` (msm8996.c:159) -/
def slv_imem : qnode_decl :=
  { name := "slv_imem", id := NodeId.MSM8996_SLAVE_OCIMEM,
    buswidth := 16, mas_rpm_id := -1, slv_rpm_id := 26, ap_owned := false,
    qos_mode := ModeArg.unset, qos_prio := 0, qos_port := -1,
    links := [Link.zero] }

/-- The node `slv_pimem` (msm8996.c:160) -/
def slv_pimem : qnode_decl :=
  { name := "slv_pimem", id := NodeId.MSM8996_SLAVE_PIMEM,
    buswidth := 16, mas_rpm_id := -1, slv_rpm_id := 166, ap_owned := false,
    qos_mode := ModeArg.unset, qos_prio := 0, qos_port := -1,
    links := [Link.zero] }

/-- The node `slv_snoc_vmem` (msm8996.c:161) -/
def slv_snoc_vmem : qnode_decl :=
  { name := "slv_snoc_vmem", id := NodeId.MSM8996_SLAVE_SNOC_VMEM,
    buswidth := 16, mas_rpm_id := -1, slv_rpm_id := 140, ap_owned := true,
    qos_mode := ModeArg.unset, qos_prio := 0, qos_port := -1,
    links := [Link.id NodeId.MSM8996_MASTER_SNOC_VMEM] }

/-- The node `slv_snoc_pnoc` (msm8996.c:162) -/
def slv_snoc_pnoc : qnode_decl :=
  { name := "slv_snoc_pnoc", id := NodeId.MSM8996_SLAVE_SNOC_PNOC,
    buswidth := 16, mas_rpm_id := -1, slv_rpm_id := 28, ap_owned := false,
    qos_mode := ModeArg.unset, qos_prio := 0, qos_port := -1,
    links := [Link.id NodeId.MSM8996_MASTER_SNOC_PNOC] }

/-- The node `slv_qdss_stm` (msm8996.c:163) -/
def slv_qdss_stm : qnode_decl :=
  { name := "slv_qdss_stm", id := NodeId.MSM8996_SLAVE_QDSS_STM,
    buswidth := 16, mas_rpm_id := -1, slv_rpm_id := 30, ap_owned := false,
    qos_mode := ModeArg.unset, qos_prio := 0, qos_port := -1,
    links := [Link.zero] }

/-- The node `slv_pcie_0` (msm8996.c:164) -/
def slv_pcie_0 : qnode_decl :=
  { name := "slv_pcie_0", id := NodeId.MSM8996_SLAVE_PCIE_0,
    buswidth := 16, mas_rpm_id := -1, slv_rpm_id := 84, ap_owned := true,
    qos_mode := ModeArg.unset, qos_prio := 0, qos_port := -1,
    links := [Link.zero] }

/-- The node `slv_pcie_1` (msm8996.c:165) -/
def slv_pcie_1 : qnode_decl :=
  { name := "slv_pcie_1", id := NodeId.MSM8996_SLAVE_PCIE_1,
    buswidth := 16, mas_rpm_id := -1, slv_rpm_id := 85, ap_owned := true,
    qos_mode := ModeArg.unset, qos_prio := 0, qos_port := -1,
    links := [Link.zero] }

/-- The node `slv_pcie_2` (msm8996.c:166) -/
def slv_pcie_2 : qnode_decl :=
  { name := "slv_pcie_2", id := NodeId.MSM8996_SLAVE_PCIE_2,
    buswidth := 16, mas_rpm_id := -1, slv_rpm_id := 164, ap_owned := true,
    qos_mode := ModeArg.unset, qos_prio := 0, qos_port := -1,
    links := [Link.zero] }

/-- The node `slv_srvc_snoc` (msm8996.c:167) -/
def slv_srvc_snoc : qnode_decl :=
  { name := "slv_srvc_snoc", id := NodeId.MSM8996_SLAVE_SERVICE_SNOC,
    buswidth := 16, mas_rpm_id := -1, slv_rpm_id := 29, ap_owned := true,
    qos_mode := ModeArg.unset, qos_prio := 0, qos_port := -1,
    links := [Link.zero] }

/-- The 133 nodes declared with `DEFINE_QNODE` in msm8996.c, in source order -/
def msm8996_qnodes : List qnode_decl :=
  [mas_cnoc_a1noc, mas_crypto_c0, mas_pnoc_a1noc, mas_usb3, mas_ipa, mas_ufs, mas_apps_proc,
     mas_oxili, mas_mnoc_bimc, mas_snoc_bimc, mas_snoc_cnoc, mas_qdss_dap,
     mas_cnoc_mnoc_mmss_cfg, mas_cnoc_mnoc_cfg, mas_cpp, mas_jpeg, mas_mdp_p0, mas_mdp_p1,
     mas_rotator] ++
  [mas_venus, mas_vfe, mas_snoc_vmem, mas_venus_vmem, mas_snoc_pnoc, mas_sdcc_1, mas_sdcc_2,
     mas_sdcc_4, mas_usb_hs, mas_blsp_1, mas_blsp_2, mas_tsif, mas_hmss, mas_qdss_bam,
     mas_snoc_cfg, mas_bimc_snoc_0, mas_bimc_snoc_1, mas_a0noc_snoc, mas_a1noc_snoc] ++
  [mas_a2noc_snoc, mas_qdss_etr, slv_a0noc_snoc, slv_a1noc_snoc, slv_a2noc_snoc, slv_ebi,
     slv_hmss_l3, slv_bimc_snoc_0, slv_bimc_snoc_1, slv_cnoc_a1noc, slv_clk_ctl, slv_tcsr,
     slv_tlmm, slv_crypto0_cfg, slv_mpm, slv_pimem_cfg, slv_imem_cfg, slv_message_ram,
     slv_bimc_cfg] ++
  [slv_pmic_arb, slv_prng, slv_dcc_cfg, slv_rbcpr_mx, slv_qdss_cfg, slv_rbcpr_cx, slv_cpu_apu_cfg,
     slv_cnoc_mnoc_cfg, slv_snoc_cfg, slv_snoc_mpu_cfg, slv_ebi1_phy_cfg, slv_a0noc_cfg,
     slv_pcie_1_cfg, slv_pcie_2_cfg, slv_pcie_0_cfg, slv_pcie20_ahb2phy, slv_a0noc_mpu_cfg,
     slv_ufs_cfg, slv_a1noc_cfg] ++
  [slv_a1noc_mpu_cfg, slv_a2noc_cfg, slv_a2noc_mpu_cfg, slv_ssc_cfg, slv_a0noc_smmu_cfg,
     slv_a1noc_smmu_cfg, slv_a2noc_smmu_cfg, slv_lpass_smmu_cfg, slv_cnoc_mnoc_mmss_cfg,
     slv_mmagic_cfg, slv_cpr_cfg, slv_misc_cfg, slv_venus_throttle_cfg, slv_venus_cfg,
     slv_vmem_cfg, slv_dsa_cfg, slv_mnoc_clocks_cfg, slv_dsa_mpu_cfg, slv_mnoc_mpu_cfg] ++
  [slv_display_cfg, slv_display_throttle_cfg, slv_camera_cfg, slv_camera_throttle_cfg,
     slv_oxili_cfg, slv_smmu_mdp_cfg, slv_smmu_rot_cfg, slv_smmu_venus_cfg, slv_smmu_cpp_cfg,
     slv_smmu_jpeg_cfg, slv_smmu_vfe_cfg, slv_mnoc_bimc, slv_vmem, slv_srvc_mnoc, slv_pnoc_a1noc,
     slv_usb_hs, slv_sdcc_2, slv_sdcc_4, slv_tsif] ++
  [slv_blsp_2, slv_sdcc_1, slv_blsp_1, slv_pdm, slv_ahb2phy, slv_hmss, slv_lpass, slv_usb3,
     slv_snoc_bimc, slv_snoc_cnoc, slv_imem, slv_pimem, slv_snoc_vmem, slv_snoc_pnoc,
     slv_qdss_stm, slv_pcie_0, slv_pcie_1, slv_pcie_2, slv_srvc_snoc]

/-- A height for every identifier: the number of links on the longest chain of links leaving
the node that carries it (0 for a node whose link list names no identifier) -/
def NodeId.rank : NodeId → Nat
  | .MSM8996_MASTER_CNOC_A1NOC => 7
  | .MSM8996_MASTER_CRYPTO_CORE0 => 7
  | .MSM8996_MASTER_PNOC_A1NOC => 7
  | .MSM8996_MASTER_USB3 => 7
  | .MSM8996_MASTER_IPA => 7
  | .MSM8996_MASTER_UFS => 7
  | .MSM8996_MASTER_AMPSS_M0 => 7
  | .MSM8996_MASTER_GRAPHICS_3D => 7
  | .MSM8996_MASTER_MNOC_BIMC => 7
  | .MSM8996_MASTER_SNOC_BIMC => 1
  | .MSM8996_MASTER_SNOC_CNOC => 3
  | .MSM8996_MASTER_QDSS_DAP => 9
  | .MSM8996_MASTER_CNOC_MNOC_MMSS_CFG => 1
  | .MSM8996_MASTER_CNOC_MNOC_CFG => 1
  | .MSM8996_MASTER_CPP => 9
  | .MSM8996_MASTER_JPEG => 9
  | .MSM8996_MASTER_MDP_PORT0 => 9
  | .MSM8996_MASTER_MDP_PORT1 => 9
  | .MSM8996_MASTER_ROTATOR => 9
  | .MSM8996_MASTER_VIDEO_P0 => 9
  | .MSM8996_MASTER_VFE => 9
  | .MSM8996_MASTER_SNOC_VMEM => 1
  | .MSM8996_MASTER_VIDEO_P0_OCMEM => 1
  | .MSM8996_MASTER_SNOC_PNOC => 1
  | .MSM8996_MASTER_SDCC_1 => 9
  | .MSM8996_MASTER_SDCC_2 => 9
  | .MSM8996_MASTER_SDCC_4 => 9
  | .MSM8996_MASTER_USB_HS => 9
  | .MSM8996_MASTER_BLSP_1 => 9
  | .MSM8996_MASTER_BLSP_2 => 9
  | .MSM8996_MASTER_TSIF => 9
  | .MSM8996_MASTER_HMSS => 3
  | .MSM8996_MASTER_QDSS_BAM => 3
  | .MSM8996_MASTER_SNOC_CFG => 1
  | .MSM8996_MASTER_BIMC_SNOC_0 => 5
  | .MSM8996_MASTER_BIMC_SNOC_1 => 1
  | .MSM8996_MASTER_A0NOC_SNOC => 3
  | .MSM8996_MASTER_A1NOC_SNOC => 5
  | .MSM8996_MASTER_A2NOC_SNOC => 5
  | .MSM8996_MASTER_QDSS_ETR => 3
  | .MSM8996_SLAVE_A0NOC_SNOC => 4
  | .MSM8996_SLAVE_A1NOC_SNOC => 6
  | .MSM8996_SLAVE_A2NOC_SNOC => 6
  | .MSM8996_SLAVE_EBI_CH0 => 0
  | .MSM8996_SLAVE_HMSS_L3 => 0
  | .MSM8996_SLAVE_BIMC_SNOC_0 => 6
  | .MSM8996_SLAVE_BIMC_SNOC_1 => 2
  | .MSM8996_SLAVE_CNOC_A1NOC => 8
  | .MSM8996_SLAVE_CLK_CTL => 0
  | .MSM8996_SLAVE_TCSR => 0
  | .MSM8996_SLAVE_TLMM => 0
  | .MSM8996_SLAVE_CRYPTO_0_CFG => 0
  | .MSM8996_SLAVE_MPM => 0
  | .MSM8996_SLAVE_PIMEM_CFG => 0
  | .MSM8996_SLAVE_IMEM_CFG => 0
  | .MSM8996_SLAVE_MESSAGE_RAM => 0
  | .MSM8996_SLAVE_BIMC_CFG => 0
  | .MSM8996_SLAVE_PMIC_ARB => 0
  | .MSM8996_SLAVE_PRNG => 0
  | .MSM8996_SLAVE_DCC_CFG => 0
  | .MSM8996_SLAVE_RBCPR_MX => 0
  | .MSM8996_SLAVE_QDSS_CFG => 0
  | .MSM8996_SLAVE_RBCPR_CX => 0
  | .MSM8996_SLAVE_QDSS_RBCPR_APU_CFG => 0
  | .MSM8996_SLAVE_CNOC_MNOC_CFG => 2
  | .MSM8996_SLAVE_SNOC_CFG => 0
  | .MSM8996_SLAVE_SNOC_MPU_CFG => 0
  | .MSM8996_SLAVE_EBI1_PHY_CFG => 0
  | .MSM8996_SLAVE_A0NOC_CFG => 0
  | .MSM8996_SLAVE_PCIE_1_CFG => 0
  | .MSM8996_SLAVE_PCIE_2_CFG => 0
  | .MSM8996_SLAVE_PCIE_0_CFG => 0
  | .MSM8996_SLAVE_PCIE20_AHB2PHY => 0
  | .MSM8996_SLAVE_A0NOC_MPU_CFG => 0
  | .MSM8996_SLAVE_UFS_CFG => 0
  | .MSM8996_SLAVE_A1NOC_CFG => 0
  | .MSM8996_SLAVE_A1NOC_MPU_CFG => 0
  | .MSM8996_SLAVE_A2NOC_CFG => 0
  | .MSM8996_SLAVE_A2NOC_MPU_CFG => 0
  | .MSM8996_SLAVE_SSC_CFG => 0
  | .MSM8996_SLAVE_A0NOC_SMMU_CFG => 0
  | .MSM8996_SLAVE_A1NOC_SMMU_CFG => 0
  | .MSM8996_SLAVE_A2NOC_SMMU_CFG => 0
  | .MSM8996_SLAVE_LPASS_SMMU_CFG => 0
  | .MSM8996_SLAVE_CNOC_MNOC_MMSS_CFG => 2
  | .MSM8996_SLAVE_MMAGIC_CFG => 0
  | .MSM8996_SLAVE_CPR_CFG => 0
  | .MSM8996_SLAVE_MISC_CFG => 0
  | .MSM8996_SLAVE_VENUS_THROTTLE_CFG => 0
  | .MSM8996_SLAVE_VENUS_CFG => 0
  | .MSM8996_SLAVE_VMEM_CFG => 0
  | .MSM8996_SLAVE_DSA_CFG => 0
  | .MSM8996_SLAVE_MMSS_CLK_CFG => 0
  | .MSM8996_SLAVE_DSA_MPU_CFG => 0
  | .MSM8996_SLAVE_MNOC_MPU_CFG => 0
  | .MSM8996_SLAVE_DISPLAY_CFG => 0
  | .MSM8996_SLAVE_DISPLAY_THROTTLE_CFG => 0
  | .MSM8996_SLAVE_CAMERA_CFG => 0
  | .MSM8996_SLAVE_CAMERA_THROTTLE_CFG => 0
  | .MSM8996_SLAVE_GRAPHICS_3D_CFG => 0
  | .MSM8996_SLAVE_SMMU_MDP_CFG => 0
  | .MSM8996_SLAVE_SMMU_ROTATOR_CFG => 0
  | .MSM8996_SLAVE_SMMU_VENUS_CFG => 0
  | .MSM8996_SLAVE_SMMU_CPP_CFG => 0
  | .MSM8996_SLAVE_SMMU_JPEG_CFG => 0
  | .MSM8996_SLAVE_SMMU_VFE_CFG => 0
  | .MSM8996_SLAVE_MNOC_BIMC => 8
  | .MSM8996_SLAVE_VMEM => 0
  | .MSM8996_SLAVE_SERVICE_MNOC => 0
  | .MSM8996_SLAVE_PNOC_A1NOC => 8
  | .MSM8996_SLAVE_USB_HS => 0
  | .MSM8996_SLAVE_SDCC_2 => 0
  | .MSM8996_SLAVE_SDCC_4 => 0
  | .MSM8996_SLAVE_TSIF => 0
  | .MSM8996_SLAVE_BLSP_2 => 0
  | .MSM8996_SLAVE_SDCC_1 => 0
  | .MSM8996_SLAVE_BLSP_1 => 0
  | .MSM8996_SLAVE_PDM => 0
  | .MSM8996_SLAVE_AHB2PHY => 0
  | .MSM8996_SLAVE_APPSS => 0
  | .MSM8996_SLAVE_LPASS => 0
  | .MSM8996_SLAVE_USB3 => 0
  | .MSM8996_SLAVE_SNOC_BIMC => 2
  | .MSM8996_SLAVE_SNOC_CNOC => 4
  | .MSM8996_SLAVE_OCIMEM => 0
  | .MSM8996_SLAVE_PIMEM => 0
  | .MSM8996_SLAVE_SNOC_VMEM => 2
  | .MSM8996_SLAVE_SNOC_PNOC => 2
  | .MSM8996_SLAVE_QDSS_STM => 0
  | .MSM8996_SLAVE_PCIE_0 => 0
  | .MSM8996_SLAVE_PCIE_1 => 0
  | .MSM8996_SLAVE_PCIE_2 => 0
  | .MSM8996_SLAVE_SERVICE_SNOC => 0


/-- The value of a link-list entry under a valuation of the identifier
constants -/
def Link.val (val : NodeId → Nat) : Link → Nat
  | .id i => val i
  | .zero => 0

/-- Modelled from the spec: the macro `DEFINE_QNODE`, whose definition is in a
header that is not among the source files.  It builds the node record from
its arguments: identity, bus width, remote identifiers, the QoS descriptor
(ownership flag, mode, the priority for both priority fields, port) and the
link list; the fields it does not name (`limit_commands`, `rate`) are zero. -/
def DEFINE_QNODE (h : Headers) (val : NodeId → Nat) (d : qnode_decl) : qcom_icc_node :=
  { id := val d.id, links := d.links.map (Link.val val), buswidth := d.buswidth,
    mas_rpm_id := d.mas_rpm_id, slv_rpm_id := d.slv_rpm_id,
    qos := { areq_prio := d.qos_prio, prio_level := d.qos_prio, limit_commands := false,
             ap_owned := d.ap_owned,
             qos_mode := match d.qos_mode with
               | .fixed => (h.NOC_QOS_MODE_FIXED : Int)
               | .bypass => (h.NOC_QOS_MODE_BYPASS : Int)
               | .unset => -1,
             qos_port := d.qos_port },
    rate := 0 }

/-- There is a link from the table node `u` to the table node `v`: the
identifier of `v` is the value of an entry of the link list of `u`
(`icc_link_create(node, qnodes[i]->links[j])`, msm8996.c:522-524) -/
def has_link (val : NodeId → Nat) (u v : qnode_decl) : Prop :=
  u ∈ msm8996_qnodes ∧ v ∈ msm8996_qnodes ∧ val v.id ∈ u.links.map (Link.val val)

/-- Having a link is decidable for a given valuation -/
instance has_link_decidable (val : NodeId → Nat) (u v : qnode_decl) :
    Decidable (has_link val u v) := by
  unfold has_link
  infer_instance

/-- Whether every identifier named in a link list of the table has a smaller
height than the identifier of the node that names it -/
def links_descend : Bool :=
  msm8996_qnodes.all fun d => d.links.all fun l =>
    match l with
    | .id i => decide (i.rank < d.id.rank)
    | .zero => true

/-- Whether every node of the table has bus width 4, 8, 16 or 32 -/
def buswidths_ok : Bool :=
  msm8996_qnodes.all fun d => decide (d.buswidth ∈ [4, 8, 16, 32])

/-- A valuation of the identifier constants: the position of the constant in
the table, counted from 1 -/
def position_val (i : NodeId) : Nat := i.toCtorIdx + 1

/-- Modelled from the spec: a successful `regmap_update_bits(map, reg, mask,
val)` (register-map core, not among the source files) on a 32-bit register
holding `old`, as a read-modify-write: new = (old AND NOT mask) OR (val AND
mask). -/
def update_bits (old mask val : Nat) : Nat :=
  (old &&& (mask ^^^ (2 ^ 32 - 1))) ||| (val &&& mask)

/-- The content of the register at address `reg` after the successful call
`c`, when it held `old` before; only a write to `reg` changes it -/
def apply_write (reg : Nat) (old : Nat) : Call → Nat
  | .regmap_update_bits r mask val => if r = reg then update_bits old mask val else old
  | _ => old

/-- The content of the register at address `reg` after a list of successful
calls -/
def apply_writes (reg old : Nat) (calls : List Call) : Nat :=
  calls.foldl (apply_write reg) old

/-! ## Aggregation (C1) -/

/-- Running the loop from accumulators that are `u32` values gives the sum
modulo 2^32 and the maximum -/
theorem aggregate_from_eq (nodes : List icc_node) :
    ∀ a p : Nat, a < 2 ^ 32 → p < 2 ^ 32 → (∀ n ∈ nodes, n.peak_bw < 2 ^ 32) →
      aggregate_from nodes (a, p)
        = ((a + (nodes.map (·.avg_bw)).sum) % 2 ^ 32,
           max p ((nodes.map (·.peak_bw)).foldr max 0)) := by
  induction nodes with
  | nil =>
    intro a p ha _ _
    simp only [aggregate_from, List.map_nil, List.sum_nil, List.foldr_nil, Nat.add_zero,
      Nat.mod_eq_of_lt ha, Nat.max_zero]
  | cons n rest ih =>
    intro a p _ hp hw
    have hn : n.peak_bw < 2 ^ 32 := hw n (List.mem_cons_self _ _)
    have hrest : ∀ m ∈ rest, m.peak_bw < 2 ^ 32 := fun m hm => hw m (List.mem_cons_of_mem _ hm)
    have hmax : max p n.peak_bw < 2 ^ 32 := max_lt hp hn
    simp only [aggregate_from, icc_std_aggregate, List.map_cons, List.sum_cons, List.foldr_cons]
    rw [Nat.mod_eq_of_lt hmax, ih _ _ (Nat.mod_lt _ (by norm_num)) hmax hrest]
    congr 1
    · rw [Nat.add_mod, Nat.mod_mod, ← Nat.add_mod, Nat.add_assoc]
    · exact max_assoc _ _ _

/-- C1 (as stated, refuted): two nodes with average demands 4294967295 and 1
aggregate to the average 0, not to their sum 4294967296 -/
theorem aggregate_sum_counterexample :
    aggregate [plain_node 8 0 4294967295 1, plain_node 8 0 1 1] = (0, 1)
      ∧ ¬ (∀ nodes : List icc_node,
            (∀ n ∈ nodes, n.avg_bw < 2 ^ 32 ∧ n.peak_bw < 2 ^ 32) →
            aggregate nodes
              = ((nodes.map (·.avg_bw)).sum, (nodes.map (·.peak_bw)).foldr max 0)) := by
  refine ⟨by decide, fun H => ?_⟩
  have h1 := H [plain_node 8 0 4294967295 1, plain_node 8 0 1 1] (by decide)
  revert h1
  decide

/-- C1 (amended): for every list of nodes whose peak demands are `u32` values,
the aggregation loop of `qcom_icc_rpm_qos_set`, started from 0/0, yields the
sum of the average demands modulo 2^32 (the sum itself whenever it fits in 32
bits) and the maximum of the peak demands -/
theorem aggregate_correct (nodes : List icc_node)
    (hw : ∀ n ∈ nodes, n.peak_bw < 2 ^ 32) :
    aggregate nodes
        = ((nodes.map (·.avg_bw)).sum % 2 ^ 32, (nodes.map (·.peak_bw)).foldr max 0)
      ∧ ((nodes.map (·.avg_bw)).sum < 2 ^ 32 →
          (aggregate nodes).1 = (nodes.map (·.avg_bw)).sum) := by
  have h := aggregate_from_eq nodes 0 0 (by norm_num) (by norm_num) hw
  simp only [Nat.zero_add, Nat.zero_max] at h
  refine ⟨h, fun hlt => ?_⟩
  show (aggregate_from nodes (0, 0)).1 = _
  rw [h]
  exact Nat.mod_eq_of_lt hlt

/-- The nodes (avg=100, peak=400) and (avg=50, peak=200) aggregate to
(150, 400) -/
theorem aggregate_correct_witness :
    aggregate [plain_node 8 0 100 400, plain_node 8 0 50 200] = (150, 400) := by
  have h := (aggregate_correct [plain_node 8 0 100 400, plain_node 8 0 50 200]
    (by decide)).1
  rw [h]
  decide

/-! ## The clock loop -/

/-- The clock loop issues `clk_set_rate` on an initial segment of the clock
list, each with the given rate; the segment is the whole list when the loop
succeeds and is not empty unless the list is -/
theorem set_bus_clks_shape (env : Env) (rate : Nat) (clks : List Nat) :
    ∀ log : List Call, ∃ k, k ≤ clks.length ∧ (clks = [] ∨ 0 < k) ∧
      (set_bus_clks env log rate clks).2 = (clks.take k).map (Call.clk_set_rate · rate) ∧
      ((set_bus_clks env log rate clks).1 = 0 → k = clks.length) := by
  induction clks with
  | nil => intro log; exact ⟨0, le_refl _, Or.inl rfl, rfl, fun _ => rfl⟩
  | cons c rest ih =>
    intro log
    by_cases hc : env log (.clk_set_rate c rate) = 0
    · obtain ⟨k, hk, _, hcalls, hret⟩ := ih (log ++ [.clk_set_rate c rate])
      refine ⟨k + 1, by simpa using hk, Or.inr (Nat.succ_pos _), ?_, ?_⟩
      · simp [set_bus_clks, hc, hcalls]
      · intro h0
        simp only [set_bus_clks, hc, ne_eq, not_true_eq_false, if_false] at h0
        simp [hret h0]
    · refine ⟨1, by simp, Or.inr Nat.one_pos, ?_, ?_⟩
      · simp [set_bus_clks, hc]
      · intro h0
        simp [set_bus_clks, hc] at h0

/-- When every `clk_set_rate` succeeds, the loop writes every clock once, in
list order, and returns 0 -/
theorem set_bus_clks_ok (env : Env) (rate : Nat) (clks : List Nat) :
    ∀ log : List Call,
      (∀ i c, clks[i]? = some c →
        env (log ++ (clks.take i).map (Call.clk_set_rate · rate)) (.clk_set_rate c rate) = 0) →
      set_bus_clks env log rate clks = (0, clks.map (Call.clk_set_rate · rate)) := by
  induction clks with
  | nil => intro log _; rfl
  | cons c rest ih =>
    intro log hall
    have h0 : env log (.clk_set_rate c rate) = 0 := by simpa using hall 0 c (by simp)
    have hrest := ih (log ++ [.clk_set_rate c rate]) (fun i d hd => by
      simpa using hall (i + 1) d (by simpa using hd))
    simp [set_bus_clks, h0, hrest]

/-- When the write on the clock at position `i` is the first to fail, the loop
returns its error after writing the clocks at positions `0 .. i`, and no
other -/
theorem set_bus_clks_fail (env : Env) (rate : Nat) (clks : List Nat) :
    ∀ (log : List Call) (i c : Nat), clks[i]? = some c →
      (∀ j d, j < i → clks[j]? = some d →
        env (log ++ (clks.take j).map (Call.clk_set_rate · rate)) (.clk_set_rate d rate) = 0) →
      env (log ++ (clks.take i).map (Call.clk_set_rate · rate)) (.clk_set_rate c rate) ≠ 0 →
      set_bus_clks env log rate clks
        = (env (log ++ (clks.take i).map (Call.clk_set_rate · rate)) (.clk_set_rate c rate),
           (clks.take (i + 1)).map (Call.clk_set_rate · rate)) := by
  induction clks with
  | nil => intro log i c hc; simp at hc
  | cons c0 rest ih =>
    intro log i c hc hbefore hfail
    cases i with
    | zero =>
      have hcc : c0 = c := by simpa using hc
      subst hcc
      have hf : env log (.clk_set_rate c0 rate) ≠ 0 := by simpa using hfail
      simp [set_bus_clks, hf]
    | succ i =>
      have h0 : env log (.clk_set_rate c0 rate) = 0 := by
        simpa using hbefore 0 c0 (Nat.succ_pos _) (by simp)
      have hrest := ih (log ++ [.clk_set_rate c0 rate]) i c (by simpa using hc)
        (fun j d hj hd => by
          simpa using hbefore (j + 1) d (Nat.succ_lt_succ hj) (by simpa using hd))
        (by simpa using hfail)
      simp only [set_bus_clks, h0, ne_eq, not_true_eq_false, if_false, hrest]
      simp

/-! ## Which calls each step can issue -/

/-- The remote vote issues remote sends only -/
theorem qcom_icc_rpm_set_sends (h : Headers) (env : Env) (log : List Call)
    (mas slv : Int) (bw : Nat) :
    ∀ c ∈ (qcom_icc_rpm_set h env log mas slv bw).2, c.is_send = true := by
  intro c hc
  dsimp only [qcom_icc_rpm_set] at hc
  split_ifs at hc <;>
    simp only [List.mem_append, List.mem_singleton, List.not_mem_nil, false_or] at hc <;>
    rcases hc with rfl | rfl <;> rfl

/-- A health write is one register write -/
theorem qcom_icc_bimc_set_qos_health_regmap (h : Headers) (env : Env) (log : List Call)
    (qos : qcom_icc_qos) (regnum : Nat) :
    ∀ c ∈ (qcom_icc_bimc_set_qos_health h env log qos regnum).2, c.is_regmap = true := by
  intro c hc
  simp only [qcom_icc_bimc_set_qos_health, List.mem_singleton] at hc
  subst hc
  rfl

/-- The health loop issues register writes only -/
theorem bimc_health_loop_regmap (h : Headers) (env : Env) (qos : qcom_icc_qos)
    (regs : List Nat) :
    ∀ log, ∀ c ∈ (bimc_health_loop h env log qos regs).2, c.is_regmap = true := by
  induction regs with
  | nil => intro log c hc; simp [bimc_health_loop] at hc
  | cons i rest ih =>
    intro log c hc
    unfold bimc_health_loop at hc
    by_cases h1 : (qcom_icc_bimc_set_qos_health h env log qos i).1 = 0
    · simp only [h1, ne_eq, not_true_eq_false, if_false, List.mem_append] at hc
      rcases hc with hc | hc
      · exact qcom_icc_bimc_set_qos_health_regmap h env log qos i c hc
      · exact ih _ c hc
    · simp only [ne_eq, h1, not_false_eq_true, if_true] at hc
      exact qcom_icc_bimc_set_qos_health_regmap h env log qos i c hc

/-- The family-A arbiter issues register writes only -/
theorem qcom_icc_set_bimc_qos_regmap (h : Headers) (env : Env) (log : List Call)
    (qn : qcom_icc_node) (bw : Nat) (b : Bool) :
    ∀ c ∈ (qcom_icc_set_bimc_qos h env log qn bw b).2, c.is_regmap = true := by
  intro c hc
  have hl := bimc_health_loop_regmap h env qn.qos [3, 2, 1, 0] log c
  dsimp only [qcom_icc_set_bimc_qos] at hc
  split_ifs at hc <;>
    (try simp only [List.mem_append, List.mem_singleton] at hc) <;>
    first
      | exact hl hc
      | (rcases hc with hc | rfl; exact hl hc; rfl)
      | (subst hc; rfl)

/-- The priority update issues register writes only -/
theorem qcom_icc_noc_set_qos_priority_regmap (h : Headers) (env : Env) (log : List Call)
    (qos : qcom_icc_qos) :
    ∀ c ∈ (qcom_icc_noc_set_qos_priority h env log qos).2, c.is_regmap = true := by
  intro c hc
  dsimp only [qcom_icc_noc_set_qos_priority] at hc
  split_ifs at hc <;>
    simp only [List.mem_cons, List.mem_singleton, List.not_mem_nil, or_false] at hc <;>
    rcases hc with rfl | rfl <;> rfl

/-- The family-B arbiter issues register writes only -/
theorem qcom_icc_set_noc_qos_regmap (h : Headers) (env : Env) (log : List Call)
    (qn : qcom_icc_node) (bw : Nat) :
    ∀ c ∈ (qcom_icc_set_noc_qos h env log qn bw).2, c.is_regmap = true := by
  intro c hc
  have hp := qcom_icc_noc_set_qos_priority_regmap h env log qn.qos c
  dsimp only [qcom_icc_set_noc_qos] at hc
  split_ifs at hc <;>
    (try simp only [List.mem_append, List.mem_singleton, List.not_mem_nil, false_or] at hc) <;>
    first
      | exact hp hc
      | (rcases hc with hc | rfl; exact hp hc; rfl)
      | (subst hc; rfl)

/-- The QoS arbiter issues register writes only -/
theorem qcom_icc_qos_set_regmap (h : Headers) (env : Env) (log : List Call)
    (qp : qcom_icc_provider) (qn : qcom_icc_node) (bw : Nat) :
    ∀ c ∈ (qcom_icc_qos_set h env log qp qn bw).2, c.is_regmap = true := by
  intro c hc
  unfold qcom_icc_qos_set at hc
  split at hc
  · exact qcom_icc_set_bimc_qos_regmap h env log qn bw _ c hc
  · exact qcom_icc_set_noc_qos_regmap h env log qn bw c hc

/-- The dispatch step issues no clock-rate write -/
theorem dispatch_no_clk (h : Headers) (env : Env) (log : List Call)
    (qp : qcom_icc_provider) (qn : qcom_icc_node) :
    ∀ c ∈ (dispatch h env log qp qn).2, c.is_clk = false := by
  intro c hc
  unfold dispatch at hc
  split at hc
  · have := qcom_icc_rpm_set_sends h env log _ _ _ c hc
    cases c <;> simp_all [Call.is_send, Call.is_clk]
  · split at hc
    · have := qcom_icc_qos_set_regmap h env log qp qn _ c hc
      cases c <;> simp_all [Call.is_regmap, Call.is_clk]
    · simp at hc

/-! ## The three exits of `qcom_icc_rpm_qos_set` -/

/-- A failing dispatch step ends the call with its error; the provider is
unchanged and nothing else is called -/
theorem qos_set_dispatch_failed (h : Headers) (env : Env) (log : List Call)
    (qp : qcom_icc_provider) (src dst : Nat) (n : icc_node)
    (hn : qp.nodes[src]? = some n) (hd : (dispatch h env log qp n.data).1 ≠ 0) :
    qcom_icc_rpm_qos_set h env log qp src dst
      = some ⟨(dispatch h env log qp n.data).1, qp, (dispatch h env log qp n.data).2⟩ := by
  simp [qcom_icc_rpm_qos_set, hn, hd]

/-- After a successful dispatch step, an unchanged rate ends the call with
success and without any further call -/
theorem qos_set_same_rate (h : Headers) (env : Env) (log : List Call)
    (qp : qcom_icc_provider) (src dst : Nat) (n : icc_node)
    (hn : qp.nodes[src]? = some n) (hd : (dispatch h env log qp n.data).1 = 0)
    (hbw : n.data.buswidth ≠ 0) (hr : n.data.rate = required_rate h qp n.data) :
    qcom_icc_rpm_qos_set h env log qp src dst
      = some ⟨0, qp, (dispatch h env log qp n.data).2⟩ := by
  simp [qcom_icc_rpm_qos_set, hn, hd, hbw, ← hr]

/-- After a successful dispatch step, a changed rate runs the clock loop; the
rate is stored only when the loop succeeds -/
theorem qos_set_new_rate (h : Headers) (env : Env) (log : List Call)
    (qp : qcom_icc_provider) (src dst : Nat) (n : icc_node)
    (hn : qp.nodes[src]? = some n) (hd : (dispatch h env log qp n.data).1 = 0)
    (hbw : n.data.buswidth ≠ 0) (hr : n.data.rate ≠ required_rate h qp n.data) :
    qcom_icc_rpm_qos_set h env log qp src dst
      = some (if (set_bus_clks env (log ++ (dispatch h env log qp n.data).2)
                    (required_rate h qp n.data) qp.bus_clks).1 ≠ 0
          then ⟨(set_bus_clks env (log ++ (dispatch h env log qp n.data).2)
                    (required_rate h qp n.data) qp.bus_clks).1, qp,
                (dispatch h env log qp n.data).2 ++
                  (set_bus_clks env (log ++ (dispatch h env log qp n.data).2)
                    (required_rate h qp n.data) qp.bus_clks).2⟩
          else ⟨0, store_rate qp src n (required_rate h qp n.data),
                (dispatch h env log qp n.data).2 ++
                  (set_bus_clks env (log ++ (dispatch h env log qp n.data).2)
                    (required_rate h qp n.data) qp.bus_clks).2⟩) := by
  simp only [qcom_icc_rpm_qos_set, hn, hd, hbw, hr]
  simp only [ne_eq, not_true_eq_false, if_false]
  split <;> rfl

/-! ## Rate derivation (C2) -/

/-- The accumulators stay `u32` values along the aggregation loop -/
theorem aggregate_from_lt (nodes : List icc_node) :
    ∀ a p : Nat, a < 2 ^ 32 → p < 2 ^ 32 →
      (aggregate_from nodes (a, p)).1 < 2 ^ 32 ∧ (aggregate_from nodes (a, p)).2 < 2 ^ 32 := by
  induction nodes with
  | nil => intro a p ha hp; exact ⟨ha, hp⟩
  | cons n rest ih =>
    intro a p _ _
    exact ih _ _ (Nat.mod_lt _ (by norm_num)) (Nat.mod_lt _ (by norm_num))

/-- The aggregated values are `u32` values -/
theorem aggregate_lt (nodes : List icc_node) :
    (aggregate nodes).1 < 2 ^ 32 ∧ (aggregate nodes).2 < 2 ^ 32 :=
  aggregate_from_lt nodes 0 0 (by norm_num) (by norm_num)

/-- C2 (as stated, refuted): with the kernel's unit conversion, a node with
avg=1000, peak=4000 and bus width 16 gets the clocks set to 250000, not to
max(1000, 4000) / 16 = 250 -/
theorem rate_derivation_counterexample :
    qcom_icc_rpm_qos_set kernel_headers env_ok []
        (plain_provider [plain_node 16 0 1000 4000]) 0 0
      = some ⟨0, plain_provider [plain_node 16 250000 1000 4000],
              [.clk_set_rate 0 250000, .clk_set_rate 1 250000]⟩
    ∧ aggregate [plain_node 16 0 1000 4000] = (1000, 4000)
    ∧ max 1000 4000 / 16 = 250 := by
  decide

/-- C2 (amended): for every voted node with non-zero bus width whose dispatch
step succeeds, the rate `R` that `qcom_icc_rpm_qos_set` compares with the
stored rate and passes to every `clk_set_rate` is
floor(max(icc_units_to_bps(total_avg), icc_units_to_bps(total_peak)) / bus width);
with the kernel's conversion (multiplication by 1000) this is
floor(1000 * max(total_avg, total_peak) / bus width) -/
theorem rate_derivation (h : Headers) (env : Env) (log : List Call)
    (qp : qcom_icc_provider) (src dst : Nat) (n : icc_node) (R : Nat)
    (hn : qp.nodes[src]? = some n) (hbw : n.data.buswidth ≠ 0)
    (hd : (dispatch h env log qp n.data).1 = 0)
    (hR : R = max (h.icc_units_to_bps (aggregate qp.nodes).1 % 2 ^ 64)
                  (h.icc_units_to_bps (aggregate qp.nodes).2 % 2 ^ 64) / n.data.buswidth) :
    (∃ r, qcom_icc_rpm_qos_set h env log qp src dst = some r ∧
      (n.data.rate = R → r.ret = 0 ∧ r.calls = (dispatch h env log qp n.data).2) ∧
      (n.data.rate ≠ R → ∃ k, (qp.bus_clks = [] ∨ 0 < k) ∧
          r.calls = (dispatch h env log qp n.data).2
            ++ (qp.bus_clks.take k).map (Call.clk_set_rate · R) ∧
          (r.ret = 0 → r.provider = store_rate qp src n R))) ∧
    (h.icc_units_to_bps = (fun bw => bw * 1000) →
      R = max (aggregate qp.nodes).1 (aggregate qp.nodes).2 * 1000 / n.data.buswidth) := by
  have hRR : R = required_rate h qp n.data := hR
  constructor
  · by_cases hr : n.data.rate = R
    · refine ⟨_, qos_set_same_rate h env log qp src dst n hn hd hbw (hRR ▸ hr), ?_, ?_⟩
      · intro _; exact ⟨rfl, rfl⟩
      · intro hne; exact absurd hr hne
    · refine ⟨_, qos_set_new_rate h env log qp src dst n hn hd hbw (hRR ▸ hr), ?_, ?_⟩
      · intro he; exact absurd he hr
      · intro _
        obtain ⟨k, _, hpos, hcalls, _⟩ := set_bus_clks_shape env (required_rate h qp n.data)
          qp.bus_clks (log ++ (dispatch h env log qp n.data).2)
        refine ⟨k, hpos, ?_, ?_⟩
        · rw [hRR]
          split <;> simp only [hcalls]
        · rw [hRR]
          split
          · intro h0; simp_all
          · intro _; rfl
  · intro hu
    have h1 := (aggregate_lt qp.nodes).1
    have h2 := (aggregate_lt qp.nodes).2
    rw [hR, hu]
    have e1 : (aggregate qp.nodes).1 * 1000 % 2 ^ 64 = (aggregate qp.nodes).1 * 1000 :=
      Nat.mod_eq_of_lt (by omega)
    have e2 : (aggregate qp.nodes).2 * 1000 % 2 ^ 64 = (aggregate qp.nodes).2 * 1000 :=
      Nat.mod_eq_of_lt (by omega)
    simp only [e1, e2]
    congr 1
    omega

/-- With the kernel's conversion, avg=1000, peak=4000 and bus width 16 give
the rate 250000 -/
theorem rate_derivation_witness :
    (250000 : Nat) = max 1000 4000 * 1000 / 16 ∧
    ∃ r, qcom_icc_rpm_qos_set kernel_headers env_ok []
        (plain_provider [plain_node 16 0 1000 4000]) 0 0 = some r ∧
      r.calls = [.clk_set_rate 0 250000, .clk_set_rate 1 250000] := by
  have h := rate_derivation kernel_headers env_ok []
    (plain_provider [plain_node 16 0 1000 4000]) 0 0 (plain_node 16 0 1000 4000) 250000
    (by decide) (by decide) (by decide) (by decide)
  refine ⟨by decide, ?_⟩
  obtain ⟨r, hr, _, _⟩ := h.1
  refine ⟨r, hr, ?_⟩
  have hv : qcom_icc_rpm_qos_set kernel_headers env_ok []
      (plain_provider [plain_node 16 0 1000 4000]) 0 0
      = some ⟨0, plain_provider [plain_node 16 250000 1000 4000],
              [.clk_set_rate 0 250000, .clk_set_rate 1 250000]⟩ := by decide
  rw [hv] at hr
  cases hr
  rfl

/-! ## The state after a call -/

/-- Replacing a node by one with the same demand does not change the
aggregate -/
theorem aggregate_from_set (nodes : List icc_node) :
    ∀ (src : Nat) (n m : icc_node) (agg : Nat × Nat), nodes[src]? = some n →
      m.avg_bw = n.avg_bw → m.peak_bw = n.peak_bw →
      aggregate_from (nodes.set src m) agg = aggregate_from nodes agg := by
  induction nodes with
  | nil => intro src n m agg hn; simp at hn
  | cons x rest ih =>
    intro src n m agg hn ha hp
    cases src with
    | zero =>
      have hx : x = n := by simpa using hn
      subst hx
      simp [aggregate_from, ha, hp]
    | succ src =>
      have hn2 : rest[src]? = some n := by simpa using hn
      simp only [List.set_cons_succ, aggregate_from]
      exact ih src n m _ hn2 ha hp

/-- Storing a rate leaves the aggregate, hence `sum_bw` and `max_peak_bw`,
unchanged -/
theorem aggregate_store_rate (qp : qcom_icc_provider) (src : Nat) (n : icc_node) (R : Nat)
    (hn : qp.nodes[src]? = some n) :
    aggregate (store_rate qp src n R).nodes = aggregate qp.nodes :=
  aggregate_from_set qp.nodes src n _ (0, 0) hn rfl rfl

/-- Storing a rate leaves the required rate of every node unchanged -/
theorem required_rate_store_rate (h : Headers) (qp : qcom_icc_provider) (src : Nat)
    (n : icc_node) (R : Nat) (qn : qcom_icc_node) (hn : qp.nodes[src]? = some n) :
    required_rate h (store_rate qp src n R) qn = required_rate h qp qn := by
  simp only [required_rate, sum_bw, max_peak_bw, aggregate_store_rate qp src n R hn]

/-- The node at the voted position after a store -/
theorem store_rate_get (qp : qcom_icc_provider) (src : Nat) (n : icc_node) (R : Nat)
    (hn : qp.nodes[src]? = some n) :
    (store_rate qp src n R).nodes[src]?
      = some { n with data := { n.data with rate := R } } := by
  have hlt : src < qp.nodes.length := (List.getElem?_eq_some.mp hn).1
  simp [store_rate, hlt]

/-- A call that returns 0 was made on a node of the provider with non-zero bus
width, and afterwards the stored rate of that node is the required rate: the
provider is unchanged when the rate already matched, and differs by the
stored rate otherwise -/
theorem qos_set_success_post (h : Headers) (env : Env) (log : List Call)
    (qp : qcom_icc_provider) (src dst : Nat) (r : Result)
    (hcall : qcom_icc_rpm_qos_set h env log qp src dst = some r) (hret : r.ret = 0) :
    ∃ n, qp.nodes[src]? = some n ∧ n.data.buswidth ≠ 0 ∧
      ((r.provider = qp ∧ n.data.rate = required_rate h qp n.data) ∨
        r.provider = store_rate qp src n (required_rate h qp n.data)) := by
  cases hn : qp.nodes[src]? with
  | none => simp [qcom_icc_rpm_qos_set, hn] at hcall
  | some n =>
    refine ⟨n, rfl, ?_⟩
    by_cases hd : (dispatch h env log qp n.data).1 = 0
    · by_cases hbw : n.data.buswidth = 0
      · simp [qcom_icc_rpm_qos_set, hn, hd, hbw] at hcall
      · refine ⟨hbw, ?_⟩
        by_cases hr : n.data.rate = required_rate h qp n.data
        · rw [qos_set_same_rate h env log qp src dst n hn hd hbw hr] at hcall
          cases hcall
          exact Or.inl ⟨rfl, hr⟩
        · rw [qos_set_new_rate h env log qp src dst n hn hd hbw hr] at hcall
          split at hcall
          · rename_i hc
            cases hcall
            exact absurd hret hc
          · cases hcall
            exact Or.inr rfl
    · rw [qos_set_dispatch_failed h env log qp src dst n hn hd] at hcall
      cases hcall
      exact absurd hret hd

/-- Whenever the stored rate of the voted node already is the required rate,
a call issues no clock-rate write and leaves the provider unchanged -/
theorem qos_set_no_clk_of_rate (h : Headers) (env : Env) (log : List Call)
    (qp : qcom_icc_provider) (src dst : Nat) (n : icc_node)
    (hn : qp.nodes[src]? = some n) (hbw : n.data.buswidth ≠ 0)
    (hr : n.data.rate = required_rate h qp n.data) :
    ∃ r, qcom_icc_rpm_qos_set h env log qp src dst = some r ∧ r.provider = qp ∧
      ∀ c ∈ r.calls, c.is_clk = false := by
  by_cases hd : (dispatch h env log qp n.data).1 = 0
  · exact ⟨_, qos_set_same_rate h env log qp src dst n hn hd hbw hr, rfl,
      dispatch_no_clk h env log qp n.data⟩
  · exact ⟨_, qos_set_dispatch_failed h env log qp src dst n hn hd, rfl,
      dispatch_no_clk h env log qp n.data⟩

/-! ## Change detection (C3) and idempotence (C4) -/

/-- C3: whenever the dispatch step succeeds and the required rate equals the
stored rate of the voted node, `qcom_icc_rpm_qos_set` returns 0, issues no
`clk_set_rate` (its calls are those of the dispatch step) and leaves the
provider, in particular the stored rate, unchanged -/
theorem change_detection_short_circuit (h : Headers) (env : Env) (log : List Call)
    (qp : qcom_icc_provider) (src dst : Nat) (n : icc_node)
    (hn : qp.nodes[src]? = some n) (hbw : n.data.buswidth ≠ 0)
    (hd : (dispatch h env log qp n.data).1 = 0)
    (hr : required_rate h qp n.data = n.data.rate) :
    ∃ r, qcom_icc_rpm_qos_set h env log qp src dst = some r ∧ r.ret = 0 ∧
      r.calls = (dispatch h env log qp n.data).2 ∧
      (∀ c ∈ r.calls, c.is_clk = false) ∧ r.provider = qp :=
  ⟨_, qos_set_same_rate h env log qp src dst n hn hd hbw hr.symm, rfl, rfl,
    dispatch_no_clk h env log qp n.data, rfl⟩

/-- A node whose stored rate 250000 is the required rate: the call returns 0
without any call -/
theorem change_detection_short_circuit_witness :
    qcom_icc_rpm_qos_set kernel_headers env_ok []
        (plain_provider [plain_node 16 250000 1000 4000]) 0 0
      = some ⟨0, plain_provider [plain_node 16 250000 1000 4000], []⟩ := by
  obtain ⟨r, hr, hret, hcalls, _, hp⟩ := change_detection_short_circuit kernel_headers env_ok []
    (plain_provider [plain_node 16 250000 1000 4000]) 0 0 (plain_node 16 250000 1000 4000)
    (by decide) (by decide) (by decide) (by decide)
  rw [hr]
  cases r
  simp only at hret hcalls hp
  subst hret hp
  rw [hcalls]
  decide

/-- C4: if `qcom_icc_rpm_qos_set` on a node succeeds and is invoked again on
the same node of the resulting provider state (no demand changed in between),
in any environment and after any history, the second invocation issues no
clock-rate write -/
theorem identical_vote_idempotent (h : Headers) (env env2 : Env) (log log2 : List Call)
    (qp : qcom_icc_provider) (src dst dst2 : Nat) (r1 : Result)
    (h1 : qcom_icc_rpm_qos_set h env log qp src dst = some r1) (hret : r1.ret = 0) :
    ∃ r2, qcom_icc_rpm_qos_set h env2 log2 r1.provider src dst2 = some r2 ∧
      r2.provider = r1.provider ∧ ∀ c ∈ r2.calls, c.is_clk = false := by
  obtain ⟨n, hn, hbw, hpost⟩ := qos_set_success_post h env log qp src dst r1 h1 hret
  rcases hpost with ⟨hp, hr⟩ | hp
  · rw [hp]
    exact qos_set_no_clk_of_rate h env2 log2 qp src dst2 n hn hbw hr
  · rw [hp]
    exact qos_set_no_clk_of_rate h env2 log2 _ src dst2 _
      (store_rate_get qp src n _ hn) hbw
      (required_rate_store_rate h qp src n _ _ hn).symm

/-- A first vote sets both clocks to 250000; the identical second vote, made
after it, issues no call at all -/
theorem identical_vote_idempotent_witness :
    ∃ r2, qcom_icc_rpm_qos_set kernel_headers env_ok
        [.clk_set_rate 0 250000, .clk_set_rate 1 250000]
        (plain_provider [plain_node 16 250000 1000 4000]) 0 0 = some r2 ∧
      r2.provider = plain_provider [plain_node 16 250000 1000 4000] ∧
      ∀ c ∈ r2.calls, c.is_clk = false :=
  identical_vote_idempotent kernel_headers env_ok env_ok []
    [.clk_set_rate 0 250000, .clk_set_rate 1 250000]
    (plain_provider [plain_node 16 0 1000 4000]) 0 0 0
    ⟨0, plain_provider [plain_node 16 250000 1000 4000],
      [.clk_set_rate 0 250000, .clk_set_rate 1 250000]⟩
    (by decide) rfl

/-! ## End-to-end scenario (C5) -/

/-- C5 (as stated, refuted): after node 1 voted (800, 1600) and node 2 voted
(400, 3200), both successfully, the clocks are at 400000 (not 400), and a
third identical vote on node 1 writes both clocks again, because the rate
stored in node 1 is still the 200000 of its own vote; the same rewrite happens
when the unit conversion is the identity (stored 200 against required 400) -/
theorem end_to_end_counterexample :
    qcom_icc_rpm_qos_set kernel_headers env_ok []
        (set_bw (scenario 0 0 0 0 0 0) 0 800 1600) 0 1
      = some ⟨0, scenario 200000 800 1600 0 0 0,
              [.clk_set_rate 0 200000, .clk_set_rate 1 200000]⟩
    ∧ qcom_icc_rpm_qos_set kernel_headers env_ok
        [.clk_set_rate 0 200000, .clk_set_rate 1 200000]
        (set_bw (scenario 200000 800 1600 0 0 0) 1 400 3200) 1 0
      = some ⟨0, scenario 200000 800 1600 400000 400 3200,
              [.clk_set_rate 0 400000, .clk_set_rate 1 400000]⟩
    ∧ qcom_icc_rpm_qos_set kernel_headers env_ok
        [.clk_set_rate 0 200000, .clk_set_rate 1 200000,
         .clk_set_rate 0 400000, .clk_set_rate 1 400000]
        (set_bw (scenario 200000 800 1600 400000 400 3200) 0 800 1600) 0 1
      = some ⟨0, scenario 400000 800 1600 400000 400 3200,
              [.clk_set_rate 0 400000, .clk_set_rate 1 400000]⟩
    ∧ qcom_icc_rpm_qos_set { kernel_headers with icc_units_to_bps := fun bw => bw } env_ok
        [.clk_set_rate 0 200, .clk_set_rate 1 200, .clk_set_rate 0 400, .clk_set_rate 1 400]
        (set_bw (scenario 200 800 1600 400 400 3200) 0 800 1600) 0 1
      = some ⟨0, scenario 400 800 1600 400 400 3200,
              [.clk_set_rate 0 400, .clk_set_rate 1 400]⟩ := by
  decide

/-- C5 (amended): on a provider with exactly two nodes of bus width 8 and
initially zero rate and demand, after node 1 votes (800, 1600) and node 2 then
votes (400, 3200), each followed by a successful `qcom_icc_rpm_qos_set` on the
voting node, the aggregate is (1200, 3200), the rate stored in node 2 is the
required rate max(icc_units_to_bps(1200), icc_units_to_bps(3200)) / 8, which
is 400000 with the kernel's conversion, and a third identical vote on node 2
issues no clock-rate write -/
theorem end_to_end (h : Headers) (env1 env2 env3 : Env) (log1 log2 log3 : List Call)
    (d1 d2 : qcom_icc_node) (clks : List Nat) (bimc : Bool) (dst1 dst2 dst3 : Nat)
    (r1 r2 : Result)
    (hb1 : d1.buswidth = 8) (hb2 : d2.buswidth = 8) (hr1 : d1.rate = 0) (hr2 : d2.rate = 0)
    (hv1 : qcom_icc_rpm_qos_set h env1 log1
      (set_bw ⟨[⟨0, 0, d1⟩, ⟨0, 0, d2⟩], clks, bimc⟩ 0 800 1600) 0 dst1 = some r1)
    (hs1 : r1.ret = 0)
    (hv2 : qcom_icc_rpm_qos_set h env2 log2 (set_bw r1.provider 1 400 3200) 1 dst2 = some r2)
    (hs2 : r2.ret = 0) :
    aggregate r2.provider.nodes = (1200, 3200) ∧
    (∃ n2, r2.provider.nodes[1]? = some n2 ∧
      n2.data.rate = max (h.icc_units_to_bps 1200 % 2 ^ 64)
        (h.icc_units_to_bps 3200 % 2 ^ 64) / 8 ∧
      (h.icc_units_to_bps = (fun bw => bw * 1000) → n2.data.rate = 400000)) ∧
    ∃ r3, qcom_icc_rpm_qos_set h env3 log3 (set_bw r2.provider 1 400 3200) 1 dst3 = some r3 ∧
      ∀ c ∈ r3.calls, c.is_clk = false := by
  -- the state after the first vote
  obtain ⟨n, hn, _, hpost1⟩ := qos_set_success_post h env1 log1 _ 0 dst1 r1 hv1 hs1
  have hn1 : n = ⟨800, 1600, d1⟩ := by
    simp [set_bw] at hn
    exact hn.symm
  subst hn1
  have hp1 : ∃ e1 : qcom_icc_node, r1.provider = ⟨[⟨800, 1600, e1⟩, ⟨0, 0, d2⟩], clks, bimc⟩ := by
    rcases hpost1 with ⟨hp, _⟩ | hp
    · exact ⟨d1, by rw [hp]; simp [set_bw]⟩
    · generalize required_rate h _ _ = R at hp
      exact ⟨{ d1 with rate := R }, by rw [hp]; simp [set_bw, store_rate]⟩
  obtain ⟨e1, hp1⟩ := hp1
  rw [hp1] at hv2
  -- the state after the second vote
  have hagg : ∀ e2 : qcom_icc_node,
      aggregate [(⟨800, 1600, e1⟩ : icc_node), ⟨400, 3200, e2⟩] = (1200, 3200) := by
    intro e2
    simp [aggregate, aggregate_from, icc_std_aggregate]
  have hreq : ∀ e2 e3 : qcom_icc_node, e3.buswidth = 8 →
      required_rate h ⟨[⟨800, 1600, e1⟩, ⟨400, 3200, e2⟩], clks, bimc⟩ e3
        = max (h.icc_units_to_bps 1200 % 2 ^ 64) (h.icc_units_to_bps 3200 % 2 ^ 64) / 8 := by
    intro e2 e3 hb
    simp only [required_rate, sum_bw, max_peak_bw, hagg, hb]
  obtain ⟨m, hm, _, hpost2⟩ := qos_set_success_post h env2 log2 _ 1 dst2 r2 hv2 hs2
  have hm1 : m = ⟨400, 3200, d2⟩ := by
    simp [set_bw] at hm
    exact hm.symm
  subst hm1
  have hsb : set_bw ⟨[⟨800, 1600, e1⟩, ⟨0, 0, d2⟩], clks, bimc⟩ 1 400 3200
      = ⟨[⟨800, 1600, e1⟩, ⟨400, 3200, d2⟩], clks, bimc⟩ := by
    simp [set_bw]
  rw [hsb] at hpost2
  have hp2 : ∃ e2 : qcom_icc_node,
      r2.provider = ⟨[⟨800, 1600, e1⟩, ⟨400, 3200, e2⟩], clks, bimc⟩ ∧ e2.buswidth = 8 ∧
      e2.rate = max (h.icc_units_to_bps 1200 % 2 ^ 64) (h.icc_units_to_bps 3200 % 2 ^ 64) / 8 := by
    rcases hpost2 with ⟨hp, hr⟩ | hp
    · exact ⟨d2, hp, hb2, by rw [← hreq d2 d2 hb2]; exact hr⟩
    · have hR := hreq d2 d2 hb2
      simp only at hp
      rw [hR] at hp
      generalize max (h.icc_units_to_bps 1200 % 2 ^ 64)
        (h.icc_units_to_bps 3200 % 2 ^ 64) / 8 = R at hp ⊢
      exact ⟨{ d2 with rate := R }, by rw [hp]; simp [store_rate], hb2, rfl⟩
  obtain ⟨e2, hp2, hbe, hre⟩ := hp2
  refine ⟨by rw [hp2]; exact hagg e2, ⟨⟨400, 3200, e2⟩, by rw [hp2]; rfl, hre, ?_⟩, ?_⟩
  · intro hu
    show e2.rate = 400000
    rw [hre, hu]
    norm_num
  · have hsame : set_bw r2.provider 1 400 3200 = r2.provider := by
      rw [hp2]; simp [set_bw]
    rw [hsame, hp2]
    obtain ⟨r3, hr3, _, hno⟩ := qos_set_no_clk_of_rate h env3 log3
      ⟨[⟨800, 1600, e1⟩, ⟨400, 3200, e2⟩], clks, bimc⟩ 1 dst3 ⟨400, 3200, e2⟩ rfl
      (by simp [hbe]) (by rw [hreq e2 e2 hbe]; exact hre)
    exact ⟨r3, hr3, hno⟩

/-- The scenario with the kernel's conversion and every call succeeding: the
third vote on node 2 issues no clock-rate write -/
theorem end_to_end_witness :
    aggregate (scenario 200000 800 1600 400000 400 3200).nodes = (1200, 3200) ∧
    ∃ r3, qcom_icc_rpm_qos_set kernel_headers env_ok
        [.clk_set_rate 0 200000, .clk_set_rate 1 200000,
         .clk_set_rate 0 400000, .clk_set_rate 1 400000]
        (set_bw (scenario 200000 800 1600 400000 400 3200) 1 400 3200) 1 0 = some r3 ∧
      ∀ c ∈ r3.calls, c.is_clk = false := by
  have h := end_to_end kernel_headers env_ok env_ok env_ok []
    [.clk_set_rate 0 200000, .clk_set_rate 1 200000]
    [.clk_set_rate 0 200000, .clk_set_rate 1 200000,
     .clk_set_rate 0 400000, .clk_set_rate 1 400000]
    (plain_node 8 0 0 0).data (plain_node 8 0 0 0).data [0, 1] false 1 0 0
    ⟨0, scenario 200000 800 1600 0 0 0, [.clk_set_rate 0 200000, .clk_set_rate 1 200000]⟩
    ⟨0, scenario 200000 800 1600 400000 400 3200,
      [.clk_set_rate 0 400000, .clk_set_rate 1 400000]⟩
    rfl rfl rfl rfl (by decide) rfl (by decide) rfl
  exact ⟨h.1, h.2.2⟩

/-! ## Clock writes: failure (C6) and success (C7) -/

/-- C6: when the dispatch step succeeded, the required rate `R` differs from
the stored rate and `clk_set_rate` first fails on the clock at position `i`,
`qcom_icc_rpm_qos_set` returns that error; the clock writes issued are exactly
those on the clocks at positions `0 .. i` with rate `R` (the earlier ones
succeeded and nothing is written afterwards, so they keep the new rate and
the later clocks are untouched); the provider state, in particular the stored
rate, is unchanged; and a retried call on that state whose dispatch step
succeeds starts its clock writes again at position 0 with rate `R` -/
theorem clock_failure_no_rollback (h : Headers) (env : Env) (log : List Call)
    (qp : qcom_icc_provider) (src dst : Nat) (n : icc_node) (i c : Nat)
    (hn : qp.nodes[src]? = some n) (hbw : n.data.buswidth ≠ 0)
    (hd : (dispatch h env log qp n.data).1 = 0)
    (hr : required_rate h qp n.data ≠ n.data.rate)
    (hi : qp.bus_clks[i]? = some c)
    (hbefore : ∀ j d, j < i → qp.bus_clks[j]? = some d →
      env (log ++ (dispatch h env log qp n.data).2 ++
            (qp.bus_clks.take j).map (Call.clk_set_rate · (required_rate h qp n.data)))
          (.clk_set_rate d (required_rate h qp n.data)) = 0)
    (hfail : env (log ++ (dispatch h env log qp n.data).2 ++
            (qp.bus_clks.take i).map (Call.clk_set_rate · (required_rate h qp n.data)))
          (.clk_set_rate c (required_rate h qp n.data)) ≠ 0) :
    qcom_icc_rpm_qos_set h env log qp src dst
      = some ⟨env (log ++ (dispatch h env log qp n.data).2 ++
                (qp.bus_clks.take i).map (Call.clk_set_rate · (required_rate h qp n.data)))
              (.clk_set_rate c (required_rate h qp n.data)),
            qp,
            (dispatch h env log qp n.data).2 ++
              (qp.bus_clks.take (i + 1)).map
                (Call.clk_set_rate · (required_rate h qp n.data))⟩ ∧
    ∀ (env2 : Env) (log2 : List Call) (dst2 : Nat),
      (dispatch h env2 log2 qp n.data).1 = 0 →
      ∃ r2 k, qcom_icc_rpm_qos_set h env2 log2 qp src dst2 = some r2 ∧ 0 < k ∧
        r2.calls = (dispatch h env2 log2 qp n.data).2 ++
          (qp.bus_clks.take k).map (Call.clk_set_rate · (required_rate h qp n.data)) := by
  have hne : n.data.rate ≠ required_rate h qp n.data := fun e => hr e.symm
  have hnonempty : qp.bus_clks ≠ [] := by
    intro he
    rw [he] at hi
    simp at hi
  constructor
  · have hloop := set_bus_clks_fail env (required_rate h qp n.data) qp.bus_clks
      (log ++ (dispatch h env log qp n.data).2) i c hi hbefore hfail
    rw [qos_set_new_rate h env log qp src dst n hn hd hbw hne, hloop]
    simp only [ne_eq, hfail, not_false_eq_true, if_true]
  · intro env2 log2 dst2 hd2
    obtain ⟨k, _, hpos, hcalls, _⟩ := set_bus_clks_shape env2 (required_rate h qp n.data)
      qp.bus_clks (log2 ++ (dispatch h env2 log2 qp n.data).2)
    have hk : 0 < k := hpos.resolve_left hnonempty
    refine ⟨_, k, qos_set_new_rate h env2 log2 qp src dst2 n hn hd2 hbw hne, hk, ?_⟩
    split <;> simp only [hcalls]

/-- On the three-clock provider, a failure of the second clock write returns
-22 after the writes on the first and second clock; the stored rate stays 0 -/
theorem clock_failure_no_rollback_witness :
    qcom_icc_rpm_qos_set kernel_headers (env_clk_fail 1) []
        (mm_provider [plain_node 16 0 1000 4000]) 0 0
      = some ⟨-22, mm_provider [plain_node 16 0 1000 4000],
              [.clk_set_rate 0 250000, .clk_set_rate 1 250000]⟩ :=
  (clock_failure_no_rollback kernel_headers (env_clk_fail 1) []
    (mm_provider [plain_node 16 0 1000 4000]) 0 0 (plain_node 16 0 1000 4000) 1 1
    (by decide) (by decide) (by decide) (by decide) (by decide)
    (by
      intro j d hj hd
      have hj0 : j = 0 := by omega
      subst hj0
      have hd0 : d = 0 := by
        have : (mm_provider [plain_node 16 0 1000 4000]).bus_clks[0]? = some 0 := by decide
        rw [this] at hd
        exact (Option.some.inj hd).symm
      subst hd0
      decide)
    (by decide)).1

/-- C7: when the dispatch step succeeded, the required rate `R` differs from
the stored rate and every `clk_set_rate` succeeds, `qcom_icc_rpm_qos_set`
issues, after the calls of the dispatch step, exactly one `clk_set_rate` with
rate `R` per clock source, in the order of the clock list, returns 0, and the
stored rate of the voted node is `R` afterwards -/
theorem clocks_set_in_order (h : Headers) (env : Env) (log : List Call)
    (qp : qcom_icc_provider) (src dst : Nat) (n : icc_node)
    (hn : qp.nodes[src]? = some n) (hbw : n.data.buswidth ≠ 0)
    (hd : (dispatch h env log qp n.data).1 = 0)
    (hr : required_rate h qp n.data ≠ n.data.rate)
    (hclk : ∀ i c, qp.bus_clks[i]? = some c →
      env (log ++ (dispatch h env log qp n.data).2 ++
            (qp.bus_clks.take i).map (Call.clk_set_rate · (required_rate h qp n.data)))
          (.clk_set_rate c (required_rate h qp n.data)) = 0) :
    ∃ r, qcom_icc_rpm_qos_set h env log qp src dst = some r ∧ r.ret = 0 ∧
      r.calls = (dispatch h env log qp n.data).2 ++
        qp.bus_clks.map (Call.clk_set_rate · (required_rate h qp n.data)) ∧
      r.calls.filter Call.is_clk
        = qp.bus_clks.map (Call.clk_set_rate · (required_rate h qp n.data)) ∧
      r.provider = store_rate qp src n (required_rate h qp n.data) ∧
      r.provider.nodes[src]?
        = some { n with data := { n.data with rate := required_rate h qp n.data } } := by
  have hne : n.data.rate ≠ required_rate h qp n.data := fun e => hr e.symm
  have hloop := set_bus_clks_ok env (required_rate h qp n.data) qp.bus_clks
    (log ++ (dispatch h env log qp n.data).2) hclk
  refine ⟨_, qos_set_new_rate h env log qp src dst n hn hd hbw hne, ?_⟩
  rw [hloop]
  simp only [ne_eq, not_true_eq_false, if_false, true_and]
  refine ⟨?_, store_rate_get qp src n _ hn⟩
  rw [List.filter_append]
  have h1 : (dispatch h env log qp n.data).2.filter Call.is_clk = [] := by
    rw [List.filter_eq_nil_iff]
    intro c hc
    simp [dispatch_no_clk h env log qp n.data c hc]
  have h2 : (qp.bus_clks.map (Call.clk_set_rate · (required_rate h qp n.data))).filter
      Call.is_clk = qp.bus_clks.map (Call.clk_set_rate · (required_rate h qp n.data)) := by
    rw [List.filter_eq_self]
    intro c hc
    obtain ⟨k, _, rfl⟩ := List.mem_map.mp hc
    rfl
  rw [h1, h2, List.nil_append]

/-- On the three-clock provider with every call succeeding, the vote writes
the clocks 0, 1, 2 once each, in that order, and stores the rate 250000 -/
theorem clocks_set_in_order_witness :
    ∃ r, qcom_icc_rpm_qos_set kernel_headers env_ok []
        (mm_provider [plain_node 16 0 1000 4000]) 0 0 = some r ∧ r.ret = 0 ∧
      r.calls = [.clk_set_rate 0 250000, .clk_set_rate 1 250000, .clk_set_rate 2 250000] ∧
      r.provider = mm_provider [plain_node 16 250000 1000 4000] := by
  obtain ⟨r, hr, hret, hcalls, _, hp, _⟩ := clocks_set_in_order kernel_headers env_ok []
    (mm_provider [plain_node 16 0 1000 4000]) 0 0 (plain_node 16 0 1000 4000)
    (by decide) (by decide) (by decide) (by decide) (fun _ _ _ => rfl)
  refine ⟨r, hr, hret, ?_, ?_⟩
  · rw [hcalls]; decide
  · rw [hp]; decide

/-! ## The calls of a whole invocation -/

/-- The clock loop issues clock-rate writes only -/
theorem set_bus_clks_clk (env : Env) (log : List Call) (rate : Nat) (clks : List Nat) :
    ∀ c ∈ (set_bus_clks env log rate clks).2, c.is_clk = true := by
  intro c hc
  obtain ⟨k, _, _, hcalls, _⟩ := set_bus_clks_shape env rate clks log
  rw [hcalls] at hc
  obtain ⟨_, _, rfl⟩ := List.mem_map.mp hc
  rfl

/-- A call on a node of the provider with non-zero bus width returns -/
theorem qos_set_returns (h : Headers) (env : Env) (log : List Call)
    (qp : qcom_icc_provider) (src dst : Nat) (n : icc_node)
    (hn : qp.nodes[src]? = some n) (hbw : n.data.buswidth ≠ 0) :
    ∃ r, qcom_icc_rpm_qos_set h env log qp src dst = some r := by
  by_cases hd : (dispatch h env log qp n.data).1 = 0
  · by_cases hr : n.data.rate = required_rate h qp n.data
    · exact ⟨_, qos_set_same_rate h env log qp src dst n hn hd hbw hr⟩
    · exact ⟨_, qos_set_new_rate h env log qp src dst n hn hd hbw hr⟩
  · exact ⟨_, qos_set_dispatch_failed h env log qp src dst n hn hd⟩

/-- The calls of an invocation are the calls of the dispatch step followed by
clock-rate writes; there is no clock-rate write when the dispatch step failed -/
theorem qos_set_calls_shape (h : Headers) (env : Env) (log : List Call)
    (qp : qcom_icc_provider) (src dst : Nat) (n : icc_node) (r : Result)
    (hn : qp.nodes[src]? = some n)
    (hcall : qcom_icc_rpm_qos_set h env log qp src dst = some r) :
    ∃ cl, r.calls = (dispatch h env log qp n.data).2 ++ cl ∧ (∀ c ∈ cl, c.is_clk = true) ∧
      ((dispatch h env log qp n.data).1 ≠ 0 →
        cl = [] ∧ r.ret = (dispatch h env log qp n.data).1 ∧ r.provider = qp) := by
  by_cases hd : (dispatch h env log qp n.data).1 = 0
  · by_cases hbw : n.data.buswidth = 0
    · simp [qcom_icc_rpm_qos_set, hn, hd, hbw] at hcall
    · by_cases hr : n.data.rate = required_rate h qp n.data
      · rw [qos_set_same_rate h env log qp src dst n hn hd hbw hr] at hcall
        cases hcall
        exact ⟨[], by simp, by simp, fun hne => absurd hd hne⟩
      · rw [qos_set_new_rate h env log qp src dst n hn hd hbw hr] at hcall
        refine ⟨(set_bus_clks env (log ++ (dispatch h env log qp n.data).2)
          (required_rate h qp n.data) qp.bus_clks).2, ?_, set_bus_clks_clk _ _ _ _,
          fun hne => absurd hd hne⟩
        split at hcall <;> cases hcall <;> rfl
  · rw [qos_set_dispatch_failed h env log qp src dst n hn hd] at hcall
    cases hcall
    exact ⟨[], by simp, by simp, fun _ => ⟨rfl, rfl, rfl⟩⟩

/-! ## Remote vote (C8, C9, C10) -/

/-- The dispatch step of a node that is not locally owned, when no send fails -/
theorem dispatch_remote_ok (h : Headers) (env : Env) (log : List Call)
    (qp : qcom_icc_provider) (qn : qcom_icc_node)
    (hap : qn.qos.ap_owned = false)
    (hm : qn.mas_rpm_id ≠ -1 → env log (mas_req h qn.mas_rpm_id (sum_bw h qp)) = 0)
    (hs : qn.slv_rpm_id ≠ -1 →
      env (log ++ (if qn.mas_rpm_id ≠ -1 then [mas_req h qn.mas_rpm_id (sum_bw h qp)] else []))
        (slv_req h qn.slv_rpm_id (sum_bw h qp)) = 0) :
    dispatch h env log qp qn = (0, rpm_sends h qn (sum_bw h qp)) := by
  unfold dispatch qcom_icc_rpm_set rpm_sends
  by_cases h1 : qn.mas_rpm_id = -1 <;> by_cases h2 : qn.slv_rpm_id = -1
  · simp [hap, h1, h2]
  · have := hs h2
    simp only [h1, ne_eq, not_true_eq_false, if_false, List.append_nil] at this
    simp [hap, h1, h2, this]
  · have := hm h1
    simp [hap, h1, h2, this]
  · have e1 := hm h1
    have e2 := hs h2
    simp only [ne_eq, h1, not_false_eq_true, if_true] at e2
    simp [hap, h1, h2, e1, e2]

/-- The dispatch step of a node that is not locally owned is the remote vote -/
theorem dispatch_remote (h : Headers) (env : Env) (log : List Call)
    (qp : qcom_icc_provider) (qn : qcom_icc_node) (hap : qn.qos.ap_owned = false) :
    dispatch h env log qp qn
      = qcom_icc_rpm_set h env log qn.mas_rpm_id qn.slv_rpm_id (sum_bw h qp) := by
  simp [dispatch, hap]

/-- C9: for every node that is not locally owned, if a remote send fails then
`qcom_icc_rpm_qos_set` returns exactly the error of that send, the failed
send is the last call (no further send, no clock-rate write) and the provider,
in particular the stored rate, is unchanged.  The three cases: the master
send fails (the slave send is never issued); the master send succeeded and the
slave send fails (nothing undoes the master send); no master identifier and
the slave send fails. -/
theorem remote_send_failure (h : Headers) (env : Env) (log : List Call)
    (qp : qcom_icc_provider) (src dst : Nat) (n : icc_node)
    (hn : qp.nodes[src]? = some n) (hap : n.data.qos.ap_owned = false) :
    (n.data.mas_rpm_id ≠ -1 →
      env log (mas_req h n.data.mas_rpm_id (sum_bw h qp)) ≠ 0 →
      qcom_icc_rpm_qos_set h env log qp src dst
        = some ⟨env log (mas_req h n.data.mas_rpm_id (sum_bw h qp)), qp,
                [mas_req h n.data.mas_rpm_id (sum_bw h qp)]⟩) ∧
    (n.data.mas_rpm_id ≠ -1 →
      env log (mas_req h n.data.mas_rpm_id (sum_bw h qp)) = 0 →
      n.data.slv_rpm_id ≠ -1 →
      env (log ++ [mas_req h n.data.mas_rpm_id (sum_bw h qp)])
        (slv_req h n.data.slv_rpm_id (sum_bw h qp)) ≠ 0 →
      qcom_icc_rpm_qos_set h env log qp src dst
        = some ⟨env (log ++ [mas_req h n.data.mas_rpm_id (sum_bw h qp)])
                  (slv_req h n.data.slv_rpm_id (sum_bw h qp)), qp,
                [mas_req h n.data.mas_rpm_id (sum_bw h qp),
                 slv_req h n.data.slv_rpm_id (sum_bw h qp)]⟩) ∧
    (n.data.mas_rpm_id = -1 →
      n.data.slv_rpm_id ≠ -1 →
      env log (slv_req h n.data.slv_rpm_id (sum_bw h qp)) ≠ 0 →
      qcom_icc_rpm_qos_set h env log qp src dst
        = some ⟨env log (slv_req h n.data.slv_rpm_id (sum_bw h qp)), qp,
                [slv_req h n.data.slv_rpm_id (sum_bw h qp)]⟩) := by
  have hdr := dispatch_remote h env log qp n.data hap
  refine ⟨?_, ?_, ?_⟩
  · intro hm hf
    have hd : dispatch h env log qp n.data
        = (env log (mas_req h n.data.mas_rpm_id (sum_bw h qp)),
           [mas_req h n.data.mas_rpm_id (sum_bw h qp)]) := by
      rw [hdr]; simp [qcom_icc_rpm_set, hm, hf]
    have hne : (dispatch h env log qp n.data).1 ≠ 0 := by rw [hd]; exact hf
    rw [qos_set_dispatch_failed h env log qp src dst n hn hne, hd]
  · intro hm hok hs hf
    have hd : dispatch h env log qp n.data
        = (env (log ++ [mas_req h n.data.mas_rpm_id (sum_bw h qp)])
             (slv_req h n.data.slv_rpm_id (sum_bw h qp)),
           [mas_req h n.data.mas_rpm_id (sum_bw h qp),
            slv_req h n.data.slv_rpm_id (sum_bw h qp)]) := by
      rw [hdr]; simp [qcom_icc_rpm_set, hm, hok, hs]
    have hne : (dispatch h env log qp n.data).1 ≠ 0 := by rw [hd]; exact hf
    rw [qos_set_dispatch_failed h env log qp src dst n hn hne, hd]
  · intro hm hs hf
    have hd : dispatch h env log qp n.data
        = (env log (slv_req h n.data.slv_rpm_id (sum_bw h qp)),
           [slv_req h n.data.slv_rpm_id (sum_bw h qp)]) := by
      rw [hdr]; simp [qcom_icc_rpm_set, hm, hs]
    have hne : (dispatch h env log qp n.data).1 ≠ 0 := by rw [hd]; exact hf
    rw [qos_set_dispatch_failed h env log qp src dst n hn hne, hd]

/-- A node with both identifiers set: when the slave send fails with -5 after
the master send succeeded, the call returns -5 after these two sends, sets no
clock and keeps the stored rate 0 -/
theorem remote_send_failure_witness :
    qcom_icc_rpm_qos_set kernel_headers (env_send_fail 0x766c7362) []
        (plain_provider [remote_node 117 28 16 0 1000 4000]) 0 0
      = some ⟨-5, plain_provider [remote_node 117 28 16 0 1000 4000],
              [.qcom_icc_rpm_smd_send 0 0x73616d62 117 1000000,
               .qcom_icc_rpm_smd_send 0 0x766c7362 28 1000000]⟩ :=
  (remote_send_failure kernel_headers (env_send_fail 0x766c7362) []
    (plain_provider [remote_node 117 28 16 0 1000 4000]) 0 0
    (remote_node 117 28 16 0 1000 4000) (by decide) (by decide)).2.1
    (by decide) (by decide) (by decide) (by decide)

/-- C10: for every node that is not locally owned, whatever its QoS mode, QoS
port and provider family, `qcom_icc_rpm_qos_set` issues no register write
(`regmap_update_bits`), and when no send fails the number of remote sends it
issues is the number of remote identifiers that are set (not -1) among
`mas_rpm_id` and `slv_rpm_id` -/
theorem remote_no_register_write (h : Headers) (env : Env) (log : List Call)
    (qp : qcom_icc_provider) (src dst : Nat) (n : icc_node)
    (hn : qp.nodes[src]? = some n) (hbw : n.data.buswidth ≠ 0)
    (hap : n.data.qos.ap_owned = false) :
    ∃ r, qcom_icc_rpm_qos_set h env log qp src dst = some r ∧
      (∀ c ∈ r.calls, c.is_regmap = false) ∧
      ((n.data.mas_rpm_id ≠ -1 →
          env log (mas_req h n.data.mas_rpm_id (sum_bw h qp)) = 0) →
        (n.data.slv_rpm_id ≠ -1 →
          env (log ++ (if n.data.mas_rpm_id ≠ -1
                then [mas_req h n.data.mas_rpm_id (sum_bw h qp)] else []))
            (slv_req h n.data.slv_rpm_id (sum_bw h qp)) = 0) →
        (r.calls.filter Call.is_send).length
          = (if n.data.mas_rpm_id ≠ -1 then 1 else 0)
            + (if n.data.slv_rpm_id ≠ -1 then 1 else 0)) := by
  obtain ⟨r, hr⟩ := qos_set_returns h env log qp src dst n hn hbw
  obtain ⟨cl, hcalls, hclk, _⟩ := qos_set_calls_shape h env log qp src dst n r hn hr
  have hsend : ∀ c ∈ (dispatch h env log qp n.data).2, c.is_send = true := by
    rw [dispatch_remote h env log qp n.data hap]
    exact qcom_icc_rpm_set_sends h env log _ _ _
  refine ⟨r, hr, ?_, ?_⟩
  · intro c hc
    rw [hcalls, List.mem_append] at hc
    rcases hc with hc | hc
    · have := hsend c hc
      cases c <;> simp_all [Call.is_send, Call.is_regmap]
    · have := hclk c hc
      cases c <;> simp_all [Call.is_clk, Call.is_regmap]
  · intro hm hs
    have hd := dispatch_remote_ok h env log qp n.data hap hm hs
    rw [hcalls, hd, List.filter_append]
    have h2 : cl.filter Call.is_send = [] := by
      rw [List.filter_eq_nil_iff]
      intro c hc
      have := hclk c hc
      cases c <;> simp_all [Call.is_clk, Call.is_send]
    rw [h2, List.append_nil]
    unfold rpm_sends
    by_cases h1 : n.data.mas_rpm_id = -1 <;> by_cases h3 : n.data.slv_rpm_id = -1 <;>
      simp [h1, h3, mas_req, slv_req, Call.is_send]

/-- The peripheral master (master identifier 117, no slave identifier, fixed
QoS mode on port 1) issues one remote send, two clock writes and no register
write -/
theorem remote_no_register_write_witness :
    ∃ r, qcom_icc_rpm_qos_set kernel_headers env_ok []
        (plain_provider [remote_node 117 (-1) 8 0 1000 4000]) 0 0 = some r ∧
      (∀ c ∈ r.calls, c.is_regmap = false) ∧
      (r.calls.filter Call.is_send).length = 1 := by
  obtain ⟨r, hr, hreg, hcount⟩ := remote_no_register_write kernel_headers env_ok []
    (plain_provider [remote_node 117 (-1) 8 0 1000 4000]) 0 0
    (remote_node 117 (-1) 8 0 1000 4000) (by decide) (by decide) (by decide)
  exact ⟨r, hr, hreg, hcount (fun _ => rfl) (fun _ => rfl)⟩

/-! ## The QoS arbiter as a fail-fast sequence of writes -/

/-- A single write returns its own code -/
theorem run_writes_single (env : Env) (log : List Call) (c : Call) :
    run_writes env log [c] = (env log c, [c]) := by
  by_cases hc : env log c = 0 <;> simp [run_writes, hc]

/-- Running two lists in a row: the second is run only when the first did not
fail -/
theorem run_writes_append (env : Env) (l1 l2 : List Call) :
    ∀ log, run_writes env log (l1 ++ l2)
      = if (run_writes env log l1).1 ≠ 0 then run_writes env log l1
        else ((run_writes env (log ++ (run_writes env log l1).2) l2).1,
              (run_writes env log l1).2 ++ (run_writes env (log ++ (run_writes env log l1).2) l2).2) := by
  induction l1 with
  | nil => intro log; simp [run_writes]
  | cons c rest ih =>
    intro log
    by_cases hc : env log c = 0
    · have e1 : run_writes env log (c :: rest)
          = ((run_writes env (log ++ [c]) rest).1, c :: (run_writes env (log ++ [c]) rest).2) := by
        simp [run_writes, hc]
      have e2 : run_writes env log (c :: (rest ++ l2))
          = ((run_writes env (log ++ [c]) (rest ++ l2)).1,
             c :: (run_writes env (log ++ [c]) (rest ++ l2)).2) := by
        simp [run_writes, hc]
      rw [List.cons_append, e2, ih, e1]
      by_cases hr : (run_writes env (log ++ [c]) rest).1 = 0
      · simp [hr, List.append_assoc]
      · simp [hr]
    · simp [run_writes, hc]

/-- When every write succeeds, all of them are issued, in order -/
theorem run_writes_ok (env : Env) (l : List Call) :
    ∀ log, (∀ i c, l[i]? = some c → env (log ++ l.take i) c = 0) →
      run_writes env log l = (0, l) := by
  induction l with
  | nil => intro log _; rfl
  | cons c rest ih =>
    intro log hall
    have h0 : env log c = 0 := by simpa using hall 0 c (by simp)
    have hrest := ih (log ++ [c]) (fun i d hd => by
      simpa using hall (i + 1) d (by simpa using hd))
    simp [run_writes, h0, hrest]

/-- When the write at position `k` is the first to fail, its code is returned
and the writes issued are those at positions `0 .. k` -/
theorem run_writes_fail (env : Env) (l : List Call) :
    ∀ (log : List Call) (k : Nat) (c : Call), l[k]? = some c →
      (∀ j d, j < k → l[j]? = some d → env (log ++ l.take j) d = 0) →
      env (log ++ l.take k) c ≠ 0 →
      run_writes env log l = (env (log ++ l.take k) c, l.take (k + 1)) := by
  induction l with
  | nil => intro log k c hc; simp at hc
  | cons c0 rest ih =>
    intro log k c hc hbefore hfail
    cases k with
    | zero =>
      have hcc : c0 = c := by simpa using hc
      subst hcc
      have hf : env log c0 ≠ 0 := by simpa using hfail
      simp [run_writes, hf]
    | succ k =>
      have h0 : env log c0 = 0 := by simpa using hbefore 0 c0 (Nat.succ_pos _) (by simp)
      have hrest := ih (log ++ [c0]) k c (by simpa using hc)
        (fun j d hj hd => by
          simpa using hbefore (j + 1) d (Nat.succ_lt_succ hj) (by simpa using hd))
        (by simpa using hfail)
      simp only [run_writes, h0, ne_eq, not_true_eq_false, if_false, hrest]
      simp

/-- The health update is the single write `health_write` -/
theorem qcom_icc_bimc_set_qos_health_eq (h : Headers) (env : Env) (log : List Call)
    (qos : qcom_icc_qos) (regnum : Nat) :
    qcom_icc_bimc_set_qos_health h env log qos regnum
      = (env log (health_write h qos regnum), [health_write h qos regnum]) := rfl

/-- The health write targets the health register `regnum` of the port -/
theorem health_write_addr (h : Headers) (qos : qcom_icc_qos) (regnum : Nat) :
    ∃ mask val, health_write h qos regnum
      = .regmap_update_bits (h.M_BKE_HEALTH_CFG_ADDR regnum qos.qos_port) mask val :=
  ⟨_, _, rfl⟩

/-- The health loop is the fail-fast sequence of the health writes -/
theorem bimc_health_loop_eq (h : Headers) (env : Env) (qos : qcom_icc_qos) (regs : List Nat) :
    ∀ log, bimc_health_loop h env log qos regs
      = run_writes env log (regs.map (health_write h qos)) := by
  induction regs with
  | nil => intro log; rfl
  | cons i rest ih =>
    intro log
    simp only [bimc_health_loop, qcom_icc_bimc_set_qos_health_eq, List.map_cons, run_writes,
      ih]
    split <;> simp

/-- The priority update is the fail-fast sequence P1 write, P0 write -/
theorem qcom_icc_noc_set_qos_priority_eq (h : Headers) (env : Env) (log : List Call)
    (qos : qcom_icc_qos) :
    qcom_icc_noc_set_qos_priority h env log qos
      = run_writes env log [noc_p1_write h qos, noc_p0_write h qos] := by
  unfold qcom_icc_noc_set_qos_priority
  rw [run_writes, run_writes_single]
  rfl

/-- The family-A arbiter in terms of its writes -/
theorem qcom_icc_set_bimc_qos_eq (h : Headers) (env : Env) (log : List Call)
    (qn : qcom_icc_node) (bw : Nat) (b : Bool) :
    qcom_icc_set_bimc_qos h env log qn bw b
      = run_writes env log
          (if effective_mode h qn.qos ≠ h.NOC_QOS_MODE_BYPASS then
            [health_write h qn.qos 3, health_write h qn.qos 2, health_write h qn.qos 1,
             health_write h qn.qos 0, bke_en_write h qn.qos 1]
          else [bke_en_write h qn.qos 0]) := by
  have hdef : qcom_icc_set_bimc_qos h env log qn bw b
      = if effective_mode h qn.qos ≠ h.NOC_QOS_MODE_BYPASS then
          (if (bimc_health_loop h env log qn.qos [3, 2, 1, 0]).1 ≠ 0
            then bimc_health_loop h env log qn.qos [3, 2, 1, 0]
            else (env (log ++ (bimc_health_loop h env log qn.qos [3, 2, 1, 0]).2)
                    (bke_en_write h qn.qos 1),
                  (bimc_health_loop h env log qn.qos [3, 2, 1, 0]).2 ++ [bke_en_write h qn.qos 1]))
        else (env log (bke_en_write h qn.qos 0), [bke_en_write h qn.qos 0]) := rfl
  rw [hdef]
  by_cases hm : effective_mode h qn.qos = h.NOC_QOS_MODE_BYPASS
  · simp only [hm, ne_eq, not_true_eq_false, if_false, run_writes_single]
  · simp only [hm, ne_eq, not_false_eq_true, if_true, bimc_health_loop_eq]
    have e : [health_write h qn.qos 3, health_write h qn.qos 2, health_write h qn.qos 1,
        health_write h qn.qos 0, bke_en_write h qn.qos 1]
        = List.map (health_write h qn.qos) [3, 2, 1, 0] ++ [bke_en_write h qn.qos 1] := rfl
    rw [e, run_writes_append, run_writes_single]

/-- The family-B arbiter in terms of its writes -/
theorem qcom_icc_set_noc_qos_eq (h : Headers) (env : Env) (log : List Call)
    (qn : qcom_icc_node) (bw : Nat) :
    qcom_icc_set_noc_qos h env log qn bw
      = run_writes env log
          (if qn.qos.qos_port < 0 then []
          else
            (if effective_mode h qn.qos = h.NOC_QOS_MODE_FIXED
              then [noc_p1_write h qn.qos, noc_p0_write h qn.qos] else []) ++
              [noc_mode_write h qn.qos (effective_mode h qn.qos)]) := by
  have hdef : qcom_icc_set_noc_qos h env log qn bw
      = if qn.qos.qos_port < 0 then (0, [])
        else
          (if (if effective_mode h qn.qos = h.NOC_QOS_MODE_FIXED
                then qcom_icc_noc_set_qos_priority h env log qn.qos else ((0 : Int), [])).1 ≠ 0
            then (if effective_mode h qn.qos = h.NOC_QOS_MODE_FIXED
                then qcom_icc_noc_set_qos_priority h env log qn.qos else ((0 : Int), []))
            else (env (log ++ (if effective_mode h qn.qos = h.NOC_QOS_MODE_FIXED
                    then qcom_icc_noc_set_qos_priority h env log qn.qos else ((0 : Int), [])).2)
                    (noc_mode_write h qn.qos (effective_mode h qn.qos)),
                  (if effective_mode h qn.qos = h.NOC_QOS_MODE_FIXED
                    then qcom_icc_noc_set_qos_priority h env log qn.qos else ((0 : Int), [])).2
                    ++ [noc_mode_write h qn.qos (effective_mode h qn.qos)])) := rfl
  rw [hdef]
  by_cases hp : qn.qos.qos_port < 0
  · simp only [hp, if_true, run_writes]
  · simp only [hp, if_false]
    by_cases hm : effective_mode h qn.qos = h.NOC_QOS_MODE_FIXED
    · simp only [hm, if_true, qcom_icc_noc_set_qos_priority_eq]
      rw [run_writes_append, run_writes_single]
    · simp only [hm, if_false, List.nil_append, run_writes_single, ne_eq, not_true_eq_false,
        List.append_nil]

/-- The arbiter of either family is the fail-fast sequence of `qos_writes` -/
theorem qcom_icc_qos_set_eq (h : Headers) (env : Env) (log : List Call)
    (qp : qcom_icc_provider) (qn : qcom_icc_node) (bw : Nat) :
    qcom_icc_qos_set h env log qp qn bw = run_writes env log (qos_writes h qp qn) := by
  unfold qcom_icc_qos_set qos_writes
  cases hb : qp.is_bimc_node
  · simp only [Bool.false_eq_true, if_false]
    exact qcom_icc_set_noc_qos_eq h env log qn bw
  · simp only [if_true]
    exact qcom_icc_set_bimc_qos_eq h env log qn bw _

/-! ## Remote nodes and the clocks (C11) -/

/-- The dispatch step contributes no clock-rate write to the filtered calls -/
theorem filter_clk_dispatch (h : Headers) (env : Env) (log : List Call)
    (qp : qcom_icc_provider) (qn : qcom_icc_node) :
    (dispatch h env log qp qn).2.filter Call.is_clk = [] := by
  rw [List.filter_eq_nil_iff]
  intro c hc
  simp [dispatch_no_clk h env log qp qn c hc]

/-- A list of clock-rate writes is kept whole by the clock filter -/
theorem filter_clk_map (clks : List Nat) (R : Nat) :
    (clks.map (Call.clk_set_rate · R)).filter Call.is_clk
      = clks.map (Call.clk_set_rate · R) := by
  rw [List.filter_eq_self]
  intro c hc
  obtain ⟨k, _, rfl⟩ := List.mem_map.mp hc
  rfl

/-- C11 (as stated, refuted): the peripheral master, which is not locally
owned, votes avg=1000, peak=4000; after its remote send the call sets both
clocks of its own provider to 500000 -/
theorem remote_rate_write_counterexample :
    (remote_node 117 (-1) 8 0 1000 4000).data.qos.ap_owned = false ∧
    qcom_icc_rpm_qos_set kernel_headers env_ok []
        (plain_provider [remote_node 117 (-1) 8 0 1000 4000]) 0 0
      = some ⟨0, plain_provider [remote_node 117 (-1) 8 500000 1000 4000],
              [.qcom_icc_rpm_smd_send 0 0x73616d62 117 1000000,
               .clk_set_rate 0 500000, .clk_set_rate 1 500000]⟩ := by
  decide

/-- C11 (amended): for every node that is not locally owned (non-zero bus
width), `qcom_icc_rpm_qos_set` issues no `clk_set_rate` when a remote send
fails or when the required rate equals the stored rate; when the sends succeed
and the required rate `R` differs from the stored rate, its clock-rate writes
are `clk_set_rate(c, R)` on an initial segment of the provider's clock sources,
starting with the first one, exactly as for a locally owned node -/
theorem remote_rate_write (h : Headers) (env : Env) (log : List Call)
    (qp : qcom_icc_provider) (src dst : Nat) (n : icc_node)
    (hn : qp.nodes[src]? = some n) (hbw : n.data.buswidth ≠ 0)
    (hap : n.data.qos.ap_owned = false) :
    ∃ r, qcom_icc_rpm_qos_set h env log qp src dst = some r ∧
      ((qcom_icc_rpm_set h env log n.data.mas_rpm_id n.data.slv_rpm_id (sum_bw h qp)).1 ≠ 0 →
        ∀ c ∈ r.calls, c.is_clk = false) ∧
      (n.data.rate = required_rate h qp n.data → ∀ c ∈ r.calls, c.is_clk = false) ∧
      ((qcom_icc_rpm_set h env log n.data.mas_rpm_id n.data.slv_rpm_id (sum_bw h qp)).1 = 0 →
        n.data.rate ≠ required_rate h qp n.data →
        ∃ k, (qp.bus_clks = [] ∨ 0 < k) ∧
          r.calls.filter Call.is_clk
            = (qp.bus_clks.take k).map (Call.clk_set_rate · (required_rate h qp n.data))) := by
  have hdr : dispatch h env log qp n.data
      = qcom_icc_rpm_set h env log n.data.mas_rpm_id n.data.slv_rpm_id (sum_bw h qp) := by
    simp [dispatch, hap]
  rw [← hdr]
  by_cases hd : (dispatch h env log qp n.data).1 = 0
  · by_cases hr : n.data.rate = required_rate h qp n.data
    · refine ⟨_, qos_set_same_rate h env log qp src dst n hn hd hbw hr, ?_, ?_, ?_⟩
      · intro hne; exact absurd hd hne
      · intro _; exact dispatch_no_clk h env log qp n.data
      · intro _ hne; exact absurd hr hne
    · obtain ⟨k, _, hpos, hcalls, _⟩ := set_bus_clks_shape env (required_rate h qp n.data)
        qp.bus_clks (log ++ (dispatch h env log qp n.data).2)
      refine ⟨_, qos_set_new_rate h env log qp src dst n hn hd hbw hr, ?_, ?_, ?_⟩
      · intro hne; exact absurd hd hne
      · intro he; exact absurd he hr
      · intro _ _
        refine ⟨k, hpos, ?_⟩
        split <;>
          simp only [List.filter_append, filter_clk_dispatch, hcalls, filter_clk_map,
            List.nil_append]
  · refine ⟨_, qos_set_dispatch_failed h env log qp src dst n hn hd, ?_, ?_, ?_⟩
    · intro _; exact dispatch_no_clk h env log qp n.data
    · intro _; exact dispatch_no_clk h env log qp n.data
    · intro h0; exact absurd h0 hd

/-- The peripheral master with a pending rate change writes both clocks after
its send -/
theorem remote_rate_write_witness :
    ∃ r, qcom_icc_rpm_qos_set kernel_headers env_ok []
        (plain_provider [remote_node 117 (-1) 8 0 1000 4000]) 0 0 = some r ∧
      ∃ k, 0 < k ∧ r.calls.filter Call.is_clk
        = ([0, 1].take k).map (Call.clk_set_rate · 500000) := by
  obtain ⟨r, hr, _, _, hclk⟩ := remote_rate_write kernel_headers env_ok []
    (plain_provider [remote_node 117 (-1) 8 0 1000 4000]) 0 0
    (remote_node 117 (-1) 8 0 1000 4000) (by decide) (by decide) (by decide)
  obtain ⟨k, hk, hcalls⟩ := hclk (by decide) (by decide)
  refine ⟨r, hr, k, ?_, hcalls⟩
  rcases hk with hk | hk
  · exact absurd hk (by decide)
  · exact hk

/-! ## Family A: write order (C12) and bypass (C13) -/

/-- C12: for every node whose mode is not bypass (fixed, or any other mode
different from bypass), when all writes succeed, `qcom_icc_set_bimc_qos`
issues exactly five register writes in this order: the health writes for the
register numbers 3, 2, 1, 0 of the node's port, then the write of the port's
enable register with the value 1; it returns 0.  On a family-A provider this
is what `qcom_icc_qos_set` does. -/
theorem bimc_fixed_write_order (h : Headers) (env : Env) (log : List Call)
    (qn : qcom_icc_node) (bw : Nat) (b : Bool)
    (hmode : effective_mode h qn.qos ≠ h.NOC_QOS_MODE_BYPASS)
    (hok : ∀ i c,
      [health_write h qn.qos 3, health_write h qn.qos 2, health_write h qn.qos 1,
        health_write h qn.qos 0, bke_en_write h qn.qos 1][i]? = some c →
      env (log ++ [health_write h qn.qos 3, health_write h qn.qos 2, health_write h qn.qos 1,
        health_write h qn.qos 0, bke_en_write h qn.qos 1].take i) c = 0) :
    qcom_icc_set_bimc_qos h env log qn bw b
      = (0, [health_write h qn.qos 3, health_write h qn.qos 2, health_write h qn.qos 1,
             health_write h qn.qos 0,
             .regmap_update_bits (h.M_BKE_EN_ADDR qn.qos.qos_port) h.M_BKE_EN_EN_BMASK 1]) ∧
    (∀ regnum, ∃ mask val, health_write h qn.qos regnum
      = .regmap_update_bits (h.M_BKE_HEALTH_CFG_ADDR regnum qn.qos.qos_port) mask val) ∧
    (∀ qp : qcom_icc_provider, qp.is_bimc_node = true →
      qcom_icc_qos_set h env log qp qn bw = qcom_icc_set_bimc_qos h env log qn bw b) := by
  refine ⟨?_, fun regnum => health_write_addr h qn.qos regnum, ?_⟩
  · rw [qcom_icc_set_bimc_qos_eq]
    simp only [hmode, ne_eq, not_false_eq_true, if_true]
    exact run_writes_ok env _ log hok
  · intro qp hb
    simp only [qcom_icc_qos_set, hb, if_true]
    rfl

/-- The application processor master (fixed mode, port 0) on the family-A
provider: five writes, health registers 3, 2, 1, 0 (0x34c, 0x348, 0x344,
0x340), then the enable register 0x300 with 1 -/
theorem bimc_fixed_write_order_witness :
    qcom_icc_set_bimc_qos kernel_headers env_ok [] (qos_node 0 0 0 false).data 0 false
      = (0, [.regmap_update_bits 0x34c 0x303 0, .regmap_update_bits 0x348 0x80000303 0,
             .regmap_update_bits 0x344 0x80000303 0, .regmap_update_bits 0x340 0x80000303 0,
             .regmap_update_bits 0x300 1 1]) := by
  have h := (bimc_fixed_write_order kernel_headers env_ok [] (qos_node 0 0 0 false).data 0 false
    (by decide) (fun _ _ _ => rfl)).1
  rw [h]
  decide

/-- The conversion of a `u32` constant held in an `int` field back to `u32` -/
theorem toNat_emod_cast (m : Nat) (hm : m < 2 ^ 32) : ((m : Int) % 2 ^ 32).toNat = m := by
  omega

/-- A node whose `qos_mode` is a `u32` mode constant has that mode as its
effective mode -/
theorem effective_mode_of_eq (h : Headers) (qos : qcom_icc_qos) (m : Nat)
    (hm : m < 2 ^ 32) (hq : qos.qos_mode = (m : Int)) : effective_mode h qos = m := by
  have hne : qos.qos_mode ≠ -1 := by omega
  simp only [effective_mode, hne, ne_eq, not_false_eq_true, if_true, hq]
  exact toNat_emod_cast m hm

/-- C13: for every node with `qos_mode` = bypass, `qcom_icc_set_bimc_qos`
issues exactly one register write, to the port's enable register with the
enable value 0 (so no health write), and returns the result of that write.
On a family-A provider this is what `qcom_icc_qos_set` does. -/
theorem bimc_bypass_single_write (h : Headers) (env : Env) (log : List Call)
    (qn : qcom_icc_node) (bw : Nat) (b : Bool)
    (hlt : h.NOC_QOS_MODE_BYPASS < 2 ^ 32)
    (hmode : qn.qos.qos_mode = (h.NOC_QOS_MODE_BYPASS : Int)) :
    qcom_icc_set_bimc_qos h env log qn bw b
      = (env log (.regmap_update_bits (h.M_BKE_EN_ADDR qn.qos.qos_port) h.M_BKE_EN_EN_BMASK 0),
         [.regmap_update_bits (h.M_BKE_EN_ADDR qn.qos.qos_port) h.M_BKE_EN_EN_BMASK 0]) ∧
    (∀ qp : qcom_icc_provider, qp.is_bimc_node = true →
      qcom_icc_qos_set h env log qp qn bw = qcom_icc_set_bimc_qos h env log qn bw b) := by
  constructor
  · rw [qcom_icc_set_bimc_qos_eq, effective_mode_of_eq h qn.qos _ hlt hmode]
    simp only [ne_eq, not_true_eq_false, if_false, run_writes_single, bke_en_write]
  · intro qp hb
    simp only [qcom_icc_qos_set, hb, if_true]
    rfl

/-- The graphics master (bypass mode, port 1) on the family-A provider: one
write, the enable register 0x4300 with 0; a failure of that write is returned -/
theorem bimc_bypass_single_write_witness :
    qcom_icc_set_bimc_qos kernel_headers (env_reg_fail 0x4300) [] (qos_node 2 1 0 false).data 0 true
      = (-5, [.regmap_update_bits 0x4300 1 0]) := by
  have h := (bimc_bypass_single_write kernel_headers (env_reg_fail 0x4300) []
    (qos_node 2 1 0 false).data 0 true (by decide) (by decide)).1
  rw [h]
  decide

/-! ## Unset QoS port (C14, C15) -/

/-- C15: for every node whose `qos_port` is negative, whatever its mode,
`qcom_icc_set_noc_qos` issues no register write and returns 0; on a family-B
provider this is what `qcom_icc_qos_set` does -/
theorem noc_unset_port_noop (h : Headers) (env : Env) (log : List Call)
    (qn : qcom_icc_node) (bw : Nat) (hp : qn.qos.qos_port < 0) :
    qcom_icc_set_noc_qos h env log qn bw = (0, []) ∧
    (∀ qp : qcom_icc_provider, qp.is_bimc_node = false →
      qcom_icc_qos_set h env log qp qn bw = (0, [])) := by
  have h1 : qcom_icc_set_noc_qos h env log qn bw = (0, []) := by
    simp [qcom_icc_set_noc_qos, hp]
  refine ⟨h1, ?_⟩
  intro qp hb
  simp only [qcom_icc_qos_set, hb, Bool.false_eq_true, if_false, h1]

/-- The IPA master (fixed mode, port -1) on a family-B provider: no write,
even in an environment where every register write would fail -/
theorem noc_unset_port_noop_witness :
    qcom_icc_set_noc_qos kernel_headers (fun _ _ => -5) [] (qos_node 0 (-1) 0 false).data 0
      = (0, []) :=
  (noc_unset_port_noop kernel_headers (fun _ _ => -5) [] (qos_node 0 (-1) 0 false).data 0
    (by decide)).1

/-! ## Family B: fixed mode (C16) and bypass mode (C17) -/

/-- C16: for every node with a defined port and `qos_mode` = fixed, when all
writes succeed, `qcom_icc_set_noc_qos` issues exactly three register writes in
this order: the port's priority register with the request priority shifted to
P1, the same register (same mask) with the priority level shifted to P0, then
the port's mode register with the value fixed; it returns 0 -/
theorem noc_fixed_write_order (h : Headers) (env : Env) (log : List Call)
    (qn : qcom_icc_node) (bw : Nat)
    (hp : ¬ qn.qos.qos_port < 0)
    (hlt : h.NOC_QOS_MODE_FIXED < 2 ^ 32)
    (hmode : qn.qos.qos_mode = (h.NOC_QOS_MODE_FIXED : Int))
    (h1 : env log (noc_p1_write h qn.qos) = 0)
    (h2 : env (log ++ [noc_p1_write h qn.qos]) (noc_p0_write h qn.qos) = 0)
    (h3 : env (log ++ [noc_p1_write h qn.qos, noc_p0_write h qn.qos])
      (noc_mode_write h qn.qos h.NOC_QOS_MODE_FIXED) = 0) :
    qcom_icc_set_noc_qos h env log qn bw
      = (0, [.regmap_update_bits (h.NOC_QOS_PRIORITYn_ADDR qn.qos.qos_port)
               h.NOC_QOS_PRIORITY_MASK
               ((qn.qos.areq_prio <<< h.NOC_QOS_PRIORITY_P1_SHIFT) % 2 ^ 32),
             .regmap_update_bits (h.NOC_QOS_PRIORITYn_ADDR qn.qos.qos_port)
               h.NOC_QOS_PRIORITY_MASK
               ((qn.qos.prio_level <<< h.NOC_QOS_PRIORITY_P0_SHIFT) % 2 ^ 32),
             .regmap_update_bits (h.NOC_QOS_MODEn_ADDR qn.qos.qos_port)
               h.NOC_QOS_MODEn_MASK h.NOC_QOS_MODE_FIXED]) ∧
    (∀ qp : qcom_icc_provider, qp.is_bimc_node = false →
      qcom_icc_qos_set h env log qp qn bw = qcom_icc_set_noc_qos h env log qn bw) := by
  constructor
  · rw [qcom_icc_set_noc_qos_eq, effective_mode_of_eq h qn.qos _ hlt hmode]
    simp only [hp, if_false, if_true]
    have hall : ∀ i c,
        ([noc_p1_write h qn.qos, noc_p0_write h qn.qos] ++
          [noc_mode_write h qn.qos h.NOC_QOS_MODE_FIXED])[i]? = some c →
        env (log ++ ([noc_p1_write h qn.qos, noc_p0_write h qn.qos] ++
          [noc_mode_write h qn.qos h.NOC_QOS_MODE_FIXED]).take i) c = 0 := by
      intro i c hc
      match i, hc with
      | 0, hc =>
        have e : noc_p1_write h qn.qos = c := by simpa using hc
        subst e; simpa using h1
      | 1, hc =>
        have e : noc_p0_write h qn.qos = c := by simpa using hc
        subst e; simpa using h2
      | 2, hc =>
        have e : noc_mode_write h qn.qos h.NOC_QOS_MODE_FIXED = c := by simpa using hc
        subst e; simpa using h3
      | i + 3, hc => simp at hc
    rw [run_writes_ok env _ log hall]
    rfl
  · intro qp hb
    simp only [qcom_icc_qos_set, hb, Bool.false_eq_true, if_false]

/-- The crypto master (fixed mode, priority 1, port 0) on a family-B provider:
priority register 0x8 with 1 << 2, then with 1 << 3, then mode register 0xc
with the fixed mode 0 -/
theorem noc_fixed_write_order_witness :
    qcom_icc_set_noc_qos kernel_headers env_ok [] (qos_node 0 0 1 false).data 0
      = (0, [.regmap_update_bits 0x8 0xf 4, .regmap_update_bits 0x8 0xf 8,
             .regmap_update_bits 0xc 0x3 0]) := by
  have h := (noc_fixed_write_order kernel_headers env_ok [] (qos_node 0 0 1 false).data 0
    (by decide) (by decide) (by decide) rfl rfl rfl).1
  rw [h]
  decide

/-- C17: for every node with a defined port and `qos_mode` = bypass (a mode
different from fixed), `qcom_icc_set_noc_qos` issues exactly one register
write, to the port's mode register with the value bypass (so no priority
write), and returns the result of that write -/
theorem noc_bypass_single_write (h : Headers) (env : Env) (log : List Call)
    (qn : qcom_icc_node) (bw : Nat)
    (hp : ¬ qn.qos.qos_port < 0)
    (hlt : h.NOC_QOS_MODE_BYPASS < 2 ^ 32)
    (hne : h.NOC_QOS_MODE_BYPASS ≠ h.NOC_QOS_MODE_FIXED)
    (hmode : qn.qos.qos_mode = (h.NOC_QOS_MODE_BYPASS : Int)) :
    qcom_icc_set_noc_qos h env log qn bw
      = (env log (.regmap_update_bits (h.NOC_QOS_MODEn_ADDR qn.qos.qos_port)
            h.NOC_QOS_MODEn_MASK h.NOC_QOS_MODE_BYPASS),
         [.regmap_update_bits (h.NOC_QOS_MODEn_ADDR qn.qos.qos_port)
            h.NOC_QOS_MODEn_MASK h.NOC_QOS_MODE_BYPASS]) ∧
    (∀ qp : qcom_icc_provider, qp.is_bimc_node = false →
      qcom_icc_qos_set h env log qp qn bw = qcom_icc_set_noc_qos h env log qn bw) := by
  constructor
  · rw [qcom_icc_set_noc_qos_eq, effective_mode_of_eq h qn.qos _ hlt hmode]
    simp only [hp, hne, if_false, List.nil_append, run_writes_single, noc_mode_write]
  · intro qp hb
    simp only [qcom_icc_qos_set, hb, Bool.false_eq_true, if_false]

/-- The camera post-processing master (bypass mode, port 5) on a family-B
provider: one write, mode register 0x500c with the bypass mode 2; a failure of
that write is returned -/
theorem noc_bypass_single_write_witness :
    qcom_icc_set_noc_qos kernel_headers (env_reg_fail 0x500c) [] (qos_node 2 5 0 false).data 0
      = (-5, [.regmap_update_bits 0x500c 0x3 2]) := by
  have h := (noc_bypass_single_write kernel_headers (env_reg_fail 0x500c) []
    (qos_node 2 5 0 false).data 0 (by decide) (by decide) (by decide) (by decide)).1
  rw [h]
  decide

/-! ## Fail-fast QoS writes (C18) -/

/-- C18: for both families, `qos_writes` is the sequence of register writes of
`qcom_icc_qos_set` (all of it is issued, in order, when no write fails); if
the write at position `k` of the sequence is the first to fail,
`qcom_icc_qos_set` returns exactly the code of that write and the writes it
issued are those at positions `0 .. k`, the failing one last: no later write
of the sequence is issued and nothing is written to undo the earlier ones.
Family A, mode not bypass: the sequence is health 3, 2, 1, 0, enable.
Family B, defined port, fixed mode: the sequence is P1, P0, mode. -/
theorem qos_fail_fast (h : Headers) (env : Env) (log : List Call)
    (qp : qcom_icc_provider) (qn : qcom_icc_node) (bw k : Nat) (c : Call)
    (hk : (qos_writes h qp qn)[k]? = some c)
    (hbefore : ∀ j d, j < k → (qos_writes h qp qn)[j]? = some d →
      env (log ++ (qos_writes h qp qn).take j) d = 0)
    (hfail : env (log ++ (qos_writes h qp qn).take k) c ≠ 0) :
    qcom_icc_qos_set h env log qp qn bw
      = (env (log ++ (qos_writes h qp qn).take k) c, (qos_writes h qp qn).take (k + 1)) ∧
    (∀ (env2 : Env) (log2 : List Call),
      (∀ i d, (qos_writes h qp qn)[i]? = some d →
        env2 (log2 ++ (qos_writes h qp qn).take i) d = 0) →
      qcom_icc_qos_set h env2 log2 qp qn bw = (0, qos_writes h qp qn)) ∧
    (qp.is_bimc_node = true → effective_mode h qn.qos ≠ h.NOC_QOS_MODE_BYPASS →
      qos_writes h qp qn
        = [health_write h qn.qos 3, health_write h qn.qos 2, health_write h qn.qos 1,
           health_write h qn.qos 0, bke_en_write h qn.qos 1]) ∧
    (qp.is_bimc_node = true → effective_mode h qn.qos = h.NOC_QOS_MODE_BYPASS →
      qos_writes h qp qn = [bke_en_write h qn.qos 0]) ∧
    (qp.is_bimc_node = false → ¬ qn.qos.qos_port < 0 →
      effective_mode h qn.qos = h.NOC_QOS_MODE_FIXED →
      qos_writes h qp qn
        = [noc_p1_write h qn.qos, noc_p0_write h qn.qos,
           noc_mode_write h qn.qos h.NOC_QOS_MODE_FIXED]) ∧
    (qp.is_bimc_node = false → ¬ qn.qos.qos_port < 0 →
      effective_mode h qn.qos ≠ h.NOC_QOS_MODE_FIXED →
      qos_writes h qp qn = [noc_mode_write h qn.qos (effective_mode h qn.qos)]) := by
  refine ⟨?_, ?_, ?_, ?_, ?_, ?_⟩
  · rw [qcom_icc_qos_set_eq]
    exact run_writes_fail env _ log k c hk hbefore hfail
  · intro env2 log2 hall
    rw [qcom_icc_qos_set_eq]
    exact run_writes_ok env2 _ log2 hall
  · intro hb hm
    simp [qos_writes, hb, hm]
  · intro hb hm
    simp [qos_writes, hb, hm]
  · intro hb hp hm
    simp [qos_writes, hb, hp, hm]
  · intro hb hp hm
    simp [qos_writes, hb, hp, hm]

/-- Family A, fixed mode, port 0: when the write of health register 2 (0x348)
fails with -5, the arbiter returns -5 after the writes of health registers 3
and 2; health registers 1 and 0 and the enable register are not written -/
theorem qos_fail_fast_witness :
    qcom_icc_qos_set kernel_headers (env_reg_fail 0x348) []
        (bimc_provider [qos_node 0 0 0 false]) (qos_node 0 0 0 false).data 0
      = (-5, [.regmap_update_bits 0x34c 0x303 0, .regmap_update_bits 0x348 0x80000303 0]) := by
  have h := (qos_fail_fast kernel_headers (env_reg_fail 0x348) []
    (bimc_provider [qos_node 0 0 0 false]) (qos_node 0 0 0 false).data 0 1
    (.regmap_update_bits 0x348 0x80000303 0) (by decide)
    (by
      intro j d hj hd
      have hj0 : j = 0 := by omega
      subst hj0
      have hd0 : d = .regmap_update_bits 0x34c 0x303 0 := by
        have : (qos_writes kernel_headers (bimc_provider [qos_node 0 0 0 false])
            (qos_node 0 0 0 false).data)[0]? = some (.regmap_update_bits 0x34c 0x303 0) := by
          decide
        rw [this] at hd
        exact (Option.some.inj hd).symm
      subst hd0
      decide)
    (by decide)).1
  rw [h]
  decide

/-! ## Locally owned nodes in the dispatch step (C19, C20) -/

/-- The dispatch step of a locally owned node with a defined mode is the QoS
arbiter -/
theorem dispatch_local_qos (h : Headers) (env : Env) (log : List Call)
    (qp : qcom_icc_provider) (qn : qcom_icc_node)
    (hap : qn.qos.ap_owned = true) (hmode : qn.qos.qos_mode ≠ -1) :
    dispatch h env log qp qn = qcom_icc_qos_set h env log qp qn (sum_bw h qp) := by
  simp [dispatch, hap, hmode]

/-- The dispatch step of a locally owned node without a mode does nothing -/
theorem dispatch_local_none (h : Headers) (env : Env) (log : List Call)
    (qp : qcom_icc_provider) (qn : qcom_icc_node)
    (hap : qn.qos.ap_owned = true) (hmode : qn.qos.qos_mode = -1) :
    dispatch h env log qp qn = (0, []) := by
  simp [dispatch, hap, hmode]

/-- C19: for every locally owned node whose `qos_mode` is not -1, the dispatch
step of `qcom_icc_rpm_qos_set` is the QoS arbiter `qcom_icc_qos_set` on that
node; the call issues no remote send (its calls are the register writes of the
arbiter followed by clock-rate writes); and if the arbiter fails, the call
returns that error with the arbiter's writes as its only calls (no clock-rate
write) and leaves the provider, in particular the stored rate, unchanged -/
theorem local_qos_dispatch (h : Headers) (env : Env) (log : List Call)
    (qp : qcom_icc_provider) (src dst : Nat) (n : icc_node)
    (hn : qp.nodes[src]? = some n)
    (hap : n.data.qos.ap_owned = true) (hmode : n.data.qos.qos_mode ≠ -1) :
    dispatch h env log qp n.data = qcom_icc_qos_set h env log qp n.data (sum_bw h qp) ∧
    (∀ c ∈ (qcom_icc_qos_set h env log qp n.data (sum_bw h qp)).2,
      c.is_regmap = true ∧ c.is_send = false ∧ c.is_clk = false) ∧
    ((qcom_icc_qos_set h env log qp n.data (sum_bw h qp)).1 ≠ 0 →
      qcom_icc_rpm_qos_set h env log qp src dst
        = some ⟨(qcom_icc_qos_set h env log qp n.data (sum_bw h qp)).1, qp,
                (qcom_icc_qos_set h env log qp n.data (sum_bw h qp)).2⟩) ∧
    (n.data.buswidth ≠ 0 →
      ∃ r cl, qcom_icc_rpm_qos_set h env log qp src dst = some r ∧
        r.calls = (qcom_icc_qos_set h env log qp n.data (sum_bw h qp)).2 ++ cl ∧
        (∀ c ∈ cl, c.is_clk = true) ∧ ∀ c ∈ r.calls, c.is_send = false) := by
  have hd := dispatch_local_qos h env log qp n.data hap hmode
  have hreg : ∀ c ∈ (qcom_icc_qos_set h env log qp n.data (sum_bw h qp)).2,
      c.is_regmap = true ∧ c.is_send = false ∧ c.is_clk = false := by
    intro c hc
    have := qcom_icc_qos_set_regmap h env log qp n.data _ c hc
    cases c <;> simp_all [Call.is_regmap, Call.is_send, Call.is_clk]
  refine ⟨hd, hreg, ?_, ?_⟩
  · intro hf
    rw [← hd] at hf ⊢
    exact qos_set_dispatch_failed h env log qp src dst n hn hf
  · intro hbw
    obtain ⟨r, hr⟩ := qos_set_returns h env log qp src dst n hn hbw
    obtain ⟨cl, hcalls, hclk, _⟩ := qos_set_calls_shape h env log qp src dst n r hn hr
    rw [hd] at hcalls
    refine ⟨r, cl, hr, hcalls, hclk, ?_⟩
    intro c hc
    rw [hcalls, List.mem_append] at hc
    rcases hc with hc | hc
    · exact (hreg c hc).2.1
    · have := hclk c hc
      cases c <;> simp_all [Call.is_send, Call.is_clk]

/-- The application processor master (locally owned, fixed mode, port 0) on
the family-A provider: when the first health write (0x34c) fails with -5, the
call returns -5 after that single write, sets no clock and keeps the rate 0 -/
theorem local_qos_dispatch_witness :
    qcom_icc_rpm_qos_set kernel_headers (env_reg_fail 0x34c) []
        (bimc_provider [qos_node 0 0 0 false]) 0 0
      = some ⟨-5, bimc_provider [qos_node 0 0 0 false], [.regmap_update_bits 0x34c 0x303 0]⟩ := by
  have h := (local_qos_dispatch kernel_headers (env_reg_fail 0x34c) []
    (bimc_provider [qos_node 0 0 0 false]) 0 0 (qos_node 0 0 0 false)
    (by decide) (by decide) (by decide)).2.2.1 (by decide)
  rw [h]
  decide

/-- C20: for every locally owned node whose `qos_mode` is -1, whatever the
provider family, the QoS port and the remote identifiers, the dispatch step of
`qcom_icc_rpm_qos_set` does nothing and succeeds, and the call goes on with
the rate derivation: it issues no register write and no remote send, returns
0 without any call when the stored rate equals the required rate `R`, and
otherwise its calls are `clk_set_rate(c, R)` on an initial segment of the
clock sources, starting with the first -/
theorem local_unset_mode_noop (h : Headers) (env : Env) (log : List Call)
    (qp : qcom_icc_provider) (src dst : Nat) (n : icc_node)
    (hn : qp.nodes[src]? = some n) (hbw : n.data.buswidth ≠ 0)
    (hap : n.data.qos.ap_owned = true) (hmode : n.data.qos.qos_mode = -1) :
    dispatch h env log qp n.data = (0, []) ∧
    ∃ r, qcom_icc_rpm_qos_set h env log qp src dst = some r ∧
      (∀ c ∈ r.calls, c.is_regmap = false ∧ c.is_send = false) ∧
      (n.data.rate = required_rate h qp n.data → r = ⟨0, qp, []⟩) ∧
      (n.data.rate ≠ required_rate h qp n.data →
        ∃ k, (qp.bus_clks = [] ∨ 0 < k) ∧
          r.calls = (qp.bus_clks.take k).map
            (Call.clk_set_rate · (required_rate h qp n.data))) := by
  have hd := dispatch_local_none h env log qp n.data hap hmode
  have hd1 : (dispatch h env log qp n.data).1 = 0 := by rw [hd]
  refine ⟨hd, ?_⟩
  obtain ⟨r, hr⟩ := qos_set_returns h env log qp src dst n hn hbw
  obtain ⟨cl, hcalls, hclk, _⟩ := qos_set_calls_shape h env log qp src dst n r hn hr
  rw [hd] at hcalls
  simp only [List.nil_append] at hcalls
  refine ⟨r, hr, ?_, ?_, ?_⟩
  · intro c hc
    rw [hcalls] at hc
    have := hclk c hc
    cases c <;> simp_all [Call.is_regmap, Call.is_send, Call.is_clk]
  · intro he
    rw [qos_set_same_rate h env log qp src dst n hn hd1 hbw he, hd] at hr
    exact (Option.some.inj hr).symm
  · intro hne
    obtain ⟨k, _, hpos, hshape, _⟩ := set_bus_clks_shape env (required_rate h qp n.data)
      qp.bus_clks (log ++ (dispatch h env log qp n.data).2)
    refine ⟨k, hpos, ?_⟩
    rw [qos_set_new_rate h env log qp src dst n hn hd1 hbw hne] at hr
    have hr2 := Option.some.inj hr
    rw [← hr2]
    split <;> (rw [hshape, hd]; rfl)

/-- A locally owned node without QoS mode on the family-A provider that votes
avg=1000, peak=4000 with bus width 16: the call consists of the two clock
writes -/
theorem local_unset_mode_noop_witness :
    ∃ r, qcom_icc_rpm_qos_set kernel_headers env_ok []
        (bimc_provider [plain_node 16 0 1000 4000]) 0 0 = some r ∧
      (∀ c ∈ r.calls, c.is_regmap = false ∧ c.is_send = false) ∧
      ∃ k, 0 < k ∧ r.calls = ([0, 1].take k).map (Call.clk_set_rate · 250000) := by
  obtain ⟨r, hr, hno, _, hclk⟩ := (local_unset_mode_noop kernel_headers env_ok []
    (bimc_provider [plain_node 16 0 1000 4000]) 0 0 (plain_node 16 0 1000 4000)
    (by decide) (by decide) (by decide) (by decide)).2
  obtain ⟨k, hk, hcalls⟩ := hclk (by decide)
  refine ⟨r, hr, hno, k, ?_, hcalls⟩
  rcases hk with hk | hk
  · exact absurd hk (by decide)
  · exact hk

/-! ## The node table: acyclic links (C24) and bus widths (C28) -/

/-- Every identifier named in a link list is lower than the naming node -/
theorem links_descend_true : links_descend = true := by
  decide

/-- Every bus width of the table is 4, 8, 16 or 32 -/
theorem buswidths_ok_true : buswidths_ok = true := by
  decide

/-- An identifier named in the link list of a table node has a smaller height
than the identifier of that node -/
theorem rank_of_link (d : qnode_decl) (i : NodeId) (hd : d ∈ msm8996_qnodes)
    (hi : Link.id i ∈ d.links) : i.rank < d.id.rank := by
  have h := links_descend_true
  unfold links_descend at h
  rw [List.all_eq_true] at h
  have h2 := h d hd
  rw [List.all_eq_true] at h2
  simpa using h2 (Link.id i) hi

/-- The position of a constant determines the constant -/
theorem NodeId_ofNat_toCtorIdx (a : NodeId) : NodeId.ofNat a.toCtorIdx = a := by
  cases a <;> rfl

/-- The position valuation gives distinct constants distinct values -/
theorem position_val_injective : Function.Injective position_val := by
  intro a b hab
  have h : a.toCtorIdx = b.toCtorIdx := by
    unfold position_val at hab
    omega
  rw [← NodeId_ofNat_toCtorIdx a, ← NodeId_ofNat_toCtorIdx b, h]

/-- A link goes to a node of smaller height, when distinct constants have
distinct values and no constant has the value 0 -/
theorem has_link_rank (val : NodeId → Nat) (hinj : Function.Injective val)
    (hnz : ∀ i, val i ≠ 0) (u v : qnode_decl) (huv : has_link val u v) :
    v.id.rank < u.id.rank := by
  obtain ⟨hu, _, hmem⟩ := huv
  obtain ⟨l, hl, hval⟩ := List.mem_map.mp hmem
  cases l with
  | id i =>
    have hi : i = v.id := hinj hval
    subst hi
    exact rank_of_link u _ hu hl
  | zero => exact absurd hval.symm (hnz v.id)

/-- A chain of links goes to a node of smaller height -/
theorem chain_rank (val : NodeId → Nat) (hinj : Function.Injective val)
    (hnz : ∀ i, val i ≠ 0) (u v : qnode_decl) (huv : Relation.TransGen (has_link val) u v) :
    v.id.rank < u.id.rank := by
  induction huv with
  | single h1 => exact has_link_rank val hinj hnz _ _ h1
  | tail _ h2 ih => exact lt_trans (has_link_rank val hinj hnz _ _ h2) ih

/-- C24: for every valuation of the identifier constants of msm8996.h that
gives distinct constants distinct values and no constant the value 0 (the
literal 0 closes the link list of a node without links), the directed graph
whose vertices are the 133 nodes declared with `DEFINE_QNODE` and whose edges
are the link lists has no cycle: no node reaches itself by a chain of one or
more links -/
theorem topology_acyclic (val : NodeId → Nat) (hinj : Function.Injective val)
    (hnz : ∀ i, val i ≠ 0) (u : qnode_decl) :
    ¬ Relation.TransGen (has_link val) u u := by
  intro hcycle
  exact lt_irrefl _ (chain_rank val hinj hnz u u hcycle)

/-- With the constants numbered from 1 in table order, the system fabric
master towards the memory fabric lies on no cycle, although it has a link
(to the slave carrying `MSM8996_SLAVE_HMSS_L3`) -/
theorem topology_acyclic_witness :
    has_link position_val mas_snoc_bimc slv_hmss_l3 ∧
    ¬ Relation.TransGen (has_link position_val) mas_snoc_bimc mas_snoc_bimc :=
  ⟨by decide, topology_acyclic position_val position_val_injective
    (fun i => Nat.succ_ne_zero _) mas_snoc_bimc⟩

/-- C28: every node declared in the MSM8996 table has bus width 4, 8, 16 or 32,
hence a strictly positive one; so for a vote on a node built from a table
entry the division by `qn->buswidth` is no division by zero and
`qcom_icc_rpm_qos_set` returns -/
theorem table_buswidth_positive (h : Headers) (val : NodeId → Nat) (env : Env)
    (log : List Call) (qp : qcom_icc_provider) (src dst : Nat) (n : icc_node)
    (d : qnode_decl) (hd : d ∈ msm8996_qnodes)
    (hn : qp.nodes[src]? = some n)
    (hdata : n.data.buswidth = (DEFINE_QNODE h val d).buswidth) :
    d.buswidth ∈ [4, 8, 16, 32] ∧ 0 < n.data.buswidth ∧
    ∃ r, qcom_icc_rpm_qos_set h env log qp src dst = some r := by
  have hall := buswidths_ok_true
  unfold buswidths_ok at hall
  rw [List.all_eq_true] at hall
  have hmem : d.buswidth ∈ [4, 8, 16, 32] := by simpa using hall d hd
  have hpos : 0 < n.data.buswidth := by
    rw [hdata]
    show 0 < d.buswidth
    simp only [List.mem_cons, List.mem_singleton, List.not_mem_nil, or_false] at hmem
    omega
  exact ⟨hmem, hpos, qos_set_returns h env log qp src dst n hn (by omega)⟩

/-- The camera post-processing master (bus width 32) as the only node of the
multimedia provider: the vote returns -/
theorem table_buswidth_positive_witness :
    mas_cpp.buswidth ∈ [4, 8, 16, 32] ∧
    ∃ r, qcom_icc_rpm_qos_set kernel_headers env_ok []
      (mm_provider [⟨1000, 4000, DEFINE_QNODE kernel_headers position_val mas_cpp⟩]) 0 0
      = some r := by
  have h := table_buswidth_positive kernel_headers position_val env_ok []
    (mm_provider [⟨1000, 4000, DEFINE_QNODE kernel_headers position_val mas_cpp⟩]) 0 0
    ⟨1000, 4000, DEFINE_QNODE kernel_headers position_val mas_cpp⟩ mas_cpp
    (by decide) rfl rfl
  exact ⟨h.1, h.2.2⟩

/-! ## Phase order (C21) -/

/-- C21: in every execution of `qcom_icc_rpm_qos_set` (a node of the provider
with non-zero bus width) the calls split into the calls of the dispatch step,
none of which is a clock-rate write, followed by clock-rate writes only; so
every register write and every remote send is issued before the first
`clk_set_rate`, and a call issued after a `clk_set_rate` is neither a register
write nor a remote send -/
theorem phase_order (h : Headers) (env : Env) (log : List Call)
    (qp : qcom_icc_provider) (src dst : Nat) (n : icc_node)
    (hn : qp.nodes[src]? = some n) (hbw : n.data.buswidth ≠ 0) :
    ∃ r, qcom_icc_rpm_qos_set h env log qp src dst = some r ∧
      (∃ pre cl, r.calls = pre ++ cl ∧ (∀ c ∈ pre, c.is_clk = false) ∧
        (∀ c ∈ cl, c.is_clk = true ∧ c.is_regmap = false ∧ c.is_send = false)) ∧
      (∀ (i j : Nat) (c d : Call), i < j → r.calls[i]? = some c → r.calls[j]? = some d →
        c.is_clk = true → d.is_clk = true ∧ d.is_regmap = false ∧ d.is_send = false) := by
  obtain ⟨r, hr⟩ := qos_set_returns h env log qp src dst n hn hbw
  obtain ⟨cl, hcalls, hclk, _⟩ := qos_set_calls_shape h env log qp src dst n r hn hr
  have hpre := dispatch_no_clk h env log qp n.data
  have hcl : ∀ c ∈ cl, c.is_clk = true ∧ c.is_regmap = false ∧ c.is_send = false := by
    intro c hc
    have := hclk c hc
    cases c <;> simp_all [Call.is_clk, Call.is_regmap, Call.is_send]
  refine ⟨r, hr, ⟨_, cl, hcalls, hpre, hcl⟩, ?_⟩
  intro i j c d hij hi hj hc
  rw [hcalls] at hi hj
  have hi2 : (dispatch h env log qp n.data).2.length ≤ i := by
    by_contra hlt
    rw [List.getElem?_append_left (by omega)] at hi
    have := hpre c (List.getElem?_mem hi)
    rw [hc] at this
    exact Bool.noConfusion this
  rw [List.getElem?_append_right (by omega)] at hj
  exact hcl d (List.getElem?_mem hj)

/-- The crypto master (locally owned, fixed mode, port 0, priority 1) voting
on a family-B provider: three register writes, then the two clock writes -/
theorem phase_order_witness :
    ∃ r, qcom_icc_rpm_qos_set kernel_headers env_ok []
        (plain_provider [voting_qos_node 0 0 1 0 1000 4000]) 0 0 = some r ∧
      r.calls = [.regmap_update_bits 0x8 0xf 4, .regmap_update_bits 0x8 0xf 8,
                 .regmap_update_bits 0xc 0x3 0,
                 .clk_set_rate 0 500000, .clk_set_rate 1 500000] := by
  obtain ⟨r, hr, _, _⟩ := phase_order kernel_headers env_ok []
    (plain_provider [voting_qos_node 0 0 1 0 1000 4000]) 0 0
    (voting_qos_node 0 0 1 0 1000 4000) (by decide) (by decide)
  refine ⟨r, hr, ?_⟩
  have hv : qcom_icc_rpm_qos_set kernel_headers env_ok []
      (plain_provider [voting_qos_node 0 0 1 0 1000 4000]) 0 0
      = some ⟨0, plain_provider [voting_qos_node 0 0 1 500000 1000 4000],
          [.regmap_update_bits 0x8 0xf 4, .regmap_update_bits 0x8 0xf 8,
           .regmap_update_bits 0xc 0x3 0,
           .clk_set_rate 0 500000, .clk_set_rate 1 500000]⟩ := by decide
  rw [hv] at hr
  cases hr
  rfl

/-! ## Ledger and rate frame (C22) -/

/-- A clock loop that returns 0 wrote every clock, and every write succeeded -/
theorem set_bus_clks_zero (env : Env) (rate : Nat) (clks : List Nat) :
    ∀ log : List Call, (set_bus_clks env log rate clks).1 = 0 →
      (set_bus_clks env log rate clks).2 = clks.map (Call.clk_set_rate · rate) ∧
      ∀ i c, clks[i]? = some c →
        env (log ++ (clks.take i).map (Call.clk_set_rate · rate)) (.clk_set_rate c rate) = 0 := by
  induction clks with
  | nil => intro log _; exact ⟨rfl, fun i c hc => by simp at hc⟩
  | cons c0 rest ih =>
    intro log h0
    by_cases hc : env log (.clk_set_rate c0 rate) = 0
    · simp only [set_bus_clks, hc, ne_eq, not_true_eq_false, if_false] at h0
      obtain ⟨hcalls, hall⟩ := ih (log ++ [.clk_set_rate c0 rate]) h0
      refine ⟨by simp [set_bus_clks, hc, hcalls], ?_⟩
      intro i c hi
      cases i with
      | zero =>
        have e : c0 = c := by simpa using hi
        subst e
        simpa using hc
      | succ i =>
        have := hall i c (by simpa using hi)
        simpa using this
    · simp [set_bus_clks, hc] at h0

/-- Storing a rate changes nothing but the rate of the node at the voted
position -/
theorem store_rate_frame (qp : qcom_icc_provider) (src : Nat) (n : icc_node) (R : Nat)
    (hn : qp.nodes[src]? = some n) :
    (store_rate qp src n R).nodes.map (fun m => (m.avg_bw, m.peak_bw))
        = qp.nodes.map (fun m => (m.avg_bw, m.peak_bw)) ∧
    (∀ i, i ≠ src → (store_rate qp src n R).nodes[i]? = qp.nodes[i]?) ∧
    (store_rate qp src n R).nodes.length = qp.nodes.length ∧
    (store_rate qp src n R).bus_clks = qp.bus_clks ∧
    (store_rate qp src n R).is_bimc_node = qp.is_bimc_node := by
  refine ⟨?_, ?_, ?_, rfl, rfl⟩
  · apply List.ext_getElem?
    intro i
    by_cases hi : i = src
    · subst hi
      obtain ⟨hlt, hget⟩ := List.getElem?_eq_some.mp hn
      simp [store_rate, List.getElem?_map, hlt, hget]
    · simp [store_rate, List.getElem?_map, List.getElem?_set_ne (Ne.symm hi)]
  · intro i hi
    simp [store_rate, List.getElem?_set_ne (Ne.symm hi)]
  · simp [store_rate]

/-- C22: for every outcome of `qcom_icc_rpm_qos_set` on a node of the provider
(non-zero bus width), the provider state afterwards is either the state
before, or differs from it only by the stored rate of the voted node, and the
latter happens only when the dispatch step succeeded, the required rate
differs from the stored one, the call returns 0 and every clock was written
successfully.  In both cases the demand (`avg_bw`, `peak_bw`) of every node,
every node other than the voted one, every other field of the voted node, the
clock list and the family flag are unchanged. -/
theorem ledger_rate_frame (h : Headers) (env : Env) (log : List Call)
    (qp : qcom_icc_provider) (src dst : Nat) (n : icc_node)
    (hn : qp.nodes[src]? = some n) (hbw : n.data.buswidth ≠ 0) :
    ∃ r, qcom_icc_rpm_qos_set h env log qp src dst = some r ∧
      (r.provider = qp ∨
        (r.provider = store_rate qp src n (required_rate h qp n.data) ∧
          required_rate h qp n.data ≠ n.data.rate ∧
          (dispatch h env log qp n.data).1 = 0 ∧ r.ret = 0 ∧
          r.calls = (dispatch h env log qp n.data).2 ++
            qp.bus_clks.map (Call.clk_set_rate · (required_rate h qp n.data)) ∧
          ∀ i c, qp.bus_clks[i]? = some c →
            env (log ++ (dispatch h env log qp n.data).2 ++
                  (qp.bus_clks.take i).map (Call.clk_set_rate · (required_rate h qp n.data)))
                (.clk_set_rate c (required_rate h qp n.data)) = 0)) ∧
      r.provider.nodes.map (fun m => (m.avg_bw, m.peak_bw))
        = qp.nodes.map (fun m => (m.avg_bw, m.peak_bw)) ∧
      (∀ i, i ≠ src → r.provider.nodes[i]? = qp.nodes[i]?) ∧
      (∃ m, r.provider.nodes[src]? = some m ∧ m.avg_bw = n.avg_bw ∧ m.peak_bw = n.peak_bw ∧
        { m.data with rate := n.data.rate } = n.data) ∧
      r.provider.bus_clks = qp.bus_clks ∧ r.provider.is_bimc_node = qp.is_bimc_node := by
  have hsame : ∀ r : Result, r.provider = qp →
      r.provider.nodes.map (fun m => (m.avg_bw, m.peak_bw))
        = qp.nodes.map (fun m => (m.avg_bw, m.peak_bw)) ∧
      (∀ i, i ≠ src → r.provider.nodes[i]? = qp.nodes[i]?) ∧
      (∃ m, r.provider.nodes[src]? = some m ∧ m.avg_bw = n.avg_bw ∧ m.peak_bw = n.peak_bw ∧
        { m.data with rate := n.data.rate } = n.data) ∧
      r.provider.bus_clks = qp.bus_clks ∧ r.provider.is_bimc_node = qp.is_bimc_node := by
    intro r hp
    rw [hp]
    exact ⟨rfl, fun _ _ => rfl, ⟨n, hn, rfl, rfl, rfl⟩, rfl, rfl⟩
  by_cases hd : (dispatch h env log qp n.data).1 = 0
  · by_cases hr : n.data.rate = required_rate h qp n.data
    · exact ⟨_, qos_set_same_rate h env log qp src dst n hn hd hbw hr, Or.inl rfl,
        hsame _ rfl⟩
    · by_cases hc : (set_bus_clks env (log ++ (dispatch h env log qp n.data).2)
          (required_rate h qp n.data) qp.bus_clks).1 = 0
      · obtain ⟨hcalls, hall⟩ := set_bus_clks_zero env (required_rate h qp n.data) qp.bus_clks
          (log ++ (dispatch h env log qp n.data).2) hc
        obtain ⟨f1, f2, _, f4, f5⟩ := store_rate_frame qp src n (required_rate h qp n.data) hn
        have hres : qcom_icc_rpm_qos_set h env log qp src dst
            = some ⟨0, store_rate qp src n (required_rate h qp n.data),
                (dispatch h env log qp n.data).2 ++
                  qp.bus_clks.map (Call.clk_set_rate · (required_rate h qp n.data))⟩ := by
          rw [qos_set_new_rate h env log qp src dst n hn hd hbw hr, if_neg (not_not.mpr hc),
            hcalls]
        exact ⟨_, hres, Or.inr ⟨rfl, fun e => hr e.symm, hd, rfl, rfl, hall⟩, f1, f2,
          ⟨_, store_rate_get qp src n _ hn, rfl, rfl, rfl⟩, f4, f5⟩
      · have hres : qcom_icc_rpm_qos_set h env log qp src dst
            = some ⟨(set_bus_clks env (log ++ (dispatch h env log qp n.data).2)
                      (required_rate h qp n.data) qp.bus_clks).1, qp,
                (dispatch h env log qp n.data).2 ++
                  (set_bus_clks env (log ++ (dispatch h env log qp n.data).2)
                    (required_rate h qp n.data) qp.bus_clks).2⟩ := by
          rw [qos_set_new_rate h env log qp src dst n hn hd hbw hr, if_pos hc]
        exact ⟨_, hres, Or.inl rfl, hsame ⟨_, qp, _⟩ rfl⟩
  · exact ⟨_, qos_set_dispatch_failed h env log qp src dst n hn hd, Or.inl rfl,
      hsame ⟨_, qp, _⟩ rfl⟩

/-- The scenario provider after the first vote: the vote of node 2 changes the
stored rate of node 2 and nothing else; the demand and the rate of node 1 are
as before -/
theorem ledger_rate_frame_witness :
    ∃ r, qcom_icc_rpm_qos_set kernel_headers env_ok []
        (scenario 200000 800 1600 0 400 3200) 1 0 = some r ∧
      r.provider = scenario 200000 800 1600 400000 400 3200 ∧
      r.provider.nodes[0]? = (scenario 200000 800 1600 0 400 3200).nodes[0]? := by
  obtain ⟨r, hr, _, _, hother, _⟩ := ledger_rate_frame kernel_headers env_ok []
    (scenario 200000 800 1600 0 400 3200) 1 0 (plain_node 8 0 400 3200)
    (by decide) (by decide)
  refine ⟨r, hr, ?_, hother 0 (by decide)⟩
  have hv : qcom_icc_rpm_qos_set kernel_headers env_ok []
      (scenario 200000 800 1600 0 400 3200) 1 0
      = some ⟨0, scenario 200000 800 1600 400000 400 3200,
          [.clk_set_rate 0 400000, .clk_set_rate 1 400000]⟩ := by decide
  rw [hv] at hr
  cases hr
  rfl

/-! ## The remote vote carries the average only (C23) -/

/-- The aggregated average is a function of the list of average demands -/
theorem aggregate_from_avg (nodes : List icc_node) :
    ∀ a p : Nat, (aggregate_from nodes (a, p)).1
      = (nodes.map (·.avg_bw)).foldl (fun acc x => (acc + x) % 2 ^ 32) a := by
  induction nodes with
  | nil => intro a p; rfl
  | cons n rest ih =>
    intro a p
    simp only [aggregate_from, icc_std_aggregate, List.map_cons, List.foldl_cons, ih]

/-- Providers with the same average demands have the same `sum_bw` -/
theorem sum_bw_congr (h : Headers) (qp1 qp2 : qcom_icc_provider)
    (havg : qp1.nodes.map (·.avg_bw) = qp2.nodes.map (·.avg_bw)) :
    sum_bw h qp1 = sum_bw h qp2 := by
  simp only [sum_bw, aggregate, aggregate_from_avg, havg]

/-- The remote sends of a call on a node that is not locally owned are the
calls of the remote vote; there is no result only when the vote succeeded and
the bus width is zero -/
theorem qos_set_sends (h : Headers) (env : Env) (log : List Call)
    (qp : qcom_icc_provider) (src dst : Nat) (n : icc_node)
    (hn : qp.nodes[src]? = some n) (hap : n.data.qos.ap_owned = false) :
    (qcom_icc_rpm_qos_set h env log qp src dst).map (fun r => r.calls.filter Call.is_send)
      = if (qcom_icc_rpm_set h env log n.data.mas_rpm_id n.data.slv_rpm_id (sum_bw h qp)).1 = 0
            ∧ n.data.buswidth = 0 then none
        else some (qcom_icc_rpm_set h env log n.data.mas_rpm_id n.data.slv_rpm_id
          (sum_bw h qp)).2 := by
  have hdr := dispatch_remote h env log qp n.data hap
  have hsend := qcom_icc_rpm_set_sends h env log n.data.mas_rpm_id n.data.slv_rpm_id
    (sum_bw h qp)
  have hfilter : ∀ cl : List Call, (∀ c ∈ cl, c.is_clk = true) →
      ((qcom_icc_rpm_set h env log n.data.mas_rpm_id n.data.slv_rpm_id (sum_bw h qp)).2
          ++ cl).filter Call.is_send
        = (qcom_icc_rpm_set h env log n.data.mas_rpm_id n.data.slv_rpm_id (sum_bw h qp)).2 := by
    intro cl hcl
    rw [List.filter_append, List.filter_eq_self.mpr hsend]
    have : cl.filter Call.is_send = [] := by
      rw [List.filter_eq_nil_iff]
      intro c hc
      have := hcl c hc
      cases c <;> simp_all [Call.is_clk, Call.is_send]
    rw [this, List.append_nil]
  by_cases hbw : n.data.buswidth = 0
  · by_cases hd : (dispatch h env log qp n.data).1 = 0
    · have hnone : qcom_icc_rpm_qos_set h env log qp src dst = none := by
        simp [qcom_icc_rpm_qos_set, hn, hd, hbw]
      rw [hdr] at hd
      simp [hnone, hd, hbw]
    · rw [qos_set_dispatch_failed h env log qp src dst n hn hd]
      rw [hdr] at hd ⊢
      simp only [hd, false_and, if_false]
      have := hfilter [] (by simp)
      rw [List.append_nil] at this
      show some (List.filter Call.is_send _) = _
      rw [this]
  · obtain ⟨r, hr⟩ := qos_set_returns h env log qp src dst n hn hbw
    obtain ⟨cl, hcalls, hclk, _⟩ := qos_set_calls_shape h env log qp src dst n r hn hr
    rw [hdr] at hcalls
    rw [hr]
    simp only [hbw, and_false, if_false]
    show some (List.filter Call.is_send r.calls) = _
    rw [hcalls, hfilter cl hclk]

/-- C23: for any two provider states that agree on every node's `avg_bw` and
on the voted node's descriptor, however their `peak_bw` values differ, the
sequence of remote sends (request type, remote identifier, value) issued by
`qcom_icc_rpm_qos_set` on a node that is not locally owned is the same, in the
same environment after the same history -/
theorem remote_sends_ignore_peak (h : Headers) (env : Env) (log : List Call)
    (qp1 qp2 : qcom_icc_provider) (src dst : Nat) (n1 n2 : icc_node)
    (havg : qp1.nodes.map (·.avg_bw) = qp2.nodes.map (·.avg_bw))
    (hn1 : qp1.nodes[src]? = some n1) (hn2 : qp2.nodes[src]? = some n2)
    (hdata : n1.data = n2.data) (hap : n1.data.qos.ap_owned = false) :
    (qcom_icc_rpm_qos_set h env log qp1 src dst).map (fun r => r.calls.filter Call.is_send)
      = (qcom_icc_rpm_qos_set h env log qp2 src dst).map
          (fun r => r.calls.filter Call.is_send) ∧
    (n1.data.buswidth ≠ 0 →
      ∃ r1 r2, qcom_icc_rpm_qos_set h env log qp1 src dst = some r1 ∧
        qcom_icc_rpm_qos_set h env log qp2 src dst = some r2 ∧
        r1.calls.filter Call.is_send = r2.calls.filter Call.is_send) := by
  have hap2 : n2.data.qos.ap_owned = false := by rw [← hdata]; exact hap
  have hsum := sum_bw_congr h qp1 qp2 havg
  have heq : (qcom_icc_rpm_qos_set h env log qp1 src dst).map
        (fun r => r.calls.filter Call.is_send)
      = (qcom_icc_rpm_qos_set h env log qp2 src dst).map
          (fun r => r.calls.filter Call.is_send) := by
    rw [qos_set_sends h env log qp1 src dst n1 hn1 hap,
      qos_set_sends h env log qp2 src dst n2 hn2 hap2, hsum, hdata]
  refine ⟨heq, ?_⟩
  intro hbw
  obtain ⟨r1, hr1⟩ := qos_set_returns h env log qp1 src dst n1 hn1 hbw
  obtain ⟨r2, hr2⟩ := qos_set_returns h env log qp2 src dst n2 hn2 (by rw [← hdata]; exact hbw)
  rw [hr1, hr2] at heq
  exact ⟨r1, r2, hr1, hr2, Option.some.inj heq⟩

/-- The peripheral master with average demand 1000: with peak demand 4000 or
with peak demand 9000 the remote sends are the same single master request -/
theorem remote_sends_ignore_peak_witness :
    (qcom_icc_rpm_qos_set kernel_headers env_ok []
        (plain_provider [remote_node 117 (-1) 8 0 1000 4000]) 0 0).map
        (fun r => r.calls.filter Call.is_send)
      = (qcom_icc_rpm_qos_set kernel_headers env_ok []
        (plain_provider [remote_node 117 (-1) 8 0 1000 9000]) 0 0).map
        (fun r => r.calls.filter Call.is_send) :=
  (remote_sends_ignore_peak kernel_headers env_ok []
    (plain_provider [remote_node 117 (-1) 8 0 1000 4000])
    (plain_provider [remote_node 117 (-1) 8 0 1000 9000]) 0 0
    (remote_node 117 (-1) 8 0 1000 4000) (remote_node 117 (-1) 8 0 1000 9000)
    (by decide) (by decide) (by decide) (by decide) (by decide)).1

/-! ## Health-register composition (C25) -/

/-- Reducing an operand of a bitwise OR modulo 2^n before reducing the result
changes nothing -/
theorem lor_mod_left (a b n : Nat) : ((a % 2 ^ n) ||| b) % 2 ^ n = (a ||| b) % 2 ^ n := by
  apply Nat.eq_of_testBit_eq
  intro i
  simp only [Nat.testBit_mod_two_pow, Nat.testBit_or]
  by_cases hi : i < n <;> simp [hi]

/-- C25: for every QoS descriptor and register number, the single register
write of `qcom_icc_bimc_set_qos_health` goes to the health register
(`regnum`, `qos_port`); its value is, in `u32` arithmetic,
`prio_level | (areq_prio << AREQPRIO_SHIFT)`, with
`limit_commands << LIMITCMDS_SHIFT` included exactly when the register number
is not 3; its mask is the priority-level mask OR the request-priority mask,
with the limit-commands mask included exactly when the register number is
not 3 -/
theorem health_register_composition (h : Headers) (env : Env) (log : List Call)
    (qos : qcom_icc_qos) (regnum : Nat) :
    qcom_icc_bimc_set_qos_health h env log qos regnum
      = (env log (health_write h qos regnum), [health_write h qos regnum]) ∧
    (regnum = 3 →
      health_write h qos regnum
        = .regmap_update_bits (h.M_BKE_HEALTH_CFG_ADDR 3 qos.qos_port)
            (h.M_BKE_HEALTH_CFG_PRIOLVL_MASK ||| h.M_BKE_HEALTH_CFG_AREQPRIO_MASK)
            ((qos.prio_level ||| (qos.areq_prio <<< h.M_BKE_HEALTH_CFG_AREQPRIO_SHIFT))
              % 2 ^ 32)) ∧
    (regnum ≠ 3 →
      health_write h qos regnum
        = .regmap_update_bits (h.M_BKE_HEALTH_CFG_ADDR regnum qos.qos_port)
            (h.M_BKE_HEALTH_CFG_PRIOLVL_MASK ||| h.M_BKE_HEALTH_CFG_AREQPRIO_MASK
              ||| h.M_BKE_HEALTH_CFG_LIMITCMDS_MASK)
            ((qos.prio_level ||| (qos.areq_prio <<< h.M_BKE_HEALTH_CFG_AREQPRIO_SHIFT)
              ||| (qos.limit_commands.toNat <<< h.M_BKE_HEALTH_CFG_LIMITCMDS_SHIFT))
              % 2 ^ 32)) := by
  refine ⟨rfl, ?_, ?_⟩
  · intro h3
    subst h3
    simp only [health_write, qcom_icc_bimc_set_qos_health, ne_eq, not_true_eq_false, if_false,
      List.headD_cons, lor_mod_left]
  · intro h3
    simp only [health_write, qcom_icc_bimc_set_qos_health, ne_eq, h3, not_false_eq_true,
      if_true, List.headD_cons, lor_mod_left]

/-- Priority 1 with the command limit set, port 0: health register 2 (0x348)
gets the value 0x80000101 under the mask 0x80000303, health register 3 (0x34c)
the value 0x101 under the mask 0x303 -/
theorem health_register_composition_witness :
    health_write kernel_headers (qos_node 0 0 1 true).data.qos 2
      = .regmap_update_bits 0x348 0x80000303 0x80000101 ∧
    health_write kernel_headers (qos_node 0 0 1 true).data.qos 3
      = .regmap_update_bits 0x34c 0x303 0x101 := by
  have h := health_register_composition kernel_headers env_ok []
    (qos_node 0 0 1 true).data.qos 2
  have h3 := health_register_composition kernel_headers env_ok []
    (qos_node 0 0 1 true).data.qos 3
  refine ⟨?_, ?_⟩
  · rw [h.2.2 (by decide)]; decide
  · rw [h3.2.1 rfl]; decide

/-! ## The priority register after both writes (C26) -/

/-- The bits under the mask after an update are those of the value -/
theorem update_bits_and_mask (old mask val : Nat) (hmask : mask < 2 ^ 32) :
    update_bits old mask val &&& mask = val &&& mask := by
  apply Nat.eq_of_testBit_eq
  intro i
  simp only [update_bits, Nat.testBit_or, Nat.testBit_and, Nat.testBit_xor,
    Nat.testBit_two_pow_sub_one]
  by_cases hi : i < 32
  · simp only [hi, decide_True]
    cases old.testBit i <;> cases mask.testBit i <;> cases val.testBit i <;> rfl
  · have hm : mask.testBit i = false :=
      Nat.testBit_lt_two_pow (lt_of_lt_of_le hmask (Nat.pow_le_pow_right (by norm_num) (by omega)))
    simp [hm]

/-- A second update under the same mask overrides the first -/
theorem update_bits_twice (old mask v1 v0 : Nat) (hmask : mask < 2 ^ 32) :
    update_bits (update_bits old mask v1) mask v0 = update_bits old mask v0 := by
  apply Nat.eq_of_testBit_eq
  intro i
  simp only [update_bits, Nat.testBit_or, Nat.testBit_and, Nat.testBit_xor,
    Nat.testBit_two_pow_sub_one]
  by_cases hi : i < 32
  · simp only [hi, decide_True]
    cases old.testBit i <;> cases mask.testBit i <;> cases v1.testBit i <;>
      cases v0.testBit i <;> rfl
  · have hm : mask.testBit i = false :=
      Nat.testBit_lt_two_pow (lt_of_lt_of_le hmask (Nat.pow_le_pow_right (by norm_num) (by omega)))
    simp [hm]

/-- A successful priority update issued both writes -/
theorem qcom_icc_noc_set_qos_priority_ok (h : Headers) (env : Env) (log : List Call)
    (qos : qcom_icc_qos) (hok : (qcom_icc_noc_set_qos_priority h env log qos).1 = 0) :
    (qcom_icc_noc_set_qos_priority h env log qos).2 = [noc_p1_write h qos, noc_p0_write h qos] := by
  by_cases h1 : env log (noc_p1_write h qos) = 0
  · have h1b := h1
    unfold noc_p1_write at h1b
    simp only [qcom_icc_noc_set_qos_priority, h1b, ne_eq, not_true_eq_false, if_false]
    rfl
  · have h1b := h1
    unfold noc_p1_write at h1b
    simp only [qcom_icc_noc_set_qos_priority, ne_eq, h1b, not_false_eq_true, if_true] at hok

/-- C26: the two writes of `qcom_icc_noc_set_qos_priority` target the same
register address with the same mask `NOC_QOS_PRIORITY_MASK` (a `u32`); on a
register updated by read-modify-write, after both writes succeeded the
register holds the old content with the bits under the mask replaced by those
of `prio_level << P0_SHIFT`, so the bits under the mask equal
`(prio_level << P0_SHIFT) AND mask`, and the final content is the same for
every value of `areq_prio` -/
theorem noc_priority_end_state (h : Headers) (env : Env) (log : List Call)
    (qos : qcom_icc_qos) (old : Nat)
    (hmask : h.NOC_QOS_PRIORITY_MASK < 2 ^ 32)
    (hok : (qcom_icc_noc_set_qos_priority h env log qos).1 = 0) :
    (qcom_icc_noc_set_qos_priority h env log qos).2
      = [.regmap_update_bits (h.NOC_QOS_PRIORITYn_ADDR qos.qos_port) h.NOC_QOS_PRIORITY_MASK
           ((qos.areq_prio <<< h.NOC_QOS_PRIORITY_P1_SHIFT) % 2 ^ 32),
         .regmap_update_bits (h.NOC_QOS_PRIORITYn_ADDR qos.qos_port) h.NOC_QOS_PRIORITY_MASK
           ((qos.prio_level <<< h.NOC_QOS_PRIORITY_P0_SHIFT) % 2 ^ 32)] ∧
    apply_writes (h.NOC_QOS_PRIORITYn_ADDR qos.qos_port) old
        (qcom_icc_noc_set_qos_priority h env log qos).2
      = update_bits old h.NOC_QOS_PRIORITY_MASK
          ((qos.prio_level <<< h.NOC_QOS_PRIORITY_P0_SHIFT) % 2 ^ 32) ∧
    apply_writes (h.NOC_QOS_PRIORITYn_ADDR qos.qos_port) old
        (qcom_icc_noc_set_qos_priority h env log qos).2 &&& h.NOC_QOS_PRIORITY_MASK
      = ((qos.prio_level <<< h.NOC_QOS_PRIORITY_P0_SHIFT) % 2 ^ 32)
          &&& h.NOC_QOS_PRIORITY_MASK ∧
    (∀ (a : Nat) (env2 : Env) (log2 : List Call),
      (qcom_icc_noc_set_qos_priority h env2 log2 { qos with areq_prio := a }).1 = 0 →
      apply_writes (h.NOC_QOS_PRIORITYn_ADDR qos.qos_port) old
          (qcom_icc_noc_set_qos_priority h env2 log2 { qos with areq_prio := a }).2
        = apply_writes (h.NOC_QOS_PRIORITYn_ADDR qos.qos_port) old
          (qcom_icc_noc_set_qos_priority h env log qos).2) := by
  have hfinal : ∀ (q : qcom_icc_qos) (e : Env) (l : List Call),
      (qcom_icc_noc_set_qos_priority h e l q).1 = 0 →
      apply_writes (h.NOC_QOS_PRIORITYn_ADDR q.qos_port) old
          (qcom_icc_noc_set_qos_priority h e l q).2
        = update_bits old h.NOC_QOS_PRIORITY_MASK
            ((q.prio_level <<< h.NOC_QOS_PRIORITY_P0_SHIFT) % 2 ^ 32) := by
    intro q e l hq
    rw [qcom_icc_noc_set_qos_priority_ok h e l q hq]
    simp only [apply_writes, noc_p1_write, noc_p0_write, List.foldl_cons, List.foldl_nil,
      apply_write, if_true]
    exact update_bits_twice old _ _ _ hmask
  refine ⟨qcom_icc_noc_set_qos_priority_ok h env log qos hok, hfinal qos env log hok, ?_, ?_⟩
  · rw [hfinal qos env log hok]
    exact update_bits_and_mask old _ _ hmask
  · intro a env2 log2 hok2
    rw [hfinal qos env log hok]
    exact hfinal { qos with areq_prio := a } env2 log2 hok2

/-- Port 0, priority level 1: from the content 0xffffffff the register ends at
0xfffffff8, whether the request priority is 1 or 3 -/
theorem noc_priority_end_state_witness :
    apply_writes 0x8 0xffffffff
        (qcom_icc_noc_set_qos_priority kernel_headers env_ok [] (qos_node 0 0 1 false).data.qos).2
      = 0xfffffff8 ∧
    apply_writes 0x8 0xffffffff
        (qcom_icc_noc_set_qos_priority kernel_headers env_ok []
          { (qos_node 0 0 1 false).data.qos with areq_prio := 3 }).2
      = 0xfffffff8 := by
  have h := noc_priority_end_state kernel_headers env_ok [] (qos_node 0 0 1 false).data.qos
    0xffffffff (by decide) (by decide)
  exact ⟨(h.2.1).trans (by decide),
    ((h.2.2.2 3 env_ok [] (by decide)).trans h.2.1).trans (by decide)⟩

/-! ## QoS writes do not depend on the bandwidth (C27) -/

/-- C27: the return code and the sequence of register writes (address, mask,
value) of `qcom_icc_qos_set`, in a given environment after a given history,
are the same for every value of the bandwidth argument, and the same for two
providers of the same family and two nodes with the same QoS descriptor; the
same holds for the two family arbiters, whose bandwidth and bypass arguments
are not read -/
theorem qos_writes_ignore_bandwidth (h : Headers) (env : Env) (log : List Call)
    (qp1 qp2 : qcom_icc_provider) (qn1 qn2 : qcom_icc_node) (bw1 bw2 : Nat) (b1 b2 : Bool)
    (hfam : qp1.is_bimc_node = qp2.is_bimc_node) (hqos : qn1.qos = qn2.qos) :
    qcom_icc_qos_set h env log qp1 qn1 bw1 = qcom_icc_qos_set h env log qp2 qn2 bw2 ∧
    qcom_icc_set_bimc_qos h env log qn1 bw1 b1 = qcom_icc_set_bimc_qos h env log qn2 bw2 b2 ∧
    qcom_icc_set_noc_qos h env log qn1 bw1 = qcom_icc_set_noc_qos h env log qn2 bw2 := by
  refine ⟨?_, ?_, ?_⟩
  · rw [qcom_icc_qos_set_eq, qcom_icc_qos_set_eq]
    simp only [qos_writes, hfam, hqos]
  · rw [qcom_icc_set_bimc_qos_eq, qcom_icc_set_bimc_qos_eq, hqos]
  · rw [qcom_icc_set_noc_qos_eq, qcom_icc_set_noc_qos_eq, hqos]

/-- The crypto master on a family-B provider: the writes for the bandwidth 0
and for the bandwidth 4000000 are the same three writes -/
theorem qos_writes_ignore_bandwidth_witness :
    qcom_icc_qos_set kernel_headers env_ok [] (plain_provider []) (qos_node 0 0 1 false).data 0
      = (0, [.regmap_update_bits 0x8 0xf 4, .regmap_update_bits 0x8 0xf 8,
             .regmap_update_bits 0xc 0x3 0]) ∧
    qcom_icc_qos_set kernel_headers env_ok [] (plain_provider []) (qos_node 0 0 1 false).data 0
      = qcom_icc_qos_set kernel_headers env_ok [] (plain_provider [qos_node 0 0 1 false])
          (voting_qos_node 0 0 1 500000 1000 4000).data 4000000 :=
  ⟨by decide,
    (qos_writes_ignore_bandwidth kernel_headers env_ok [] (plain_provider [])
      (plain_provider [qos_node 0 0 1 false]) (qos_node 0 0 1 false).data
      (voting_qos_node 0 0 1 500000 1000 4000).data 0 4000000 false true rfl rfl).1⟩

/-! ## Monotonicity of the required rate (C29) -/

/-- Pointwise larger demands give a larger sum of averages and a larger
maximum of peaks, and a bound on the larger peaks bounds the smaller ones -/
theorem demands_le (l1 l2 : List icc_node)
    (hle : List.Forall₂ (fun a b => a.avg_bw ≤ b.avg_bw ∧ a.peak_bw ≤ b.peak_bw) l1 l2) :
    (l1.map (·.avg_bw)).sum ≤ (l2.map (·.avg_bw)).sum ∧
    (l1.map (·.peak_bw)).foldr max 0 ≤ (l2.map (·.peak_bw)).foldr max 0 ∧
    ∀ B, (∀ n ∈ l2, n.peak_bw < B) → ∀ n ∈ l1, n.peak_bw < B := by
  induction hle with
  | nil => exact ⟨le_refl _, le_refl _, fun _ _ n hn => by simp at hn⟩
  | cons hab _ ih =>
    obtain ⟨ih1, ih2, ih3⟩ := ih
    refine ⟨?_, ?_, ?_⟩
    · simp only [List.map_cons, List.sum_cons]
      exact Nat.add_le_add hab.1 ih1
    · simp only [List.map_cons, List.foldr_cons]
      exact max_le_max hab.2 ih2
    · intro B hB n hn
      rcases List.mem_cons.mp hn with rfl | hn
      · exact lt_of_le_of_lt hab.2 (hB _ (List.mem_cons_self _ _))
      · exact ih3 B (fun m hm => hB m (List.mem_cons_of_mem _ hm)) n hn

/-- C29: for a fixed voted node with non-zero bus width and two ledger states
of its provider in which every node's `avg_bw` and `peak_bw` in the second
state is at least that in the first, the demands being `u32` values whose sum
of averages fits in 32 bits (in the second state, hence in both), the
required rate computed for the second state is at least that for the first;
the unit conversion is assumed monotone and to map `u32` values into `u64`,
as the kernel's multiplication by 1000 does -/
theorem required_rate_monotone (h : Headers) (qp1 qp2 : qcom_icc_provider)
    (qn : qcom_icc_node) (hbw : qn.buswidth ≠ 0)
    (hle : List.Forall₂ (fun a b => a.avg_bw ≤ b.avg_bw ∧ a.peak_bw ≤ b.peak_bw)
      qp1.nodes qp2.nodes)
    (hpeak : ∀ n ∈ qp2.nodes, n.peak_bw < 2 ^ 32)
    (hsum : (qp2.nodes.map (·.avg_bw)).sum < 2 ^ 32)
    (hmono : ∀ a b, a ≤ b → h.icc_units_to_bps a ≤ h.icc_units_to_bps b)
    (hfit : ∀ a, a < 2 ^ 32 → h.icc_units_to_bps a < 2 ^ 64) :
    required_rate h qp1 qn ≤ required_rate h qp2 qn ∧
    required_rate h qp2 qn
      = max (h.icc_units_to_bps (qp2.nodes.map (·.avg_bw)).sum)
          (h.icc_units_to_bps ((qp2.nodes.map (·.peak_bw)).foldr max 0)) / qn.buswidth := by
  obtain ⟨hs, hp, hb⟩ := demands_le qp1.nodes qp2.nodes hle
  have hpeak1 := hb (2 ^ 32) hpeak
  have hsum1 : (qp1.nodes.map (·.avg_bw)).sum < 2 ^ 32 := lt_of_le_of_lt hs hsum
  have hagg : ∀ qp : qcom_icc_provider, (∀ n ∈ qp.nodes, n.peak_bw < 2 ^ 32) →
      (qp.nodes.map (·.avg_bw)).sum < 2 ^ 32 →
      required_rate h qp qn
        = max (h.icc_units_to_bps (qp.nodes.map (·.avg_bw)).sum)
            (h.icc_units_to_bps ((qp.nodes.map (·.peak_bw)).foldr max 0)) / qn.buswidth := by
    intro qp hpk hsm
    have e := aggregate_from_eq qp.nodes 0 0 (by norm_num) (by norm_num) hpk
    simp only [Nat.zero_add, Nat.zero_max, Nat.mod_eq_of_lt hsm] at e
    have hl := aggregate_lt qp.nodes
    have e1 : (aggregate qp.nodes).1 = (qp.nodes.map (·.avg_bw)).sum := by
      show (aggregate_from qp.nodes (0, 0)).1 = _
      rw [e]
    have e2 : (aggregate qp.nodes).2 = (qp.nodes.map (·.peak_bw)).foldr max 0 := by
      show (aggregate_from qp.nodes (0, 0)).2 = _
      rw [e]
    have f1 := hfit _ hl.1
    have f2 := hfit _ hl.2
    rw [e1] at f1
    rw [e2] at f2
    simp only [required_rate, sum_bw, max_peak_bw, e1, e2, Nat.mod_eq_of_lt f1,
      Nat.mod_eq_of_lt f2]
  rw [hagg qp1 hpeak1 hsum1, hagg qp2 hpeak hsum]
  exact ⟨Nat.div_le_div_right (max_le_max (hmono _ _ hs) (hmono _ _ hp)), rfl⟩

/-- The scenario with bus width 8: raising node 2 from no demand to
(400, 3200) raises the required rate from 200000 to 400000 -/
theorem required_rate_monotone_witness :
    required_rate kernel_headers (scenario 0 800 1600 0 0 0) (plain_node 8 0 0 0).data = 200000 ∧
    required_rate kernel_headers (scenario 0 800 1600 0 400 3200) (plain_node 8 0 0 0).data
      = 400000 ∧
    required_rate kernel_headers (scenario 0 800 1600 0 0 0) (plain_node 8 0 0 0).data
      ≤ required_rate kernel_headers (scenario 0 800 1600 0 400 3200) (plain_node 8 0 0 0).data :=
  ⟨by decide, by decide,
    (required_rate_monotone kernel_headers (scenario 0 800 1600 0 0 0)
      (scenario 0 800 1600 0 400 3200) (plain_node 8 0 0 0).data (by decide)
      (List.Forall₂.cons ⟨le_refl _, le_refl _⟩
        (List.Forall₂.cons ⟨Nat.zero_le _, Nat.zero_le _⟩ List.Forall₂.nil))
      (by decide) (by decide)
      (fun a b hab => Nat.mul_le_mul_right 1000 hab)
      (fun a ha => by show a * 1000 < 2 ^ 64; omega)).1⟩

end IccRpmQos
